import Mathlib

/-!
# The metadata-server core (src/mds/MDS.cc)

A shallow embedding of the control plane of the metadata server: the node
record, the beacon ledger, the cluster-map reactor, the dispatcher and the
boot and shutdown sequencers.  Every member function of class MDS becomes a
function on the record `MDS`.  Calls on collaborators (transport, object-store
client, cache, journal, tables, ...) are appended, in program order, to the
field `trace`.  A failed `assert` is the result `none`.

Conventions.
* `version_t`/`epoch_t` counters are natural numbers.  They are 64-bit in the
  source and are only ever compared or incremented by one per beacon.
* `utime_t` is a natural number of clock units; every reading of
  `g_clock.now()` is an explicit argument `now`.
* `g_conf` is an explicit argument `conf`.
* `std::map<int,epoch_t>` read with `operator[]` is a total function with
  default `0`; `std::map<version_t,utime_t>` and `std::set<int>` are lists kept
  in strictly ascending key order.
-/

namespace MdsCore

/-! ## Collaborator types -/

/-- Modelled from the spec: the lifecycle states named by the `MDSMap::STATE_*`
constants (MDSMap.h is not part of the sources). -/
inductive MDSState
  | DNE | STANDBY | BOOT | CREATING | STARTING | REPLAY | RESOLVE
  | RECONNECT | REJOIN | ACTIVE | STOPPING | STOPPED | FAILED
  deriving DecidableEq, Repr

-- The class of an `entity_name_t`.
inductive EntityType
  | mon | mds | osd | client | admin
  deriving DecidableEq, Repr

-- An `entity_name_t`: a class and a number.
structure EntityName where
  type : EntityType
  num : Int
  deriving DecidableEq, Repr

-- An `entity_inst_t`: a name bound to a transport address.
structure Inst where
  name : EntityName
  addr : Nat
  deriving DecidableEq, Repr

def EntityName.is_mds (n : EntityName) : Bool := n.type == EntityType.mds
def EntityName.is_client (n : EntityName) : Bool := n.type == EntityType.client

/-- The cluster map, seen through the accessors the core calls on it
(MDSMap.h is not part of the sources, so each accessor is a field). -/
structure MDSMap where
  get_epoch : Nat
  get_addr_rank : Nat → Int
  is_standby : Nat → Bool
  is_up : Int → Bool
  is_down : Int → Bool
  have_inst : Int → Bool
  get_inst : Int → Inst
  get_inc : Int → Int
  get_state : Int → MDSState
  get_mds_set : MDSState → List Int
  get_up_mds_set : List Int
  get_recovery_mds_set : List Int
  get_num_in_mds : Nat
  get_num_mds : MDSState → Nat
  get_tableserver : Int
  get_root : Int
  is_rejoining : Bool
  is_degraded : Bool
  get_created : Nat
  get_last_failure : Nat

/-- An inbound message: the header fields the core reads, and the fields of the
concrete message classes it casts to (`MMDSMap`, `MMDSBeacon`,
`MClientRequest`, `MMDSTableRequest`, `MMonCommand`). -/
structure Message where
  type : Nat
  source_inst : Inst
  orig_source_inst : Inst
  -- `MMDSMap::get_epoch()`
  epoch : Nat
  -- the map that `MDSMap::decode` builds from `MMDSMap::get_encoded()`
  encoded : MDSMap
  -- `MMDSBeacon::get_seq()`
  seq : Nat
  -- `MMDSBeacon::get_state()`
  beacon_state : MDSState
  -- `MClientRequest::get_tid()`
  tid : Nat
  -- `MClientRequest::get_num_fwd()`
  num_fwd : Nat
  -- `MClientRequest::can_forward()`
  can_forward : Bool
  -- `MMDSTableRequest::table`
  table : Int
  -- `MMDSTableRequest::op`
  op : Int
  -- `MMonCommand::cmd[0]`
  cmd : String

def Message.get_source (m : Message) : EntityName := m.source_inst.name
def Message.get_orig_source (m : Message) : EntityName := m.orig_source_inst.name

/-- The numeric message-type and port constants (msg/Message.h and MDS.h are
not part of the sources). -/
structure MsgConsts where
  CEPH_MSG_MDS_MAP : Nat
  MSG_MDS_BEACON : Nat
  MSG_MON_COMMAND : Nat
  MSG_MDS_CACHEEXPIRE : Nat
  MDS_PORT_CACHE : Nat
  MDS_PORT_LOCKER : Nat
  MDS_PORT_MIGRATOR : Nat
  CEPH_MSG_CLIENT_SESSION : Nat
  CEPH_MSG_CLIENT_REQUEST : Nat
  CEPH_MSG_CLIENT_RECONNECT : Nat
  MSG_MDS_SLAVE_REQUEST : Nat
  MSG_MDS_HEARTBEAT : Nat
  MSG_MDS_TABLE_REQUEST : Nat
  CEPH_MSG_OSD_OPREPLY : Nat
  CEPH_MSG_OSD_MAP : Nat
  TABLE_ANCHOR : Int
  TABLE_SNAP : Int

-- The fields of `g_conf` the core reads.
structure Conf where
  mds_tick_interval : Nat
  mds_beacon_interval : Nat
  mds_beacon_grace : Nat
  mds_dump_cache_on_map : Bool
  mds_dump_cache_after_rejoin : Bool
  mds_thrash_exports : Nat
  mds_thrash_fragments : Nat

-- The continuations the core creates or holds.
inductive Context
  | C_MDS_Tick
  | C_MDS_BeaconSender
  | C_MDS_BeaconKiller (lab : Nat)
  | C_MDS_RetryMessage (m : Message)
  | C_MDS_BootStart (nextstep : Int)
  | C_MDS_CreateFinish
  -- the `i`-th `new_sub()` of a `C_Gather` that completes `fin`
  | C_Gather_sub (fin : Context) (i : Nat)
  -- a continuation owned by a subsystem
  | other (id : Nat)

-- When a timer event is due: `add_event_after` or `add_event_at`.
inductive Due
  | after (interval : Nat)
  | at_time (t : Nat)
  deriving DecidableEq, Repr

/-- A pending event of the timer: the identity of the context object, its due
time and the context. -/
structure TimerEvent where
  id : Nat
  due : Due
  ctx : Context

-- The messages the core itself builds.
inductive OutMsg
  | MMDSMap (fsid : Nat) (map : MDSMap)
  | MMDSBeacon (fsid : Nat) (epoch : Nat) (want_state : MDSState) (seq : Nat) (want_rank : Int)
  | MClientRequestForward (tid : Nat) (mds : Int) (num_fwd : Nat) (must_resend : Bool)
  | MOSDGetMap (fsid : Nat) (since : Nat)
  | payload (m : Message)

/-- Where a message goes: an inst, or the inst of the monitor that
`MonMap::pick_mon(hint)` chooses. -/
inductive Dest
  | inst (i : Inst)
  | mon (hint : Nat)

-- The tables behind `get_table_client` / `get_table_server`.
inductive Table
  | anchor | snap
  deriving DecidableEq, Repr

-- A call on a collaborator.
inductive Event
  -- transport
  | send_message (m : OutMsg) (dest : Dest)
  | forward_message (m : Message) (dest : Dest)
  | reset_myname (rank : Int)
  | messenger_shutdown
  | delete_message (m : Message)
  -- object-store client
  | objecter_start
  | objecter_shutdown
  | objecter_set_client_incarnation (inc : Int)
  | objecter_set_inc_lock (e : Nat)
  | objecter_handle_osd_op_reply (m : Message)
  | objecter_handle_osd_map (m : Message)
  -- message entry points of the subsystems
  | mdcache_dispatch (m : Message)
  | locker_dispatch (m : Message)
  | migrator_dispatch (m : Message)
  | server_dispatch (m : Message)
  | balancer_proc_message (m : Message)
  | tableclient_handle_request (t : Table) (m : Message)
  | tableserver_handle_request (t : Table) (m : Message)
  | parse_config_option_string (cmd : String)
  -- cache
  | mdcache_shutdown
  | mdcache_dump_cache
  | mdcache_send_resolve (who : Int)
  | mdcache_handle_mds_failure (who : Int)
  | mdcache_handle_mds_recovery (who : Int)
  | migrator_handle_mds_failure_or_stop (who : Int)
  | mdcache_rejoin_send_rejoins
  | mdcache_set_recovery_set (rs : List Int)
  | mdcache_start_recovered_purges
  | mdcache_do_file_recover
  | mdcache_open_root (c : Option Context)
  | mdcache_open_local_stray
  | mdcache_shutdown_start
  | mdcache_shutdown_pass
  | mdcache_trim
  | mdcache_trim_client_leases
  | mdcache_show_subtrees
  | mdcache_show_cache
  | mdcache_reconnect_clean_open_file_lists
  | mdcache_log_stat
  | rootdir_mark_complete
  | straydir_mark_complete
  | rootdir_mark_dirty
  | rootdir_commit (c : Context)
  | straydir_mark_dirty
  | straydir_commit (c : Context)
  -- locker, server, balancer
  | locker_scatter_tick
  | server_find_idle_sessions
  | server_reconnect_tick
  | server_reconnect_clients
  | server_terminate_sessions
  | server_reopen_logger (append : Bool)
  | balancer_get_load
  | balancer_tick
  -- tables
  | tableserver_finish_recovery (t : Table)
  | tableclient_finish_recovery (t : Table)
  | tableserver_handle_mds_recovery (t : Table) (who : Int)
  | tableclient_handle_mds_recovery (t : Table) (who : Int)
  | tableserver_reset (t : Table)
  | tableserver_save (t : Table) (c : Context)
  | tableserver_load (t : Table) (c : Context)
  | snapserver_check_osd_map (force : Bool)
  | inotable_reset
  | inotable_save (c : Context)
  | inotable_load (c : Context)
  | sessionmap_save (c : Context)
  | sessionmap_load (c : Context)
  -- journal
  | mdlog_create (c : Context)
  | mdlog_start_new_segment (c : Option Context)
  | mdlog_open (c : Context)
  | mdlog_replay (c : Context)
  | mdlog_append
  | mdlog_trim
  | mdlog_reopen_logger (append : Bool)
  -- telemetry
  | dout_create_courtesy_output_symlink (rank : Int)
  | logger_reopen (rank : Int) (append : Bool) (start : Nat)
  | logger_publish
  -- continuations and instrumentation
  | finish_contexts (ls : List Context)
  | thrash_exports (passes : Nat)
  | thrash_fragments (passes : Nat)

/-! ## The node -/

/-- The members of class MDS that the core reads or writes, the timer it owns,
and the trace of calls on its collaborators. -/
structure MDS where
  whoami : Int
  want_rank : Int
  state : MDSState
  want_state : MDSState
  mdsmap : MDSMap
  -- `messenger->get_myaddr()`
  myaddr : Nat
  -- `monmap->fsid`
  fsid : Nat
  -- `monmap->last_mon`
  last_mon : Int
  peer_mdsmap_epoch : Int → Nat
  last_client_mdsmap_bcast : Nat
  -- the instances of the sessions `sessionmap.get_client_session_set` yields
  client_sessions : List Inst
  beacon_last_seq : Nat
  beacon_seq_stamp : List (Nat × Nat)
  beacon_last_acked_stamp : Nat
  laggy : Bool
  beacon_sender : Option Nat
  beacon_killer : Option Nat
  tick_event : Option Nat
  -- pending events of `timer`
  timer : List TimerEvent
  -- identity given to the next context object the core allocates
  next_ctx : Nat
  req_rate : Nat
  -- whether `logger` is non-null
  logger : Bool
  -- whether `snapserver`/`anchorserver` are non-null
  have_snapserver : Bool
  have_anchorserver : Bool
  -- `objecter->get_client_incarnation()`
  client_incarnation : Int
  waiting_for_active : List Context
  waiting_for_nolaggy : List Context
  waiting_for_active_peer : Int → List Context
  finished_queue : List Context
  -- the function-local `static utime_t start` of `_dispatch`
  dispatch_start : Nat
  trace : List Event

/-! ### Assignments to members

One function per member that the core assigns; `set_x v s` is the node after
`x = v`. -/

@[simps]
def set_whoami (v : Int) (s : MDS) : MDS := { s with whoami := v }

@[simps]
def set_want_rank (v : Int) (s : MDS) : MDS := { s with want_rank := v }

@[simps]
def set_state (v : MDSState) (s : MDS) : MDS := { s with state := v }

@[simps]
def set_want_state (v : MDSState) (s : MDS) : MDS := { s with want_state := v }

@[simps]
def set_mdsmap (v : MDSMap) (s : MDS) : MDS := { s with mdsmap := v }

@[simps]
def set_last_mon (v : Int) (s : MDS) : MDS := { s with last_mon := v }

@[simps]
def set_peer_mdsmap_epoch (v : Int → Nat) (s : MDS) : MDS := { s with peer_mdsmap_epoch := v }

@[simps]
def set_last_client_mdsmap_bcast (v : Nat) (s : MDS) : MDS := { s with last_client_mdsmap_bcast := v }

@[simps]
def set_beacon_last_seq (v : Nat) (s : MDS) : MDS := { s with beacon_last_seq := v }

@[simps]
def set_beacon_seq_stamp (v : List (Nat × Nat)) (s : MDS) : MDS := { s with beacon_seq_stamp := v }

@[simps]
def set_beacon_last_acked_stamp (v : Nat) (s : MDS) : MDS := { s with beacon_last_acked_stamp := v }

@[simps]
def set_laggy (v : Bool) (s : MDS) : MDS := { s with laggy := v }

@[simps]
def set_beacon_sender (v : Option Nat) (s : MDS) : MDS := { s with beacon_sender := v }

@[simps]
def set_beacon_killer (v : Option Nat) (s : MDS) : MDS := { s with beacon_killer := v }

@[simps]
def set_tick_event (v : Option Nat) (s : MDS) : MDS := { s with tick_event := v }

@[simps]
def set_timer (v : List TimerEvent) (s : MDS) : MDS := { s with timer := v }

@[simps]
def set_next_ctx (v : Nat) (s : MDS) : MDS := { s with next_ctx := v }

@[simps]
def set_req_rate (v : Nat) (s : MDS) : MDS := { s with req_rate := v }

@[simps]
def set_logger (v : Bool) (s : MDS) : MDS := { s with logger := v }

@[simps]
def set_client_incarnation (v : Int) (s : MDS) : MDS := { s with client_incarnation := v }

@[simps]
def set_waiting_for_active (v : List Context) (s : MDS) : MDS := { s with waiting_for_active := v }

@[simps]
def set_waiting_for_nolaggy (v : List Context) (s : MDS) : MDS := { s with waiting_for_nolaggy := v }

@[simps]
def set_waiting_for_active_peer (v : Int → List Context) (s : MDS) : MDS := { s with waiting_for_active_peer := v }

@[simps]
def set_finished_queue (v : List Context) (s : MDS) : MDS := { s with finished_queue := v }

@[simps]
def set_dispatch_start (v : Nat) (s : MDS) : MDS := { s with dispatch_start := v }

@[simps]
def set_trace (v : List Event) (s : MDS) : MDS := { s with trace := v }

-- Record a call on a collaborator.
@[simps]
def emit (e : Event) (s : MDS) : MDS := { s with trace := s.trace ++ [e] }

-- `std::map::operator[]=` on the peer-epoch table.
def set_peer_epoch (f : Int → Nat) (k : Int) (v : Nat) : Int → Nat :=
  fun j => if j = k then v else f j

def MDS.is_active (s : MDS) : Bool := s.state == MDSState.ACTIVE
def MDS.is_replay (s : MDS) : Bool := s.state == MDSState.REPLAY
def MDS.is_resolve (s : MDS) : Bool := s.state == MDSState.RESOLVE
def MDS.is_reconnect (s : MDS) : Bool := s.state == MDSState.RECONNECT
def MDS.is_rejoin (s : MDS) : Bool := s.state == MDSState.REJOIN
def MDS.is_creating (s : MDS) : Bool := s.state == MDSState.CREATING
def MDS.is_starting (s : MDS) : Bool := s.state == MDSState.STARTING
def MDS.is_stopping (s : MDS) : Bool := s.state == MDSState.STOPPING
def MDS.is_stopped (s : MDS) : Bool := s.state == MDSState.STOPPED

-- The map a default-constructed `MDSMap` presents: epoch 0, nobody in it.
def MDSMap.empty : MDSMap where
  get_epoch := 0
  get_addr_rank := fun _ => -1
  is_standby := fun _ => false
  is_up := fun _ => false
  is_down := fun _ => true
  have_inst := fun _ => false
  get_inst := fun r => ⟨⟨EntityType.mds, r⟩, 0⟩
  get_inc := fun _ => 0
  get_state := fun _ => MDSState.DNE
  get_mds_set := fun _ => []
  get_up_mds_set := []
  get_recovery_mds_set := []
  get_num_in_mds := 0
  get_num_mds := fun _ => 0
  get_tableserver := 0
  get_root := 0
  is_rejoining := false
  is_degraded := false
  get_created := 0
  get_last_failure := 0

/-- The constructor `MDS::MDS(whoami, m, mm)`.  It leaves `want_rank` unset
(0 here); `last_mon` and `client_incarnation` start as the monitor map and the
object-store client start them, unset (-1). -/
def MDS.construct (whoami : Int) (myaddr fsid : Nat) : MDS where
  whoami := whoami
  want_rank := 0
  state := MDSState.DNE
  want_state := MDSState.DNE
  mdsmap := MDSMap.empty
  myaddr := myaddr
  fsid := fsid
  last_mon := -1
  peer_mdsmap_epoch := fun _ => 0
  last_client_mdsmap_bcast := 0
  client_sessions := []
  beacon_last_seq := 0
  beacon_seq_stamp := []
  beacon_last_acked_stamp := 0
  laggy := false
  beacon_sender := none
  beacon_killer := none
  tick_event := none
  timer := []
  next_ctx := 0
  req_rate := 0
  logger := false
  have_snapserver := true
  have_anchorserver := true
  client_incarnation := -1
  waiting_for_active := []
  waiting_for_nolaggy := []
  waiting_for_active_peer := fun _ => []
  finished_queue := []
  dispatch_start := 0
  trace := []

/-! ## The timer -/

-- `timer.cancel_event(c)`: the event with that identity stops being pending.
@[simps]
def timer_cancel_event (id : Nat) (s : MDS) : MDS :=
  { s with timer := s.timer.filter (fun e => e.id != id) }

-- `timer.add_event_after` / `timer.add_event_at`.
@[simps]
def timer_add_event (id : Nat) (due : Due) (c : Context) (s : MDS) : MDS :=
  { s with timer := s.timer ++ [⟨id, due, c⟩] }

-- `timer.cancel_all()`.
@[simps]
def timer_cancel_all (s : MDS) : MDS := { s with timer := [] }

/-! ## Sending to peers -/

/-- The block `// send mdsmap first?` that opens both `send_message_mds` and the
transport-level part of `forward_message_mds`. -/
def send_mdsmap_first (s : MDS) (mds : Int) : MDS :=
  if s.peer_mdsmap_epoch mds < s.mdsmap.get_epoch then
    let s := emit (.send_message (.MMDSMap s.fsid s.mdsmap) (.inst (s.mdsmap.get_inst mds))) s
    set_peer_mdsmap_epoch (set_peer_epoch s.peer_mdsmap_epoch mds s.mdsmap.get_epoch) s
  else s

-- `MDS::send_message_mds(m, mds)`.
def send_message_mds (s : MDS) (m : OutMsg) (mds : Int) : MDS :=
  let s := send_mdsmap_first s mds
  emit (.send_message m (.inst (s.mdsmap.get_inst mds))) s

/-- The part of `MDS::forward_message_mds` after the client-request block: the
map if the peer lacks it, then the transport-level forward. -/
def forward_message_mds_transport (s : MDS) (m : Message) (mds : Int) : MDS :=
  let s := send_mdsmap_first s mds
  emit (.forward_message m (.inst (s.mdsmap.get_inst mds))) s

-- `MDS::forward_message_mds(m, mds)`.
def forward_message_mds (K : MsgConsts) (s : MDS) (m : Message) (mds : Int) : MDS :=
  if m.type = K.CEPH_MSG_CLIENT_REQUEST ∧ m.get_orig_source.is_client = true then
    -- creq->inc_num_fwd()
    let creq : Message := { m with num_fwd := m.num_fwd + 1 }
    let client_must_resend : Bool := !creq.can_forward
    let s := emit (.send_message
      (.MClientRequestForward creq.tid mds creq.num_fwd client_must_resend)
      (.inst creq.orig_source_inst)) s
    if client_must_resend then
      emit (.delete_message creq) s
    else forward_message_mds_transport s creq mds
  else forward_message_mds_transport s m mds

-- `MDS::bcast_mds_map()`.
def bcast_mds_map (s : MDS) : MDS :=
  let s := s.client_sessions.foldl
    (fun s i => emit (.send_message (.MMDSMap s.fsid s.mdsmap) (.inst i)) s) s
  set_last_client_mdsmap_bcast s.mdsmap.get_epoch s

/-! ## Ordered containers -/

-- The assignment `m[k] = v` on a `std::map` kept in ascending key order.
def stamp_insert (k v : Nat) : List (Nat × Nat) → List (Nat × Nat)
  | [] => [(k, v)]
  | (k1, v1) :: rest =>
    if k < k1 then (k, v) :: (k1, v1) :: rest
    else if k = k1 then (k, v) :: rest
    else (k1, v1) :: stamp_insert k v rest

-- The test `m.count(k)` on a `std::map`.
def stamp_count (k : Nat) (l : List (Nat × Nat)) : Bool := l.any (fun e => e.1 == k)

-- The read `m[k]` on a `std::map`; a missing key reads as `utime_t()`.
def stamp_get (k : Nat) : List (Nat × Nat) → Nat
  | [] => 0
  | (k1, v1) :: rest => if k1 = k then v1 else stamp_get k rest

/-- The loop
`while (!m.empty() && m.begin()->first <= seq) m.erase(m.begin());`. -/
def erase_upto (seq : Nat) : List (Nat × Nat) → List (Nat × Nat)
  | [] => []
  | (k1, v1) :: rest => if k1 ≤ seq then erase_upto seq rest else (k1, v1) :: rest

-- The call `s.insert(x)` on a `std::set<int>` kept in ascending order.
def set_insert (x : Int) : List Int → List Int
  | [] => [x]
  | y :: rest =>
    if x < y then x :: y :: rest
    else if x = y then y :: rest
    else y :: set_insert x rest

/-- The call `map->get_mds_set(s, state)` and its siblings: every rank the
accessor reports is inserted into the set `acc`. -/
def set_fill (acc : List Int) (ranks : List Int) : List Int :=
  ranks.foldl (fun a x => set_insert x a) acc

/-- Modelled from the spec: `queue_waiters(ls)` of MDS.h, which moves the
continuations of `ls` to the end of `finished_queue` (the caller empties
`ls`). -/
@[simps]
def queue_waiters (ls : List Context) (s : MDS) : MDS :=
  { s with finished_queue := s.finished_queue ++ ls }

/-! ## Tick and beacons -/

-- `MDS::reset_tick()`.
def reset_tick (conf : Conf) (s : MDS) : MDS :=
  let s := match s.tick_event with
    | some id => timer_cancel_event id s
    | none => s
  let id := s.next_ctx
  let s := set_next_ctx (id + 1) (set_tick_event (some id) s)
  timer_add_event id (.after conf.mds_tick_interval) .C_MDS_Tick s

/-- The block `if (logger) ...` of `MDS::tick`; `req` is what
`logger->get("req")` returns. -/
def tick_log (req : Nat) (s : MDS) : MDS :=
  if s.logger then
    let s := set_req_rate req s
    let s := emit .logger_publish s
    emit .mdcache_log_stat s
  else s

-- The block `if (is_active() || is_stopping()) ...` of `MDS::tick`.
def tick_sessions (s : MDS) : MDS :=
  if s.is_active || s.is_stopping then
    emit .server_find_idle_sessions (emit .locker_scatter_tick s)
  else s

-- The block `if (is_reconnect()) ...` of `MDS::tick`.
def tick_reconnect (s : MDS) : MDS :=
  if s.is_reconnect then emit .server_reconnect_tick s else s

-- The block `if (is_active()) ...` of `MDS::tick`.
def tick_balance (s : MDS) : MDS :=
  if s.is_active then
    let s := emit .balancer_tick s
    if s.have_snapserver then emit (.snapserver_check_osd_map false) s else s
  else s

/-- `MDS::tick()`; `req` is what `logger->get("req")` returns. -/
def tick (conf : Conf) (req : Nat) (s : MDS) : MDS :=
  let s := set_tick_event none s
  let s := reset_tick conf s
  if s.laggy then s
  else
    let s := emit .balancer_get_load s
    let s := tick_log req s
    let s := tick_sessions s
    let s := tick_reconnect s
    tick_balance s

-- `MDS::beacon_send()`.
def beacon_send (now : Nat) (conf : Conf) (s : MDS) : MDS :=
  let s := set_beacon_last_seq (s.beacon_last_seq + 1) s
  let mon := s.beacon_seq_stamp.length
  let s := set_beacon_seq_stamp (stamp_insert s.beacon_last_seq now s.beacon_seq_stamp) s
  let s := emit (.send_message
    (.MMDSBeacon s.fsid s.mdsmap.get_epoch s.want_state s.beacon_last_seq s.want_rank)
    (.mon mon)) s
  let s := match s.beacon_sender with
    | some id => timer_cancel_event id s
    | none => s
  let id := s.next_ctx
  let s := set_next_ctx (id + 1) (set_beacon_sender (some id) s)
  timer_add_event id (.after conf.mds_beacon_interval) .C_MDS_BeaconSender s

-- `MDS::beacon_start()`.
def beacon_start (now : Nat) (conf : Conf) (s : MDS) : MDS := beacon_send now conf s

-- `MDS::reset_beacon_killer()`.
def reset_beacon_killer (conf : Conf) (s : MDS) : MDS :=
  let when := s.beacon_last_acked_stamp + conf.mds_beacon_grace
  let s := match s.beacon_killer with
    | some id => timer_cancel_event id s
    | none => s
  let id := s.next_ctx
  let s := set_next_ctx (id + 1) (set_beacon_killer (some id) s)
  timer_add_event id (.at_time when) (.C_MDS_BeaconKiller s.beacon_last_acked_stamp) s

/-- `MDS::handle_mds_beacon(m)`; `none` when the assertion on the stamp of the
acknowledged beacon fails.  The difference `now - beacon_last_acked_stamp` is
taken in the integers. -/
def handle_mds_beacon (now : Nat) (conf : Conf) (s : MDS) (m : Message) : Option MDS :=
  let seq := m.seq
  let s := set_last_mon m.get_source.num s
  if stamp_count seq s.beacon_seq_stamp then
    if stamp_get seq s.beacon_seq_stamp > s.beacon_last_acked_stamp then
      let s := set_beacon_last_acked_stamp (stamp_get seq s.beacon_seq_stamp) s
      let s := set_beacon_seq_stamp (erase_upto seq s.beacon_seq_stamp) s
      let s :=
        if s.laggy ∧ (now : Int) - (s.beacon_last_acked_stamp : Int)
            < (conf.mds_beacon_grace : Int) then
          let s := set_laggy false s
          set_waiting_for_nolaggy [] (queue_waiters s.waiting_for_nolaggy s)
        else s
      let s := reset_beacon_killer conf s
      some (emit (.delete_message m) s)
    else none
  else some (emit (.delete_message m) s)

-- `MDS::beacon_kill(lab)`.
def beacon_kill (lab : Nat) (s : MDS) : MDS :=
  if lab = s.beacon_last_acked_stamp then set_laggy true s else s

-- `MDS::init(standby)`.
def init (now : Nat) (conf : Conf) (s : MDS) : MDS :=
  let s := set_want_state MDSState.BOOT s
  let s := set_want_rank s.whoami s
  let s := beacon_start now conf s
  let s := set_whoami (-1) s
  let s := emit (.reset_myname s.whoami) s
  let s := emit .objecter_start s
  reset_tick conf s

-- `MDS::request_state(s)`.
def request_state (now : Nat) (conf : Conf) (s : MDS) (st : MDSState) : MDS :=
  let s := set_want_state st s
  beacon_send now conf s

-- `MDS::suicide()`.
def suicide (s : MDS) : MDS :=
  let s := match s.beacon_killer with
    | some id => set_beacon_killer none (timer_cancel_event id s)
    | none => s
  let s := match s.beacon_sender with
    | some id => set_beacon_sender none (timer_cancel_event id s)
    | none => s
  let s := match s.tick_event with
    | some id => set_tick_event none (timer_cancel_event id s)
    | none => s
  let s := timer_cancel_all s
  let s := emit .mdcache_shutdown s
  let s := emit .objecter_shutdown s
  emit .messenger_shutdown s

/-! ## Sequencers -/

-- `MDS::reopen_logger(start)`, without the one-time registration of log keys.
def reopen_logger (start : Nat) (s : MDS) : MDS :=
  if s.whoami < 0 then s
  else
    let append : Bool := decide (s.mdsmap.get_inc s.whoami > 1)
    let s := set_logger true s
    let s := emit (.logger_reopen s.whoami append start) s
    let s := emit (.mdlog_reopen_logger append) s
    emit (.server_reopen_logger append) s

/-- The block of `MDS::boot_create` that creates the root inode and its
directory when this node is rank 0. -/
def boot_create_root (s : MDS) : MDS :=
  if s.whoami = 0 then
    emit .rootdir_mark_complete (emit (.mdcache_open_root none) s)
  else s

/-- The block of `MDS::boot_create` that dirties and commits the root directory
when this node is rank 0. -/
def boot_create_commit_root (fin : Context) (s : MDS) : MDS :=
  if s.whoami = 0 then
    emit (.rootdir_commit (.C_Gather_sub fin 2)) (emit .rootdir_mark_dirty s)
  else s

/-- The block of `MDS::boot_create` that writes fresh anchor and snap tables
when this node is the table server; `k` subs of the gather are taken. -/
def boot_create_tables (fin : Context) (k : Nat) (s : MDS) : MDS :=
  if s.mdsmap.get_tableserver = s.whoami then
    let s := emit (.tableserver_reset .anchor) s
    let s := emit (.tableserver_save .anchor (.C_Gather_sub fin k)) s
    let s := emit (.tableserver_reset .snap) s
    emit (.tableserver_save .snap (.C_Gather_sub fin (k + 1))) s
  else s

/-- `MDS::boot_create()`.  The sub-operations complete the gather whose
finisher is `C_MDS_CreateFinish`; `assert(root)` tests an object of the cache
and is not modelled. -/
def boot_create (s : MDS) : MDS :=
  let fin := Context.C_MDS_CreateFinish
  let k : Nat := if s.whoami = 0 then 1 else 0
  let s := boot_create_root s
  let s := emit .mdcache_open_local_stray s
  let s := emit .straydir_mark_complete s
  let s := emit (.mdlog_create (.C_Gather_sub fin 0)) s
  let s := emit (.mdlog_start_new_segment (some (.C_Gather_sub fin 1))) s
  let s := boot_create_commit_root fin s
  let s := emit .straydir_mark_dirty s
  let s := emit (.straydir_commit (.C_Gather_sub fin (2 + k))) s
  let s := emit .inotable_reset s
  let s := emit (.inotable_save (.C_Gather_sub fin (3 + k))) s
  let s := emit (.sessionmap_save (.C_Gather_sub fin (4 + k))) s
  boot_create_tables fin (5 + k) s

-- `MDS::creating_done()`.
def creating_done (now : Nat) (conf : Conf) (s : MDS) : MDS :=
  request_state now conf s MDSState.ACTIVE

-- `C_MDS_CreateFinish::finish(r)`.
def C_MDS_CreateFinish_finish (now : Nat) (conf : Conf) (s : MDS) (_r : Int) : MDS :=
  creating_done now conf s

-- `MDS::starting_done()`; `none` when `assert(is_starting())` fails.
def starting_done (now : Nat) (conf : Conf) (s : MDS) : Option MDS :=
  if s.is_starting then
    let s := request_state now conf s MDSState.ACTIVE
    some (emit (.mdlog_start_new_segment none) s)
  else none

-- `MDS::replay_done()`.
def replay_done (now : Nat) (conf : Conf) (s : MDS) : MDS :=
  let s :=
    if s.mdsmap.get_num_in_mds = 1 ∧ s.mdsmap.get_num_mds MDSState.FAILED = 0 then
      request_state now conf s MDSState.RECONNECT
    else
      request_state now conf s MDSState.RESOLVE
  emit (.mdlog_start_new_segment none) s

-- Case 4 of the switch of `MDS::boot_start`.
def boot_start_4 (now : Nat) (conf : Conf) (s : MDS) : Option MDS :=
  let s := emit .mdcache_open_local_stray s
  starting_done now conf s

-- Case 3 of the switch of `MDS::boot_start`, falling through to case 4.
def boot_start_3 (now : Nat) (conf : Conf) (s : MDS) : Option MDS :=
  if s.is_replay then some (replay_done now conf s)
  else if s.is_starting then
    if s.mdsmap.get_root = s.whoami then
      some (emit (.mdcache_open_root (some (.C_MDS_BootStart 4))) s)
    else boot_start_4 now conf s
  else none

/-- Case 1 of the switch of `MDS::boot_start` (case 0 falls through to it).  The
gather completes into `C_MDS_BootStart(2)`. -/
def boot_start_1 (s : MDS) : MDS :=
  let fin := Context.C_MDS_BootStart 2
  let s := emit (.inotable_load (.C_Gather_sub fin 0)) s
  let s := emit (.sessionmap_load (.C_Gather_sub fin 1)) s
  if s.mdsmap.get_tableserver = s.whoami then
    let s := emit (.tableserver_load .anchor (.C_Gather_sub fin 2)) s
    let s := emit (.tableserver_load .snap (.C_Gather_sub fin 3)) s
    emit (.mdlog_open (.C_Gather_sub fin 4)) s
  else
    emit (.mdlog_open (.C_Gather_sub fin 2)) s

/-- `MDS::boot_start(step, r)`; `none` when an assertion fails. -/
def boot_start (now : Nat) (conf : Conf) (s : MDS) (step : Int) (r : Int) : Option MDS :=
  if r < 0 then some (suicide s)
  else if step = 0 ∨ step = 1 then some (boot_start_1 s)
  else if step = 2 then
    if s.is_replay then
      some (emit (.mdlog_replay (.C_MDS_BootStart 3)) s)
    else
      boot_start_3 now conf (emit .mdlog_append s)
  else if step = 3 then boot_start_3 now conf s
  else if step = 4 then boot_start_4 now conf s
  else some s

-- `C_MDS_BootStart::finish(r)`.
def C_MDS_BootStart_finish (now : Nat) (conf : Conf) (s : MDS) (nextstep : Int) (r : Int) :
    Option MDS :=
  boot_start now conf s nextstep r

-- `MDS::replay_start()`.
def replay_start (now : Nat) (conf : Conf) (s : MDS) : Option MDS :=
  let rs := (set_fill [] s.mdsmap.get_recovery_mds_set).filter (fun p => p != s.whoami)
  let s := emit (.mdcache_set_recovery_set rs) s
  boot_start now conf s 0 0

-- `MDS::resolve_start()`.
def resolve_start (s : MDS) : MDS :=
  let who := set_fill [] (s.mdsmap.get_mds_set MDSState.RESOLVE)
  let who := set_fill who (s.mdsmap.get_mds_set MDSState.REJOIN)
  let who := set_fill who (s.mdsmap.get_mds_set MDSState.ACTIVE)
  let who := set_fill who (s.mdsmap.get_mds_set MDSState.STOPPING)
  who.foldl (fun s p => if p = s.whoami then s else emit (.mdcache_send_resolve p) s) s

-- `MDS::resolve_done()`.
def resolve_done (now : Nat) (conf : Conf) (s : MDS) : MDS :=
  request_state now conf s MDSState.RECONNECT

-- `MDS::reconnect_start()`.
def reconnect_start (s : MDS) : MDS := emit .server_reconnect_clients s

-- `MDS::reconnect_done()`.
def reconnect_done (now : Nat) (conf : Conf) (s : MDS) : MDS :=
  let s := request_state now conf s MDSState.REJOIN
  emit .mdcache_reconnect_clean_open_file_lists s

-- `MDS::rejoin_joint_start()`.
def rejoin_joint_start (s : MDS) : MDS := emit .mdcache_rejoin_send_rejoins s

-- `MDS::rejoin_done()`.
def rejoin_done (now : Nat) (conf : Conf) (s : MDS) : MDS :=
  let s := emit .mdcache_show_subtrees s
  let s := emit .mdcache_show_cache s
  request_state now conf s MDSState.ACTIVE

-- `MDS::recovery_done()`; `none` when `assert(is_active())` fails.
def recovery_done (s : MDS) : Option MDS :=
  if s.is_active then
    let s :=
      if s.mdsmap.get_tableserver = s.whoami then
        emit (.tableserver_finish_recovery .snap) (emit (.tableserver_finish_recovery .anchor) s)
      else s
    let s := emit (.tableclient_finish_recovery .anchor) s
    let s := emit (.tableclient_finish_recovery .snap) s
    let s := emit .mdcache_start_recovered_purges s
    let s := emit .mdcache_do_file_recover s
    let s := bcast_mds_map s
    some (set_waiting_for_active [] (queue_waiters s.waiting_for_active s))
  else none

-- `MDS::handle_mds_recovery(who)`.
def handle_mds_recovery (s : MDS) (who : Int) : MDS :=
  let s := emit (.mdcache_handle_mds_recovery who) s
  let s :=
    if s.have_anchorserver then
      emit (.tableserver_handle_mds_recovery .snap who)
        (emit (.tableserver_handle_mds_recovery .anchor who) s)
    else s
  let s := emit (.tableclient_handle_mds_recovery .anchor who) s
  let s := emit (.tableclient_handle_mds_recovery .snap who) s
  let s := queue_waiters (s.waiting_for_active_peer who) s
  set_waiting_for_active_peer (fun p => if p = who then [] else s.waiting_for_active_peer p) s

-- `MDS::stopping_start()`.
def stopping_start (s : MDS) : MDS :=
  emit .server_terminate_sessions (emit .mdcache_shutdown_start s)

-- `MDS::stopping_done()`.
def stopping_done (now : Nat) (conf : Conf) (s : MDS) : MDS :=
  request_state now conf s MDSState.STOPPED

/-! ## The cluster-map reactor -/

/-- What the reactor does after its state-change switch: run the peer deltas
and fall to `out`, or leave at once (the `return` after `suicide()` on
entering STOPPED). -/
inductive Flow
  | proceed (s : MDS)
  | returned (s : MDS)

-- The node a flow carries.
def Flow.node : Flow → MDS
  | Flow.proceed s => s
  | Flow.returned s => s

-- Whether the reactor left through the `return` after `suicide()`.
def Flow.is_returned : Flow → Bool
  | Flow.proceed _ => false
  | Flow.returned _ => true

/-- The block `if (oldstate != state) ...` of `MDS::handle_mds_map`: the entry
action of the new state.  `none` when an assertion fails. -/
def handle_mds_map_state_change (now : Nat) (conf : Conf) (oldstate : MDSState) (s : MDS) :
    Option Flow :=
  if oldstate ≠ s.state then
    let s := set_want_state s.state s
    if s.is_active then
      let r :=
        if oldstate = MDSState.REJOIN ∨ oldstate = MDSState.RECONNECT then recovery_done s
        else some s
      r.map (fun s =>
        Flow.proceed
          (set_waiting_for_active [] (emit (.finish_contexts s.waiting_for_active) s)))
    else if s.is_replay then (replay_start now conf s).map Flow.proceed
    else if s.is_resolve then some (Flow.proceed (resolve_start s))
    else if s.is_reconnect then some (Flow.proceed (reconnect_start s))
    else if s.is_creating then some (Flow.proceed (boot_create s))
    else if s.is_starting then (boot_start now conf s 0 0).map Flow.proceed
    else if s.is_stopping then
      if oldstate = MDSState.ACTIVE then some (Flow.proceed (stopping_start s)) else none
    else if s.is_stopped then
      if oldstate = MDSState.STOPPING then some (Flow.returned (suicide s)) else none
    else some (Flow.proceed s)
  else some (Flow.proceed s)

/-- The block `// RESOLVE` of `MDS::handle_mds_map`: resolves go to every rank
that is newly resolving. -/
def map_delta_resolve (oldmap : MDSMap) (s : MDS) : MDS :=
  if s.is_resolve || s.is_rejoin || s.is_active || s.is_stopping then
    let oldresolve := set_fill [] (oldmap.get_mds_set MDSState.RESOLVE)
    let resolve := set_fill [] (s.mdsmap.get_mds_set MDSState.RESOLVE)
    if oldresolve ≠ resolve then
      resolve.foldl (fun s p =>
        if p ≠ s.whoami ∧ ¬ p ∈ oldresolve then emit (.mdcache_send_resolve p) s else s) s
    else s
  else s

-- The block `// REJOIN` of `MDS::handle_mds_map`.
def map_delta_rejoin (conf : Conf) (oldmap : MDSMap) (s : MDS) : MDS :=
  if s.is_rejoin || s.is_active || s.is_stopping then
    let s :=
      if !oldmap.is_rejoining && s.mdsmap.is_rejoining then rejoin_joint_start s else s
    if conf.mds_dump_cache_after_rejoin && oldmap.is_rejoining && !s.mdsmap.is_rejoining then
      emit .mdcache_dump_cache s
    else s
  else s

-- The block `// did someone go active?` of `MDS::handle_mds_map`.
def map_delta_active (oldmap : MDSMap) (s : MDS) : MDS :=
  if s.is_active || s.is_stopping then
    let oldactive := set_fill [] (oldmap.get_mds_set MDSState.ACTIVE)
    let active := set_fill [] (s.mdsmap.get_mds_set MDSState.ACTIVE)
    active.foldl (fun s p =>
      if p ≠ s.whoami ∧ ¬ p ∈ oldactive then handle_mds_recovery s p else s) s
  else s

-- The block `// did someone fail?` of `MDS::handle_mds_map`, guarded by `if (true)`.
def map_delta_failed (oldmap : MDSMap) (s : MDS) : MDS :=
  let oldfailed := set_fill [] (oldmap.get_mds_set MDSState.FAILED)
  let failed := set_fill [] (s.mdsmap.get_mds_set MDSState.FAILED)
  let s := failed.foldl (fun s p =>
    if ¬ p ∈ oldfailed then emit (.mdcache_handle_mds_failure p) s else s) s
  let up := set_fill [] s.mdsmap.get_up_mds_set
  up.foldl (fun s p =>
    if oldmap.have_inst p = true ∧ oldmap.get_inst p ≠ s.mdsmap.get_inst p then
      emit (.mdcache_handle_mds_failure p) s
    else s) s

-- The block `// did anyone stop?` of `MDS::handle_mds_map`.
def map_delta_stopped (oldmap : MDSMap) (s : MDS) : MDS :=
  if s.is_active || s.is_stopping then
    let oldstopped := set_fill [] (oldmap.get_mds_set MDSState.STOPPED)
    let stopped := set_fill [] (s.mdsmap.get_mds_set MDSState.STOPPED)
    stopped.foldl (fun s p =>
      if ¬ p ∈ oldstopped then emit (.migrator_handle_mds_failure_or_stop p) s else s) s
  else s

/-- The tail of `MDS::handle_mds_map` from the comment `// RESOLVE` to the label
`out`: the differences between the previous map and the new one. -/
def handle_mds_map_peer_deltas (conf : Conf) (oldmap : MDSMap) (s : MDS) : MDS :=
  let s := map_delta_resolve oldmap s
  let s := map_delta_rejoin conf oldmap s
  let s := map_delta_active oldmap s
  let s := map_delta_failed oldmap s
  map_delta_stopped oldmap s

-- The block `// note source's map version` of `MDS::handle_mds_map`.
def note_peer_epoch (s : MDS) (m : Message) : MDS :=
  if m.get_source.is_mds = true ∧ s.peer_mdsmap_epoch m.get_source.num < m.epoch then
    set_peer_mdsmap_epoch (set_peer_epoch s.peer_mdsmap_epoch m.get_source.num m.epoch) s
  else s

-- The block `// open logger?` of `MDS::handle_mds_map`.
def map_open_logger (oldwhoami : Int) (s : MDS) : MDS :=
  if s.whoami ≥ 0 ∧ s.mdsmap.is_up s.whoami = true ∧
      (oldwhoami ≠ s.whoami ∨ s.logger = false) then
    reopen_logger s.mdsmap.get_created (emit (.dout_create_courtesy_output_symlink s.whoami) s)
  else s

-- The block `if (oldwhoami != whoami) ...` of `MDS::handle_mds_map`.
def map_update_messenger (oldwhoami : Int) (s : MDS) : MDS :=
  if oldwhoami ≠ s.whoami then
    let s := emit (.reset_myname s.whoami) s
    if oldwhoami < 0 then
      emit (.send_message (.MOSDGetMap s.fsid 0) (.mon 0)) s
    else s
  else s

/-- The block `// tell objecter my incarnation` of `MDS::handle_mds_map`; `none`
when `assert(mdsmap->get_inc(whoami) > 0)` fails. -/
def map_tell_objecter (s : MDS) : Option MDS :=
  if s.client_incarnation < 0 ∧ s.mdsmap.have_inst s.whoami = true then
    if s.mdsmap.get_inc s.whoami > 0 then
      some (emit (.objecter_set_client_incarnation (s.mdsmap.get_inc s.whoami))
        (set_client_incarnation (s.mdsmap.get_inc s.whoami) s))
    else none
  else some s

/-- The part of `MDS::handle_mds_map` that runs once the new map gives this
node a rank: from `// open logger?` to the end. -/
def handle_mds_map_ranked (now : Nat) (conf : Conf) (oldmap : MDSMap) (oldwhoami : Int)
    (oldstate : MDSState) (s : MDS) (m : Message) : Option MDS :=
  let s := map_open_logger oldwhoami s
  let s := map_update_messenger oldwhoami s
  (map_tell_objecter s).bind fun s =>
    let s := emit (.objecter_set_inc_lock s.mdsmap.get_last_failure) s
    let s := if conf.mds_dump_cache_on_map then emit .mdcache_dump_cache s else s
    -- update my state
    let s := set_state (s.mdsmap.get_state s.whoami) s
    (handle_mds_map_state_change now conf oldstate s).map fun f =>
      match f with
      | Flow.returned s => s
      | Flow.proceed s => emit (.delete_message m) (handle_mds_map_peer_deltas conf oldmap s)

/-- `MDS::handle_mds_map(m)`; `none` when an assertion fails. -/
def handle_mds_map (now : Nat) (conf : Conf) (s : MDS) (m : Message) : Option MDS :=
  let epoch := m.epoch
  let s := note_peer_epoch s m
  -- is it new?
  if epoch ≤ s.mdsmap.get_epoch then
    some (emit (.delete_message m) s)
  else
    let oldmap := s.mdsmap
    let oldwhoami := s.whoami
    let oldstate := s.state
    -- decode and process
    let s := set_mdsmap m.encoded s
    -- see who i am
    let s := set_whoami (s.mdsmap.get_addr_rank s.myaddr) s
    if s.whoami < 0 then
      if s.mdsmap.is_standby s.myaddr then
        let s :=
          if s.state ≠ MDSState.STANDBY then
            set_state MDSState.STANDBY (set_want_state MDSState.STANDBY s)
          else s
        some (emit (.delete_message m) s)
      else
        some (emit (.delete_message m) (suicide s))
    else
      handle_mds_map_ranked now conf oldmap oldwhoami oldstate s m

/-! ## The dispatcher -/

-- `MDS::get_table_client(t)` / `MDS::get_table_server(t)`; `none` is `assert(0)`.
def get_table (K : MsgConsts) (t : Int) : Option Table :=
  if t = K.TABLE_ANCHOR then some Table.anchor
  else if t = K.TABLE_SNAP then some Table.snap
  else none

/-- The imposter test at the head of `MDS::_dispatch`: whether the message is
dropped. -/
def from_bad_mds (K : MsgConsts) (s : MDS) (m : Message) : Bool :=
  if m.get_source.is_mds then
    let src := m.get_source.num
    if !s.mdsmap.have_inst src || decide (s.mdsmap.get_inst src ≠ m.source_inst) ||
        s.mdsmap.is_down src then
      if m.type = K.CEPH_MSG_MDS_MAP then false
      else if m.type = K.MSG_MDS_CACHEEXPIRE ∧ s.mdsmap.get_inst src = m.source_inst then false
      else true
    else false
  else false

/-- The inner switches of `MDS::_dispatch` for a node that is not laggy: route
by port, then by type.  The result is `none` when `assert(0)` fires, and
`some none` for the `return false` of an unknown type. -/
def dispatch_route (K : MsgConsts) (s : MDS) (m : Message) : Option (Option MDS) :=
  let port := m.type &&& 0xff00
  if port = K.MDS_PORT_CACHE then some (some (emit (.mdcache_dispatch m) s))
  else if port = K.MDS_PORT_LOCKER then some (some (emit (.locker_dispatch m) s))
  else if port = K.MDS_PORT_MIGRATOR then some (some (emit (.migrator_dispatch m) s))
  else if m.type = K.CEPH_MSG_CLIENT_SESSION ∨ m.type = K.CEPH_MSG_CLIENT_REQUEST ∨
      m.type = K.CEPH_MSG_CLIENT_RECONNECT ∨ m.type = K.MSG_MDS_SLAVE_REQUEST then
    some (some (emit (.server_dispatch m) s))
  else if m.type = K.MSG_MDS_HEARTBEAT then some (some (emit (.balancer_proc_message m) s))
  else if m.type = K.MSG_MDS_TABLE_REQUEST then
    if m.op < 0 then
      (get_table K m.table).map fun t => some (emit (.tableclient_handle_request t m) s)
    else
      (get_table K m.table).map fun t => some (emit (.tableserver_handle_request t m) s)
  else if m.type = K.CEPH_MSG_OSD_OPREPLY then
    some (some (emit (.objecter_handle_osd_op_reply m) s))
  else if m.type = K.CEPH_MSG_OSD_MAP then
    let s := emit (.objecter_handle_osd_map m) s
    some (some (if s.is_active && s.have_snapserver then
      emit (.snapserver_check_osd_map true) s else s))
  else some none

-- The block `// finish any triggered contexts` of `MDS::_dispatch`.
def dispatch_finish_queue (s : MDS) : MDS :=
  if s.finished_queue.length ≠ 0 then
    set_finished_queue [] (emit (.finish_contexts s.finished_queue) s)
  else s

-- The block `// HACK FOR NOW` of `MDS::_dispatch`: journal and cache trim.
def dispatch_trim (s : MDS) : MDS :=
  if s.is_active || s.is_stopping then
    emit .mdcache_trim_client_leases (emit .mdcache_trim (emit .mdlog_trim s))
  else s

/-- The two thrash loops of `MDS::_dispatch`.  Their bodies work on the cache
and are one event each; clock units are seconds here. -/
def dispatch_thrash (now : Nat) (conf : Conf) (s : MDS) : MDS :=
  let s := if s.dispatch_start = 0 then set_dispatch_start now s else s
  let el : Int := (now : Int) - (s.dispatch_start : Int)
  let s :=
    if el > 30 ∧ el < 60 ∧ 0 < conf.mds_thrash_exports ∧ s.is_active = true then
      emit (.thrash_exports conf.mds_thrash_exports) s
    else s
  if 0 < conf.mds_thrash_fragments ∧ s.is_active = true then
    emit (.thrash_fragments conf.mds_thrash_fragments) s
  else s

/-- The block `// shut down?` of `MDS::_dispatch`; `shutdown_pass` is what
`mdcache->shutdown_pass()` returns. -/
def dispatch_shutdown (now : Nat) (conf : Conf) (shutdown_pass : Bool) (s : MDS) : MDS :=
  if s.is_stopping then
    let s := emit .mdcache_shutdown_pass s
    if shutdown_pass then stopping_done now conf s else s
  else s

/-- The tail of `MDS::_dispatch` after the test `if (laggy) return true`.
Running the spliced continuations is the event `finish_contexts`. -/
def dispatch_post (now : Nat) (conf : Conf) (shutdown_pass : Bool) (s : MDS) : MDS :=
  let s := dispatch_finish_queue s
  let s := dispatch_trim s
  let s := dispatch_thrash now conf s
  dispatch_shutdown now conf shutdown_pass s

/-- `MDS::_dispatch(m)`: the node afterwards and the boolean returned; `none`
when an assertion fails. -/
def _dispatch (K : MsgConsts) (now : Nat) (conf : Conf) (shutdown_pass : Bool)
    (s : MDS) (m : Message) : Option (MDS × Bool) :=
  if from_bad_mds K s m then
    some (emit (.delete_message m) s, true)
  else
    let r : Option (Option MDS) :=
      if m.type = K.CEPH_MSG_MDS_MAP then (handle_mds_map now conf s m).map some
      else if m.type = K.MSG_MDS_BEACON then (handle_mds_beacon now conf s m).map some
      else if m.type = K.MSG_MON_COMMAND then
        some (some (emit (.delete_message m) (emit (.parse_config_option_string m.cmd) s)))
      else if s.laggy then
        some (some (set_waiting_for_nolaggy
          (s.waiting_for_nolaggy ++ [Context.C_MDS_RetryMessage m]) s))
      else dispatch_route K s m
    r.map fun o =>
      match o with
      | none => (s, false)
      | some s1 =>
        if s1.laggy then (s1, true)
        else (dispatch_post now conf shutdown_pass s1, true)

/-! ## Runs and example data -/

/-- The message entry points of the subsystems: cache, locker, migrator,
server, balancer, table client, table server and object-store client. -/
def Event.is_subsystem_entry : Event → Bool
  | .mdcache_dispatch _ => true
  | .locker_dispatch _ => true
  | .migrator_dispatch _ => true
  | .server_dispatch _ => true
  | .balancer_proc_message _ => true
  | .tableclient_handle_request _ _ => true
  | .tableserver_handle_request _ _ => true
  | .objecter_handle_osd_op_reply _ => true
  | .objecter_handle_osd_map _ => true
  | .snapserver_check_osd_map _ => true
  | _ => false

/-- The work `_dispatch` does after routing: running the finished queue,
journal and cache trim, the thrash loops and the shutdown pass. -/
def Event.is_post_dispatch : Event → Bool
  | .finish_contexts _ => true
  | .mdlog_trim => true
  | .mdcache_trim => true
  | .mdcache_trim_client_leases => true
  | .mdcache_shutdown_pass => true
  | .thrash_exports _ => true
  | .thrash_fragments _ => true
  | _ => false

-- The keys of a ledger are strictly ascending, as in any `std::map`.
def keys_ascending (l : List (Nat × Nat)) : Prop := l.Pairwise (fun a b => a.1 < b.1)

/-- The nodes reachable from construction by beacon sends and beacon
acknowledgements, each paired with the sequence number of the latest
acknowledgement found in the ledger (0 before the first one). -/
inductive BeaconReach : MDS → Nat → Prop
  | construct (whoami : Int) (myaddr fsid : Nat) :
      BeaconReach (MDS.construct whoami myaddr fsid) 0
  | send (now : Nat) (conf : Conf) (s : MDS) (a : Nat) :
      BeaconReach s a → BeaconReach (beacon_send now conf s) a
  | ack_accepted (now : Nat) (conf : Conf) (s s1 : MDS) (a : Nat) (m : Message) :
      BeaconReach s a → stamp_count m.seq s.beacon_seq_stamp = true →
      handle_mds_beacon now conf s m = some s1 → BeaconReach s1 m.seq
  | ack_ignored (now : Nat) (conf : Conf) (s s1 : MDS) (a : Nat) (m : Message) :
      BeaconReach s a → stamp_count m.seq s.beacon_seq_stamp = false →
      handle_mds_beacon now conf s m = some s1 → BeaconReach s1 a



-- A run of the reactor over a sequence of incoming map messages.
def handle_mds_maps (now : Nat) (conf : Conf) : MDS → List Message → Option MDS
  | s, [] => some s
  | s, m :: ms => (handle_mds_map now conf s m).bind fun s1 => handle_mds_maps now conf s1 ms

-- A map like `base` with another epoch.
def MDSMap.at_epoch (base : MDSMap) (e : Nat) : MDSMap := { base with get_epoch := e }

-- Concrete message constants used in examples.
def exampleConsts : MsgConsts where
  CEPH_MSG_MDS_MAP := 21
  MSG_MDS_BEACON := 100
  MSG_MON_COMMAND := 50
  MSG_MDS_CACHEEXPIRE := 0x207
  MDS_PORT_CACHE := 0x200
  MDS_PORT_LOCKER := 0x300
  MDS_PORT_MIGRATOR := 0x400
  CEPH_MSG_CLIENT_SESSION := 22
  CEPH_MSG_CLIENT_REQUEST := 24
  CEPH_MSG_CLIENT_RECONNECT := 23
  MSG_MDS_SLAVE_REQUEST := 101
  MSG_MDS_HEARTBEAT := 0x500
  MSG_MDS_TABLE_REQUEST := 102
  CEPH_MSG_OSD_OPREPLY := 43
  CEPH_MSG_OSD_MAP := 41
  TABLE_ANCHOR := 1
  TABLE_SNAP := 2

-- Concrete configuration used in examples.
def exampleConf : Conf where
  mds_tick_interval := 5
  mds_beacon_interval := 4
  mds_beacon_grace := 15
  mds_dump_cache_on_map := false
  mds_dump_cache_after_rejoin := false
  mds_thrash_exports := 0
  mds_thrash_fragments := 0

-- A message of type `ty` from `src`, all payload fields zero.
def exampleMessage (ty : Nat) (src : Inst) : Message where
  type := ty
  source_inst := src
  orig_source_inst := src
  epoch := 0
  encoded := MDSMap.empty
  seq := 0
  beacon_state := MDSState.DNE
  tid := 0
  num_fwd := 0
  can_forward := false
  table := 0
  op := 0
  cmd := ""

-- A freshly constructed node of rank 0 at address 7.
def exampleNode : MDS := MDS.construct 0 7 1

def monInst : Inst := ⟨⟨EntityType.mon, 0⟩, 100⟩
def mdsInst (r : Int) : Inst := ⟨⟨EntityType.mds, r⟩, 200⟩
def clientInst : Inst := ⟨⟨EntityType.client, 9⟩, 300⟩



-- A beacon acknowledgement from the monitor for sequence `seq`.
def beaconAck (seq : Nat) : Message :=
  { exampleMessage exampleConsts.MSG_MDS_BEACON monInst with seq := seq }

-- The example node with beacons 1, 2 and 3 sent at times 10, 20 and 30.
def nodeThreeBeacons : MDS :=
  beacon_send 30 exampleConf (beacon_send 20 exampleConf (beacon_send 10 exampleConf exampleNode))

-- The node `nodeThreeBeacons` after the acknowledgement of beacon 2 at time 31.
def nodeAckedTwo : MDS :=
  emit (.delete_message (beaconAck 2))
    (reset_beacon_killer exampleConf
      (set_beacon_seq_stamp [(3, 30)]
        (set_beacon_last_acked_stamp 20 (set_last_mon 0 nodeThreeBeacons))))

-- The example node with the laggy flag set.
def laggyNode : MDS := set_laggy true exampleNode

-- A monitor command.
def monCommand : Message :=
  { exampleMessage exampleConsts.MSG_MON_COMMAND monInst with cmd := "debug_mds=10" }

-- A client request from `clientInst`, not idempotent, forwarded twice so far.
def clientRequest : Message :=
  { exampleMessage exampleConsts.CEPH_MSG_CLIENT_REQUEST clientInst with
    tid := 42, num_fwd := 2, can_forward := false }

-- A heartbeat from peer rank 1, which the empty map does not know.
def peerHeartbeat : Message := exampleMessage exampleConsts.MSG_MDS_HEARTBEAT (mdsInst 1)

-- An idempotent client request from `clientInst`.
def clientLookup : Message :=
  { exampleMessage exampleConsts.CEPH_MSG_CLIENT_REQUEST clientInst with
    tid := 43, num_fwd := 0, can_forward := true }

-- A map at epoch `e` that lists every address as standby and ranks nobody.
def standbyMap (e : Nat) : MDSMap :=
  { MDSMap.empty with get_epoch := e, is_standby := fun _ => true }

-- A map message from the monitor with header epoch `e` that encodes `map`.
def mapMessage (e : Nat) (map : MDSMap) : Message :=
  { exampleMessage exampleConsts.CEPH_MSG_MDS_MAP monInst with epoch := e, encoded := map }

-- The example node once it holds a map of epoch 3.
def nodeAtEpoch3 : MDS := set_mdsmap (standbyMap 3) exampleNode

-- The example node after it took `mapMessage e (standbyMap e)` and went standby.
def standbyNode (e : Nat) : MDS :=
  emit (.delete_message (mapMessage e (standbyMap e)))
    (set_state MDSState.STANDBY (set_want_state MDSState.STANDBY
      (set_whoami (-1) (set_mdsmap (standbyMap e) exampleNode))))

/-- A map at epoch `e` in which address 7 holds rank 0 in state `st`, and in
which the ranks of `active` are ACTIVE. -/
def rankedMap (e : Nat) (st : MDSState) (active : List Int) : MDSMap :=
  { MDSMap.empty with
    get_epoch := e
    get_addr_rank := fun a => if a = 7 then 0 else -1
    get_state := fun r => if r = 0 then st else if r ∈ active then MDSState.ACTIVE
      else MDSState.DNE
    get_mds_set := fun x => if x = MDSState.ACTIVE then active else []
    get_inc := fun _ => 1 }

-- The example node as rank 0 in state `st` under `rankedMap 1 st active`.
def rankedNode (st : MDSState) (active : List Int) : MDS :=
  set_state st (set_want_state st (set_whoami 0
    (set_mdsmap (rankedMap 1 st active) exampleNode)))

-- A standby node that asked for ACTIVE.
def standbyWantsActive : MDS := request_state 5 exampleConf (standbyNode 1) MDSState.ACTIVE

-- Rank 0, ACTIVE alone at epoch 1, is shown a map in which rank 1 is ACTIVE too.
def peerActiveMessage : Message := mapMessage 2 (rankedMap 2 MDSState.ACTIVE [0, 1])

-- Rank 0, in REJOIN at epoch 1, is shown a map that makes it ACTIVE.
def goActiveMessage : Message := mapMessage 2 (rankedMap 2 MDSState.ACTIVE [0])

-- The node after the pass over `peerActiveMessage`.
def activeWithPeer : MDS :=
  (handle_mds_map 0 exampleConf (rankedNode MDSState.ACTIVE [0]) peerActiveMessage).getD
    exampleNode

-- Rank 0 in REJOIN at epoch 1, with one client session and a continuation waiting.
def rejoinNode : MDS :=
  { rankedNode MDSState.REJOIN [] with
    client_sessions := [clientInst]
    waiting_for_active := [Context.other 5] }

-- The node after the pass over `goActiveMessage`, coming from REJOIN.
def activeFromRejoin : MDS :=
  (handle_mds_map 0 exampleConf rejoinNode goActiveMessage).getD exampleNode

-- The node after the pass over `goActiveMessage`, coming from CREATING.
def activeFromCreating : MDS :=
  (handle_mds_map 0 exampleConf (rankedNode MDSState.CREATING []) goActiveMessage).getD
    exampleNode

-- The node `nodeThreeBeacons`, laggy, with one client request deferred.
def laggyThreeBeacons : MDS :=
  set_waiting_for_nolaggy [Context.C_MDS_RetryMessage clientRequest]
    (set_laggy true nodeThreeBeacons)

-- A map at epoch `e` with `n` ranks in the cluster and `failed` of them FAILED.
def countedMap (e n failed : Nat) : MDSMap :=
  { MDSMap.empty with
    get_epoch := e
    get_num_in_mds := n
    get_num_mds := fun st => if st = MDSState.FAILED then failed else 0 }

-- A table request from `clientInst` for table id `table` with op code `op`.
def tableRequest (table op : Int) : Message :=
  { exampleMessage exampleConsts.MSG_MDS_TABLE_REQUEST clientInst with table := table, op := op }

-- The laggy example node after `init` at time 0.
def laggyAfterInit : MDS := set_laggy true (init 0 exampleConf exampleNode)

/-- A map at epoch `e` in which address 7 holds rank 0 in state `st` and the
root inode is hosted by rank `root`. -/
def rootedMap (e : Nat) (st : MDSState) (root : Int) : MDSMap :=
  { rankedMap e st [] with get_root := root }

-- The example node as rank 0 in state `st` under `rootedMap 1 st root`.
def rootedNode (st : MDSState) (root : Int) : MDS :=
  set_state st (set_want_state st (set_whoami 0 (set_mdsmap (rootedMap 1 st root) exampleNode)))

/-- A map at epoch `e` in which address 7 holds rank 0 in state `st`, the ranks
of `failed` are FAILED, the ranks of `up` are up, and rank `p` has the inst
`mdsInst p` at the address `addr`. -/
def failureMap (e : Nat) (st : MDSState) (failed up : List Int) (addr : Nat) : MDSMap :=
  { MDSMap.empty with
    get_epoch := e
    get_addr_rank := fun a => if a = 7 then 0 else -1
    get_state := fun r => if r = 0 then st else MDSState.DNE
    get_mds_set := fun x => if x = MDSState.FAILED then failed else []
    get_up_mds_set := up
    have_inst := fun r => decide (r ∈ up)
    get_inst := fun r => ⟨⟨EntityType.mds, r⟩, addr⟩
    get_inc := fun _ => 1 }

-- Rank 0 in BOOT-time state CREATING, with ranks 0 and 1 up and nobody FAILED.
def creatingNode : MDS :=
  set_state MDSState.CREATING (set_want_state MDSState.CREATING (set_whoami 0
    (set_mdsmap (failureMap 1 MDSState.CREATING [] [0, 1] 200) exampleNode)))

-- The next map: rank 2 is FAILED, and rank 1 is up at another address.
def failureMessage : Message := mapMessage 2 (failureMap 2 MDSState.CREATING [2] [0, 1] 201)

-- The node `creatingNode` after the pass over `failureMessage`.
def creatingAfterFailure : MDS :=
  (handle_mds_map 0 exampleConf creatingNode failureMessage).getD exampleNode

/-! ## Observations on the trace -/

/-- The calls on collaborators that the lifecycle properties count: a beacon
with the desired state it carries, the first call of `handle_mds_recovery(who)`,
`mdcache->handle_mds_failure(who)`, the table-client and purge calls of
`recovery_done`, and the last call of `suicide`. -/
inductive Mark
  | beacon (want : MDSState)
  | handle_mds_recovery (who : Int)
  | handle_mds_failure (who : Int)
  | finish_recovery (t : Table)
  | recovered_purges
  | shutdown
  deriving DecidableEq, Repr

-- The mark of an event, if it is one of the counted calls.
def Event.mark : Event → Option Mark
  | .send_message (.MMDSBeacon _ _ want _ _) _ => some (.beacon want)
  | .mdcache_handle_mds_recovery who => some (.handle_mds_recovery who)
  | .mdcache_handle_mds_failure who => some (.handle_mds_failure who)
  | .tableclient_finish_recovery t => some (.finish_recovery t)
  | .mdcache_start_recovered_purges => some .recovered_purges
  | .messenger_shutdown => some .shutdown
  | _ => none

-- The counted calls of a trace, in order.
def marks_of (tr : List Event) : List Mark := tr.filterMap Event.mark

-- The counted calls a node has made so far, in order.
def marks (s : MDS) : List Mark := marks_of s.trace

/-- The counted calls of the entry action that the reactor runs when the state
of the node goes from `old` to `new`: the table-client and purge calls of
`recovery_done` on entering ACTIVE from REJOIN or RECONNECT, the shutdown of
`suicide` on entering STOPPED. -/
def entry_marks (old new : MDSState) : List Mark :=
  if old = new then []
  else if new = MDSState.ACTIVE ∧ (old = MDSState.REJOIN ∨ old = MDSState.RECONNECT) then
    [Mark.finish_recovery Table.anchor, Mark.finish_recovery Table.snap, Mark.recovered_purges]
  else if new = MDSState.STOPPED then [Mark.shutdown]
  else []

/-- The counted calls of the peer deltas of a reactor pass of rank `whoami`
whose new state is `new`: `handle_mds_recovery` for the ranks newly ACTIVE (when
the node is ACTIVE or STOPPING), then `handle_mds_failure` for the ranks newly
FAILED and for the up ranks whose inst changed. -/
def delta_marks (oldmap newmap : MDSMap) (whoami : Int) (new : MDSState) : List Mark :=
  (if new = MDSState.ACTIVE ∨ new = MDSState.STOPPING then
    ((set_fill [] (newmap.get_mds_set MDSState.ACTIVE)).filter (fun p =>
      decide (p ≠ whoami ∧ ¬ p ∈ set_fill [] (oldmap.get_mds_set MDSState.ACTIVE)))).map
      Mark.handle_mds_recovery
  else []) ++
  ((set_fill [] (newmap.get_mds_set MDSState.FAILED)).filter (fun p =>
    decide (¬ p ∈ set_fill [] (oldmap.get_mds_set MDSState.FAILED)))).map
    Mark.handle_mds_failure ++
  ((set_fill [] newmap.get_up_mds_set).filter (fun p =>
    decide (oldmap.have_inst p = true ∧ oldmap.get_inst p ≠ newmap.get_inst p))).map
    Mark.handle_mds_failure

/-! ## The calls of recovery_done -/

/-- The calls `recovery_done` makes: `finish_recovery` on a table server and on
a table client, the start of the deferred purges, the file recovery, and a map
message sent to an inst (the broadcast to the clients). -/
inductive RecoveryCall
  | server_finish_recovery (t : Table)
  | client_finish_recovery (t : Table)
  | start_recovered_purges
  | do_file_recover
  | map_sent (i : Inst) (epoch : Nat)
  deriving DecidableEq

-- The call of `recovery_done` an event is, if it is one.
def Event.recovery_call : Event → Option RecoveryCall
  | .tableserver_finish_recovery t => some (.server_finish_recovery t)
  | .tableclient_finish_recovery t => some (.client_finish_recovery t)
  | .mdcache_start_recovered_purges => some .start_recovered_purges
  | .mdcache_do_file_recover => some .do_file_recover
  | .send_message (.MMDSMap _ map) (.inst i) => some (.map_sent i map.get_epoch)
  | _ => none

-- The calls of `recovery_done` a node has made so far, in order.
def recovery_calls (s : MDS) : List RecoveryCall := s.trace.filterMap Event.recovery_call

/-- The calls of one run of `recovery_done` on rank `whoami` under `map` with
the client sessions `sessions`: the table servers when this rank is the table
server, the table clients, the purges, the file recovery, and the map to each
client. -/
def recovery_done_calls (map : MDSMap) (whoami : Int) (sessions : List Inst) :
    List RecoveryCall :=
  (if map.get_tableserver = whoami then
    [RecoveryCall.server_finish_recovery Table.anchor,
      RecoveryCall.server_finish_recovery Table.snap] else []) ++
  [RecoveryCall.client_finish_recovery Table.anchor,
    RecoveryCall.client_finish_recovery Table.snap,
    RecoveryCall.start_recovered_purges, RecoveryCall.do_file_recover] ++
  sessions.map (fun i => RecoveryCall.map_sent i map.get_epoch)

/-- What `recovery_done` leaves behind: its calls so far, the epoch of the last
map broadcast to the clients, and the client sessions. -/
def recovery_view (s : MDS) : List RecoveryCall × Nat × List Inst :=
  (recovery_calls s, s.last_client_mdsmap_bcast, s.client_sessions)

/-! ## Timer events firing -/

/-- Modelled from the spec: the `finish` methods of the timer contexts of MDS.h.
The tick context calls `tick`, the beacon sender calls `beacon_send`, and the
beacon killer calls `beacon_kill` with the stamp captured when it was armed. -/
def timer_context_finish (now : Nat) (conf : Conf) (req : Nat) (c : Context) (s : MDS) : MDS :=
  match c with
  | .C_MDS_Tick => tick conf req s
  | .C_MDS_BeaconSender => beacon_send now conf s
  | .C_MDS_BeaconKiller lab => beacon_kill lab s
  | _ => s

/-- Modelled from the spec: the timer fires the pending event with identity
`id`: the event stops being pending and its context is finished. -/
def timer_fire (now : Nat) (conf : Conf) (req : Nat) (id : Nat) (s : MDS) : MDS :=
  match s.timer.find? (fun e => e.id == id) with
  | none => s
  | some e => timer_context_finish now conf req e.ctx (timer_cancel_event id s)

-- Whether a pending event is a beacon killer.
def TimerEvent.is_beacon_killer (e : TimerEvent) : Bool :=
  match e.ctx with
  | .C_MDS_BeaconKiller _ => true
  | _ => false

-- Every beacon killer that is pending in `s` fires, oldest first.
def fire_beacon_killers (now : Nat) (conf : Conf) (req : Nat) (s : MDS) : MDS :=
  (s.timer.filter TimerEvent.is_beacon_killer).foldl
    (fun s e => timer_fire now conf req e.id s) s

-- A run of beacon sends at the clock readings `times`, with no acknowledgement.
def beacon_sends (conf : Conf) (times : List Nat) (s : MDS) : MDS :=
  times.foldl (fun s t => beacon_send t conf s) s

/-- The pending events have distinct identities below `next_ctx`, the next
identity to hand out, and so has the beacon-sender handle. -/
def timer_ok (s : MDS) : Prop :=
  (s.timer.map TimerEvent.id).Nodup ∧ (∀ x ∈ s.timer, x.id < s.next_ctx) ∧
  (∀ id, s.beacon_sender = some id → id < s.next_ctx)

/-- The event `e` is a pending beacon killer armed with the current
last_acked_stamp, in a timer whose events have distinct identities below
`next_ctx`; the beacon-sender handle is another identity. -/
def killer_armed (e : TimerEvent) (s : MDS) : Prop :=
  (s.timer.map TimerEvent.id).Nodup ∧ (∀ x ∈ s.timer, x.id < s.next_ctx) ∧
  (∀ id, s.beacon_sender = some id → id < s.next_ctx ∧ id ≠ e.id) ∧
  e ∈ s.timer ∧ e.ctx = Context.C_MDS_BeaconKiller s.beacon_last_acked_stamp

-- The example node after `init` at time 0 and four more beacons: five sent, none acknowledged.
def nodeFiveBeacons : MDS := beacon_sends exampleConf [4, 8, 12, 16] (init 0 exampleConf exampleNode)

-- The node `nodeAckedTwo` after five more beacons, none of them acknowledged.
def nodeAckedThenFive : MDS := beacon_sends exampleConf [32, 36, 40, 44, 48] nodeAckedTwo

/-! ## Runs of beacons and acknowledgements -/

/-- One step of a run of the beacon protocol: `beacon_send` at a clock reading,
or `handle_mds_beacon` of an acknowledgement at a clock reading. -/
inductive BeaconOp
  | send (now : Nat)
  | ack (now : Nat) (m : Message)

-- One step of a run; `none` when the assertion of the handler fails.
def beacon_op (conf : Conf) (s : MDS) : BeaconOp → Option MDS
  | .send now => some (beacon_send now conf s)
  | .ack now m => handle_mds_beacon now conf s m

-- A run of the beacon protocol; `none` when an assertion fails on the way.
def beacon_run (conf : Conf) : MDS → List BeaconOp → Option MDS
  | s, [] => some s
  | s, op :: ops => (beacon_op conf s op).bind fun s1 => beacon_run conf s1 ops

-- The clock readings taken at the beacon sends of a run, in order.
def send_times : List BeaconOp → List Nat
  | [] => []
  | .send now :: ops => now :: send_times ops
  | .ack _ _ :: ops => send_times ops

/-- The ledger of `s` has ascending sequences with ascending send timestamps,
all above last_acked_stamp and none above `T`, a bound on the clock readings
taken so far; no sequence is above `beacon_last_seq`. -/
def ledger_ok (s : MDS) (T : Nat) : Prop :=
  s.beacon_seq_stamp.Pairwise (fun a b => a.1 < b.1 ∧ a.2 < b.2) ∧
  (∀ e ∈ s.beacon_seq_stamp,
    s.beacon_last_acked_stamp < e.2 ∧ e.2 ≤ T ∧ e.1 ≤ s.beacon_last_seq) ∧
  s.beacon_last_acked_stamp ≤ T

/-- The ledger of `s` is in order, and the clock readings of the sends still to
come in `ops` are strictly increasing and above every reading taken so far. -/
def run_ok (s : MDS) (ops : List BeaconOp) : Prop :=
  ∃ T, ledger_ok s T ∧ (T :: send_times ops).Pairwise (fun a b => a < b)

-- Two beacons sent at the same clock reading, then acknowledged in order.
def equalStampRun : List BeaconOp :=
  [.send 10, .send 10, .ack 11 (beaconAck 1), .ack 12 (beaconAck 2)]

-- Beacons sent at readings 10, 20 and 30, the second and the third acknowledged.
def increasingRun : List BeaconOp :=
  [.send 10, .send 20, .ack 21 (beaconAck 2), .send 30, .ack 31 (beaconAck 3)]

/-! ## Runs of sends to peers and of map messages -/

/-- One step of a run of the peer-facing part of the core:
`send_message_mds(out, p)`, `forward_message_mds(m, p)`, or
`handle_mds_map(m)`. -/
inductive PeerOp
  | send (out : OutMsg) (p : Int)
  | forward (m : Message) (p : Int)
  | map (now : Nat) (m : Message)

-- One step of a run; `none` when an assertion of the reactor fails.
def peer_op (K : MsgConsts) (conf : Conf) (s : MDS) : PeerOp → Option MDS
  | .send out p => some (send_message_mds s out p)
  | .forward m p => some (forward_message_mds K s m p)
  | .map now m => handle_mds_map now conf s m

-- The calls a step from `s` to `s1` has added to the trace.
def step_delta (s s1 : MDS) : List Event := s1.trace.drop s.trace.length

-- The epoch of the map a call sends, if it sends a map message.
def Event.map_epoch : Event → Option Nat
  | .send_message (.MMDSMap _ map) _ => some map.get_epoch
  | _ => none

/-- Whether the step ended by handing a message to the messenger for the
peer: its last call is a send or a forward. -/
def step_sent (s s1 : MDS) : Bool :=
  match (step_delta s s1).getLast? with
  | some (.send_message _ _) => true
  | some (.forward_message _ _) => true
  | _ => false

-- The epochs of the maps the step sent ahead of its last call.
def step_maps (s s1 : MDS) : List Nat := (step_delta s s1).dropLast.filterMap Event.map_epoch

/-- What a run has exchanged with the peers, read off the trace and the
messages handled: `sent` holds (p, e) for each map of epoch e sent to rank p
ahead of a message, `heard` holds (p, e) for each map message with header epoch
e received from rank p, and `first` holds, for each rank that was sent a
message, the epoch that was current at the first send. -/
structure PeerLog where
  sent : List (Int × Nat)
  heard : List (Int × Nat)
  first : List (Int × Nat)

-- The log after a send or forward to rank `p` that took the node from `s` to `s1`.
def log_send (s s1 : MDS) (p : Int) (L : PeerLog) : PeerLog :=
  if step_sent s s1 then
    { L with
      sent := L.sent ++ (step_maps s s1).map (fun e => (p, e))
      first := if L.first.any (fun x => x.1 == p) then L.first
        else L.first ++ [(p, s.mdsmap.get_epoch)] }
  else L

-- The log after a step.
def log_step (s s1 : MDS) (L : PeerLog) : PeerOp → PeerLog
  | .send _ p => log_send s s1 p L
  | .forward _ p => log_send s s1 p L
  | .map _ m =>
    if m.get_source.is_mds then { L with heard := L.heard ++ [(m.get_source.num, m.epoch)] }
    else L

-- A run with its log; `none` when an assertion of the reactor fails on the way.
def peer_run (K : MsgConsts) (conf : Conf) : MDS → PeerLog → List PeerOp → Option (MDS × PeerLog)
  | s, L, [] => some (s, L)
  | s, L, op :: ops =>
    (peer_op K conf s op).bind fun s1 => peer_run K conf s1 (log_step s s1 L op) ops

/-- The recorded epoch of every peer is the epoch of a map sent to it, or of a
map message received from it, or still zero; and it is at least the epoch that
was current at the first send to the peer. -/
def peer_log_ok (s : MDS) (L : PeerLog) : Prop :=
  ∀ p, ((p, s.peer_mdsmap_epoch p) ∈ L.sent ∨ (p, s.peer_mdsmap_epoch p) ∈ L.heard ∨
      s.peer_mdsmap_epoch p = 0) ∧
    ∀ e0, (p, e0) ∈ L.first → e0 ≤ s.peer_mdsmap_epoch p

/-- A step to rank `p` that sent its message: the map went ahead exactly when
the recorded epoch of `p` was behind, and then the recorded epoch is the current
one. -/
def sent_step (s s1 : MDS) (p : Int) : Prop :=
  step_sent s s1 = true ∧
  step_maps s s1 =
    (if s.peer_mdsmap_epoch p < s.mdsmap.get_epoch then [s.mdsmap.get_epoch] else []) ∧
  s1.peer_mdsmap_epoch =
    (if s.peer_mdsmap_epoch p < s.mdsmap.get_epoch
      then set_peer_epoch s.peer_mdsmap_epoch p s.mdsmap.get_epoch else s.peer_mdsmap_epoch)

-- A map message with header epoch `e` from peer rank `r`, encoding `map`.
def peerMapMessage (r : Int) (e : Nat) (map : MDSMap) : Message :=
  { exampleMessage exampleConsts.CEPH_MSG_MDS_MAP (mdsInst r) with epoch := e, encoded := map }

-- Peer 1 sends its map of epoch 5; then a heartbeat goes to peer 1.
def heardThenSend : List PeerOp :=
  [.map 0 (peerMapMessage 1 5 (standbyMap 5)), .send (.payload peerHeartbeat) 1]

-- A heartbeat goes to peer 1 from a node at epoch 3, then a second one.
def sendTwice : List PeerOp :=
  [.map 0 (mapMessage 3 (standbyMap 3)), .send (.payload peerHeartbeat) 1,
    .send (.payload peerHeartbeat) 1]

-- The node and the log at the end of the run `sendTwice`.
def sendTwiceResult : MDS × PeerLog :=
  (peer_run exampleConsts exampleConf exampleNode ⟨[], [], []⟩ sendTwice).getD
    (exampleNode, ⟨[], [], []⟩)

/-! ## Pending events of the named timers -/

-- Whether a pending event is a tick.
def TimerEvent.is_tick (e : TimerEvent) : Bool :=
  match e.ctx with
  | .C_MDS_Tick => true
  | _ => false

-- Whether a pending event is a beacon sender.
def TimerEvent.is_beacon_sender (e : TimerEvent) : Bool :=
  match e.ctx with
  | .C_MDS_BeaconSender => true
  | _ => false

-- The number of pending events of one kind.
def pending (k : TimerEvent → Bool) (s : MDS) : Nat := (s.timer.filter k).length

/-- The members that concern the timer: the pending events, the next context
identity, and the handles of the tick, the beacon sender and the beacon
killer. -/
def timer_view (s : MDS) : List TimerEvent × Nat × Option Nat × Option Nat × Option Nat :=
  (s.timer, s.next_ctx, s.tick_event, s.beacon_sender, s.beacon_killer)

-- The code `if (h) timer.cancel_event(h)` on the list of pending events.
def cancel_opt (h : Option Nat) (tm : List TimerEvent) : List TimerEvent :=
  match h with
  | some x => tm.filter (fun e => e.id != x)
  | none => tm

-- The pending events have distinct identities below `n`.
def ids_ok (tm : List TimerEvent) (n : Nat) : Prop :=
  (tm.map TimerEvent.id).Nodup ∧ ∀ e ∈ tm, e.id < n

-- Every pending event of kind `k` is the one the handle `h` names.
def handle_ok (k : TimerEvent → Bool) (tm : List TimerEvent) (h : Option Nat) : Prop :=
  ∀ e ∈ tm, k e = true → h = some e.id

/-- The timer is consistent: identities are distinct and fresh, and each pending
event of a named timer is the one its handle names. -/
def timers_ok (s : MDS) : Prop :=
  ids_ok s.timer s.next_ctx ∧
  handle_ok TimerEvent.is_tick s.timer s.tick_event ∧
  handle_ok TimerEvent.is_beacon_sender s.timer s.beacon_sender ∧
  handle_ok TimerEvent.is_beacon_killer s.timer s.beacon_killer

/-- The nodes reachable from construction by the operations on the timers,
where `tick`, like the other two callbacks, runs when the timer fires its
event: init, reset_tick, beacon_send, handle_mds_beacon, reset_beacon_killer,
beacon_kill, suicide, and the firing of a pending event. -/
inductive TimerReach (conf : Conf) : MDS → Prop
  | construct (whoami : Int) (myaddr fsid : Nat) :
      TimerReach conf (MDS.construct whoami myaddr fsid)
  | init (now : Nat) (s : MDS) : TimerReach conf s → TimerReach conf (init now conf s)
  | reset_tick (s : MDS) : TimerReach conf s → TimerReach conf (reset_tick conf s)
  | beacon_send (now : Nat) (s : MDS) :
      TimerReach conf s → TimerReach conf (beacon_send now conf s)
  | handle_mds_beacon (now : Nat) (m : Message) (s s1 : MDS) :
      TimerReach conf s → handle_mds_beacon now conf s m = some s1 → TimerReach conf s1
  | reset_beacon_killer (s : MDS) :
      TimerReach conf s → TimerReach conf (reset_beacon_killer conf s)
  | beacon_kill (lab : Nat) (s : MDS) : TimerReach conf s → TimerReach conf (beacon_kill lab s)
  | suicide (s : MDS) : TimerReach conf s → TimerReach conf (suicide s)
  | fire (now req id : Nat) (s : MDS) :
      TimerReach conf s → TimerReach conf (timer_fire now conf req id s)

-- The example node after `init` at time 0 and then the firing of its tick event.
def tickFiredAfterInit : MDS := timer_fire 5 exampleConf 0 1 (init 0 exampleConf exampleNode)

/-! ## Frame lemmas -/

@[simp] theorem set_whoami_peer_mdsmap_epoch_fn (v : _) (s : MDS) :
    (set_whoami v s).peer_mdsmap_epoch = s.peer_mdsmap_epoch := rfl
@[simp] theorem set_want_rank_peer_mdsmap_epoch_fn (v : _) (s : MDS) :
    (set_want_rank v s).peer_mdsmap_epoch = s.peer_mdsmap_epoch := rfl
@[simp] theorem set_state_peer_mdsmap_epoch_fn (v : _) (s : MDS) :
    (set_state v s).peer_mdsmap_epoch = s.peer_mdsmap_epoch := rfl
@[simp] theorem set_want_state_peer_mdsmap_epoch_fn (v : _) (s : MDS) :
    (set_want_state v s).peer_mdsmap_epoch = s.peer_mdsmap_epoch := rfl
@[simp] theorem set_mdsmap_peer_mdsmap_epoch_fn (v : _) (s : MDS) :
    (set_mdsmap v s).peer_mdsmap_epoch = s.peer_mdsmap_epoch := rfl
@[simp] theorem set_last_mon_peer_mdsmap_epoch_fn (v : _) (s : MDS) :
    (set_last_mon v s).peer_mdsmap_epoch = s.peer_mdsmap_epoch := rfl
@[simp] theorem set_peer_mdsmap_epoch_peer_mdsmap_epoch_fn (v : _) (s : MDS) :
    (set_peer_mdsmap_epoch v s).peer_mdsmap_epoch = v := rfl
@[simp] theorem set_last_client_mdsmap_bcast_peer_mdsmap_epoch_fn (v : _) (s : MDS) :
    (set_last_client_mdsmap_bcast v s).peer_mdsmap_epoch = s.peer_mdsmap_epoch := rfl
@[simp] theorem set_beacon_last_seq_peer_mdsmap_epoch_fn (v : _) (s : MDS) :
    (set_beacon_last_seq v s).peer_mdsmap_epoch = s.peer_mdsmap_epoch := rfl
@[simp] theorem set_beacon_seq_stamp_peer_mdsmap_epoch_fn (v : _) (s : MDS) :
    (set_beacon_seq_stamp v s).peer_mdsmap_epoch = s.peer_mdsmap_epoch := rfl
@[simp] theorem set_beacon_last_acked_stamp_peer_mdsmap_epoch_fn (v : _) (s : MDS) :
    (set_beacon_last_acked_stamp v s).peer_mdsmap_epoch = s.peer_mdsmap_epoch := rfl
@[simp] theorem set_laggy_peer_mdsmap_epoch_fn (v : _) (s : MDS) :
    (set_laggy v s).peer_mdsmap_epoch = s.peer_mdsmap_epoch := rfl
@[simp] theorem set_beacon_sender_peer_mdsmap_epoch_fn (v : _) (s : MDS) :
    (set_beacon_sender v s).peer_mdsmap_epoch = s.peer_mdsmap_epoch := rfl
@[simp] theorem set_beacon_killer_peer_mdsmap_epoch_fn (v : _) (s : MDS) :
    (set_beacon_killer v s).peer_mdsmap_epoch = s.peer_mdsmap_epoch := rfl
@[simp] theorem set_tick_event_peer_mdsmap_epoch_fn (v : _) (s : MDS) :
    (set_tick_event v s).peer_mdsmap_epoch = s.peer_mdsmap_epoch := rfl
@[simp] theorem set_timer_peer_mdsmap_epoch_fn (v : _) (s : MDS) :
    (set_timer v s).peer_mdsmap_epoch = s.peer_mdsmap_epoch := rfl
@[simp] theorem set_next_ctx_peer_mdsmap_epoch_fn (v : _) (s : MDS) :
    (set_next_ctx v s).peer_mdsmap_epoch = s.peer_mdsmap_epoch := rfl
@[simp] theorem set_req_rate_peer_mdsmap_epoch_fn (v : _) (s : MDS) :
    (set_req_rate v s).peer_mdsmap_epoch = s.peer_mdsmap_epoch := rfl
@[simp] theorem set_logger_peer_mdsmap_epoch_fn (v : _) (s : MDS) :
    (set_logger v s).peer_mdsmap_epoch = s.peer_mdsmap_epoch := rfl
@[simp] theorem set_client_incarnation_peer_mdsmap_epoch_fn (v : _) (s : MDS) :
    (set_client_incarnation v s).peer_mdsmap_epoch = s.peer_mdsmap_epoch := rfl
@[simp] theorem set_waiting_for_active_peer_mdsmap_epoch_fn (v : _) (s : MDS) :
    (set_waiting_for_active v s).peer_mdsmap_epoch = s.peer_mdsmap_epoch := rfl
@[simp] theorem set_waiting_for_nolaggy_peer_mdsmap_epoch_fn (v : _) (s : MDS) :
    (set_waiting_for_nolaggy v s).peer_mdsmap_epoch = s.peer_mdsmap_epoch := rfl
@[simp] theorem set_waiting_for_active_peer_peer_mdsmap_epoch_fn (v : _) (s : MDS) :
    (set_waiting_for_active_peer v s).peer_mdsmap_epoch = s.peer_mdsmap_epoch := rfl
@[simp] theorem set_finished_queue_peer_mdsmap_epoch_fn (v : _) (s : MDS) :
    (set_finished_queue v s).peer_mdsmap_epoch = s.peer_mdsmap_epoch := rfl
@[simp] theorem set_dispatch_start_peer_mdsmap_epoch_fn (v : _) (s : MDS) :
    (set_dispatch_start v s).peer_mdsmap_epoch = s.peer_mdsmap_epoch := rfl
@[simp] theorem set_trace_peer_mdsmap_epoch_fn (v : _) (s : MDS) :
    (set_trace v s).peer_mdsmap_epoch = s.peer_mdsmap_epoch := rfl
@[simp] theorem emit_peer_mdsmap_epoch_fn (e : Event) (s : MDS) :
    (emit e s).peer_mdsmap_epoch = s.peer_mdsmap_epoch := rfl
@[simp] theorem timer_cancel_event_peer_mdsmap_epoch_fn (id : Nat) (s : MDS) :
    (timer_cancel_event id s).peer_mdsmap_epoch = s.peer_mdsmap_epoch := rfl
@[simp] theorem timer_add_event_peer_mdsmap_epoch_fn (id : Nat) (d : Due) (c : Context) (s : MDS) :
    (timer_add_event id d c s).peer_mdsmap_epoch = s.peer_mdsmap_epoch := rfl
@[simp] theorem timer_cancel_all_peer_mdsmap_epoch_fn (s : MDS) :
    (timer_cancel_all s).peer_mdsmap_epoch = s.peer_mdsmap_epoch := rfl
@[simp] theorem queue_waiters_peer_mdsmap_epoch_fn (ls : List Context) (s : MDS) :
    (queue_waiters ls s).peer_mdsmap_epoch = s.peer_mdsmap_epoch := rfl
@[simp] theorem set_whoami_waiting_for_active_peer_fn (v : _) (s : MDS) :
    (set_whoami v s).waiting_for_active_peer = s.waiting_for_active_peer := rfl
@[simp] theorem set_want_rank_waiting_for_active_peer_fn (v : _) (s : MDS) :
    (set_want_rank v s).waiting_for_active_peer = s.waiting_for_active_peer := rfl
@[simp] theorem set_state_waiting_for_active_peer_fn (v : _) (s : MDS) :
    (set_state v s).waiting_for_active_peer = s.waiting_for_active_peer := rfl
@[simp] theorem set_want_state_waiting_for_active_peer_fn (v : _) (s : MDS) :
    (set_want_state v s).waiting_for_active_peer = s.waiting_for_active_peer := rfl
@[simp] theorem set_mdsmap_waiting_for_active_peer_fn (v : _) (s : MDS) :
    (set_mdsmap v s).waiting_for_active_peer = s.waiting_for_active_peer := rfl
@[simp] theorem set_last_mon_waiting_for_active_peer_fn (v : _) (s : MDS) :
    (set_last_mon v s).waiting_for_active_peer = s.waiting_for_active_peer := rfl
@[simp] theorem set_peer_mdsmap_epoch_waiting_for_active_peer_fn (v : _) (s : MDS) :
    (set_peer_mdsmap_epoch v s).waiting_for_active_peer = s.waiting_for_active_peer := rfl
@[simp] theorem set_last_client_mdsmap_bcast_waiting_for_active_peer_fn (v : _) (s : MDS) :
    (set_last_client_mdsmap_bcast v s).waiting_for_active_peer = s.waiting_for_active_peer := rfl
@[simp] theorem set_beacon_last_seq_waiting_for_active_peer_fn (v : _) (s : MDS) :
    (set_beacon_last_seq v s).waiting_for_active_peer = s.waiting_for_active_peer := rfl
@[simp] theorem set_beacon_seq_stamp_waiting_for_active_peer_fn (v : _) (s : MDS) :
    (set_beacon_seq_stamp v s).waiting_for_active_peer = s.waiting_for_active_peer := rfl
@[simp] theorem set_beacon_last_acked_stamp_waiting_for_active_peer_fn (v : _) (s : MDS) :
    (set_beacon_last_acked_stamp v s).waiting_for_active_peer = s.waiting_for_active_peer := rfl
@[simp] theorem set_laggy_waiting_for_active_peer_fn (v : _) (s : MDS) :
    (set_laggy v s).waiting_for_active_peer = s.waiting_for_active_peer := rfl
@[simp] theorem set_beacon_sender_waiting_for_active_peer_fn (v : _) (s : MDS) :
    (set_beacon_sender v s).waiting_for_active_peer = s.waiting_for_active_peer := rfl
@[simp] theorem set_beacon_killer_waiting_for_active_peer_fn (v : _) (s : MDS) :
    (set_beacon_killer v s).waiting_for_active_peer = s.waiting_for_active_peer := rfl
@[simp] theorem set_tick_event_waiting_for_active_peer_fn (v : _) (s : MDS) :
    (set_tick_event v s).waiting_for_active_peer = s.waiting_for_active_peer := rfl
@[simp] theorem set_timer_waiting_for_active_peer_fn (v : _) (s : MDS) :
    (set_timer v s).waiting_for_active_peer = s.waiting_for_active_peer := rfl
@[simp] theorem set_next_ctx_waiting_for_active_peer_fn (v : _) (s : MDS) :
    (set_next_ctx v s).waiting_for_active_peer = s.waiting_for_active_peer := rfl
@[simp] theorem set_req_rate_waiting_for_active_peer_fn (v : _) (s : MDS) :
    (set_req_rate v s).waiting_for_active_peer = s.waiting_for_active_peer := rfl
@[simp] theorem set_logger_waiting_for_active_peer_fn (v : _) (s : MDS) :
    (set_logger v s).waiting_for_active_peer = s.waiting_for_active_peer := rfl
@[simp] theorem set_client_incarnation_waiting_for_active_peer_fn (v : _) (s : MDS) :
    (set_client_incarnation v s).waiting_for_active_peer = s.waiting_for_active_peer := rfl
@[simp] theorem set_waiting_for_active_waiting_for_active_peer_fn (v : _) (s : MDS) :
    (set_waiting_for_active v s).waiting_for_active_peer = s.waiting_for_active_peer := rfl
@[simp] theorem set_waiting_for_nolaggy_waiting_for_active_peer_fn (v : _) (s : MDS) :
    (set_waiting_for_nolaggy v s).waiting_for_active_peer = s.waiting_for_active_peer := rfl
@[simp] theorem set_waiting_for_active_peer_waiting_for_active_peer_fn (v : _) (s : MDS) :
    (set_waiting_for_active_peer v s).waiting_for_active_peer = v := rfl
@[simp] theorem set_finished_queue_waiting_for_active_peer_fn (v : _) (s : MDS) :
    (set_finished_queue v s).waiting_for_active_peer = s.waiting_for_active_peer := rfl
@[simp] theorem set_dispatch_start_waiting_for_active_peer_fn (v : _) (s : MDS) :
    (set_dispatch_start v s).waiting_for_active_peer = s.waiting_for_active_peer := rfl
@[simp] theorem set_trace_waiting_for_active_peer_fn (v : _) (s : MDS) :
    (set_trace v s).waiting_for_active_peer = s.waiting_for_active_peer := rfl
@[simp] theorem emit_waiting_for_active_peer_fn (e : Event) (s : MDS) :
    (emit e s).waiting_for_active_peer = s.waiting_for_active_peer := rfl
@[simp] theorem timer_cancel_event_waiting_for_active_peer_fn (id : Nat) (s : MDS) :
    (timer_cancel_event id s).waiting_for_active_peer = s.waiting_for_active_peer := rfl
@[simp] theorem timer_add_event_waiting_for_active_peer_fn (id : Nat) (d : Due) (c : Context) (s : MDS) :
    (timer_add_event id d c s).waiting_for_active_peer = s.waiting_for_active_peer := rfl
@[simp] theorem timer_cancel_all_waiting_for_active_peer_fn (s : MDS) :
    (timer_cancel_all s).waiting_for_active_peer = s.waiting_for_active_peer := rfl
@[simp] theorem queue_waiters_waiting_for_active_peer_fn (ls : List Context) (s : MDS) :
    (queue_waiters ls s).waiting_for_active_peer = s.waiting_for_active_peer := rfl

-- A fold whose step keeps a projection of the node keeps it overall.
theorem foldl_keeps {α β : Type} (g : MDS → β) (f : MDS → α → MDS)
    (hf : ∀ s a, g (f s a) = g s) (l : List α) (s : MDS) : g (l.foldl f s) = g s := by
  induction l generalizing s with
  | nil => rfl
  | cons a l ih => simp only [List.foldl_cons]; rw [ih, hf]

@[simp] theorem suicide_state (s : MDS) :
    (suicide s).state = s.state := by
  cases h1 : s.beacon_killer <;> cases h2 : s.beacon_sender <;> cases h3 : s.tick_event <;>
    simp [suicide, h1, h2, h3]
@[simp] theorem suicide_mdsmap (s : MDS) :
    (suicide s).mdsmap = s.mdsmap := by
  cases h1 : s.beacon_killer <;> cases h2 : s.beacon_sender <;> cases h3 : s.tick_event <;>
    simp [suicide, h1, h2, h3]
@[simp] theorem reset_tick_state (conf : Conf) (s : MDS) :
    (reset_tick conf s).state = s.state := by
  cases h1 : s.tick_event <;> simp [reset_tick, h1]
@[simp] theorem reset_tick_mdsmap (conf : Conf) (s : MDS) :
    (reset_tick conf s).mdsmap = s.mdsmap := by
  cases h1 : s.tick_event <;> simp [reset_tick, h1]
@[simp] theorem beacon_send_state (now : Nat) (conf : Conf) (s : MDS) :
    (beacon_send now conf s).state = s.state := by
  cases h1 : s.beacon_sender <;> simp [beacon_send, h1]
@[simp] theorem beacon_send_mdsmap (now : Nat) (conf : Conf) (s : MDS) :
    (beacon_send now conf s).mdsmap = s.mdsmap := by
  cases h1 : s.beacon_sender <;> simp [beacon_send, h1]
@[simp] theorem reset_beacon_killer_state (conf : Conf) (s : MDS) :
    (reset_beacon_killer conf s).state = s.state := by
  cases h1 : s.beacon_killer <;> simp [reset_beacon_killer, h1]
@[simp] theorem reset_beacon_killer_mdsmap (conf : Conf) (s : MDS) :
    (reset_beacon_killer conf s).mdsmap = s.mdsmap := by
  cases h1 : s.beacon_killer <;> simp [reset_beacon_killer, h1]
@[simp] theorem request_state_state (now : Nat) (conf : Conf) (s : MDS) (st : MDSState) :
    (request_state now conf s st).state = s.state := by
  simp [request_state]
@[simp] theorem request_state_mdsmap (now : Nat) (conf : Conf) (s : MDS) (st : MDSState) :
    (request_state now conf s st).mdsmap = s.mdsmap := by
  simp [request_state]
@[simp] theorem tick_log_state (req : Nat) (s : MDS) :
    (tick_log req s).state = s.state := by
  simp only [tick_log]
  split_ifs <;> simp
@[simp] theorem tick_log_mdsmap (req : Nat) (s : MDS) :
    (tick_log req s).mdsmap = s.mdsmap := by
  simp only [tick_log]
  split_ifs <;> simp
@[simp] theorem tick_sessions_state (s : MDS) :
    (tick_sessions s).state = s.state := by
  simp only [tick_sessions]
  split_ifs <;> simp
@[simp] theorem tick_sessions_mdsmap (s : MDS) :
    (tick_sessions s).mdsmap = s.mdsmap := by
  simp only [tick_sessions]
  split_ifs <;> simp
@[simp] theorem tick_reconnect_state (s : MDS) :
    (tick_reconnect s).state = s.state := by
  simp only [tick_reconnect]
  split_ifs <;> simp
@[simp] theorem tick_reconnect_mdsmap (s : MDS) :
    (tick_reconnect s).mdsmap = s.mdsmap := by
  simp only [tick_reconnect]
  split_ifs <;> simp
@[simp] theorem tick_balance_state (s : MDS) :
    (tick_balance s).state = s.state := by
  simp only [tick_balance]
  split_ifs <;> simp
@[simp] theorem tick_balance_mdsmap (s : MDS) :
    (tick_balance s).mdsmap = s.mdsmap := by
  simp only [tick_balance]
  split_ifs <;> simp
@[simp] theorem tick_state (conf : Conf) (req : Nat) (s : MDS) :
    (tick conf req s).state = s.state := by
  simp only [tick]
  split_ifs <;> simp
@[simp] theorem tick_mdsmap (conf : Conf) (req : Nat) (s : MDS) :
    (tick conf req s).mdsmap = s.mdsmap := by
  simp only [tick]
  split_ifs <;> simp
@[simp] theorem init_state (now : Nat) (conf : Conf) (s : MDS) :
    (init now conf s).state = s.state := by
  simp [init, beacon_start]
@[simp] theorem init_mdsmap (now : Nat) (conf : Conf) (s : MDS) :
    (init now conf s).mdsmap = s.mdsmap := by
  simp [init, beacon_start]
@[simp] theorem beacon_kill_state (lab : Nat) (s : MDS) :
    (beacon_kill lab s).state = s.state := by
  simp only [beacon_kill]
  split_ifs <;> simp
@[simp] theorem beacon_kill_mdsmap (lab : Nat) (s : MDS) :
    (beacon_kill lab s).mdsmap = s.mdsmap := by
  simp only [beacon_kill]
  split_ifs <;> simp
@[simp] theorem send_mdsmap_first_state (s : MDS) (mds : Int) :
    (send_mdsmap_first s mds).state = s.state := by
  simp only [send_mdsmap_first]
  split_ifs <;> simp
@[simp] theorem send_mdsmap_first_mdsmap (s : MDS) (mds : Int) :
    (send_mdsmap_first s mds).mdsmap = s.mdsmap := by
  simp only [send_mdsmap_first]
  split_ifs <;> simp
@[simp] theorem send_message_mds_state (s : MDS) (m : OutMsg) (mds : Int) :
    (send_message_mds s m mds).state = s.state := by
  simp [send_message_mds]
@[simp] theorem send_message_mds_mdsmap (s : MDS) (m : OutMsg) (mds : Int) :
    (send_message_mds s m mds).mdsmap = s.mdsmap := by
  simp [send_message_mds]
@[simp] theorem forward_message_mds_transport_state (s : MDS) (m : Message) (mds : Int) :
    (forward_message_mds_transport s m mds).state = s.state := by
  simp [forward_message_mds_transport]
@[simp] theorem forward_message_mds_transport_mdsmap (s : MDS) (m : Message) (mds : Int) :
    (forward_message_mds_transport s m mds).mdsmap = s.mdsmap := by
  simp [forward_message_mds_transport]
@[simp] theorem forward_message_mds_state (K : MsgConsts) (s : MDS) (m : Message) (mds : Int) :
    (forward_message_mds K s m mds).state = s.state := by
  simp only [forward_message_mds]
  split_ifs <;> simp
@[simp] theorem forward_message_mds_mdsmap (K : MsgConsts) (s : MDS) (m : Message) (mds : Int) :
    (forward_message_mds K s m mds).mdsmap = s.mdsmap := by
  simp only [forward_message_mds]
  split_ifs <;> simp
@[simp] theorem bcast_mds_map_state (s : MDS) :
    (bcast_mds_map s).state = s.state := by
  simp only [bcast_mds_map, set_last_client_mdsmap_bcast_state]
  apply foldl_keeps MDS.state
  intro s a
  rfl
@[simp] theorem bcast_mds_map_mdsmap (s : MDS) :
    (bcast_mds_map s).mdsmap = s.mdsmap := by
  simp only [bcast_mds_map, set_last_client_mdsmap_bcast_mdsmap]
  apply foldl_keeps MDS.mdsmap
  intro s a
  rfl
@[simp] theorem reopen_logger_state (start : Nat) (s : MDS) :
    (reopen_logger start s).state = s.state := by
  simp only [reopen_logger]
  split_ifs <;> simp
@[simp] theorem reopen_logger_mdsmap (start : Nat) (s : MDS) :
    (reopen_logger start s).mdsmap = s.mdsmap := by
  simp only [reopen_logger]
  split_ifs <;> simp
@[simp] theorem boot_create_root_state (s : MDS) :
    (boot_create_root s).state = s.state := by
  simp only [boot_create_root]
  split_ifs <;> simp
@[simp] theorem boot_create_root_mdsmap (s : MDS) :
    (boot_create_root s).mdsmap = s.mdsmap := by
  simp only [boot_create_root]
  split_ifs <;> simp
@[simp] theorem boot_create_commit_root_state (fin : Context) (s : MDS) :
    (boot_create_commit_root fin s).state = s.state := by
  simp only [boot_create_commit_root]
  split_ifs <;> simp
@[simp] theorem boot_create_commit_root_mdsmap (fin : Context) (s : MDS) :
    (boot_create_commit_root fin s).mdsmap = s.mdsmap := by
  simp only [boot_create_commit_root]
  split_ifs <;> simp
@[simp] theorem boot_create_tables_state (fin : Context) (k : Nat) (s : MDS) :
    (boot_create_tables fin k s).state = s.state := by
  simp only [boot_create_tables]
  split_ifs <;> simp
@[simp] theorem boot_create_tables_mdsmap (fin : Context) (k : Nat) (s : MDS) :
    (boot_create_tables fin k s).mdsmap = s.mdsmap := by
  simp only [boot_create_tables]
  split_ifs <;> simp
@[simp] theorem boot_create_state (s : MDS) :
    (boot_create s).state = s.state := by
  simp [boot_create]
@[simp] theorem boot_create_mdsmap (s : MDS) :
    (boot_create s).mdsmap = s.mdsmap := by
  simp [boot_create]
@[simp] theorem creating_done_state (now : Nat) (conf : Conf) (s : MDS) :
    (creating_done now conf s).state = s.state := by
  simp [creating_done]
@[simp] theorem creating_done_mdsmap (now : Nat) (conf : Conf) (s : MDS) :
    (creating_done now conf s).mdsmap = s.mdsmap := by
  simp [creating_done]
@[simp] theorem replay_done_state (now : Nat) (conf : Conf) (s : MDS) :
    (replay_done now conf s).state = s.state := by
  simp only [replay_done]
  split_ifs <;> simp
@[simp] theorem replay_done_mdsmap (now : Nat) (conf : Conf) (s : MDS) :
    (replay_done now conf s).mdsmap = s.mdsmap := by
  simp only [replay_done]
  split_ifs <;> simp
@[simp] theorem resolve_done_state (now : Nat) (conf : Conf) (s : MDS) :
    (resolve_done now conf s).state = s.state := by
  simp [resolve_done]
@[simp] theorem resolve_done_mdsmap (now : Nat) (conf : Conf) (s : MDS) :
    (resolve_done now conf s).mdsmap = s.mdsmap := by
  simp [resolve_done]
@[simp] theorem reconnect_done_state (now : Nat) (conf : Conf) (s : MDS) :
    (reconnect_done now conf s).state = s.state := by
  simp [reconnect_done]
@[simp] theorem reconnect_done_mdsmap (now : Nat) (conf : Conf) (s : MDS) :
    (reconnect_done now conf s).mdsmap = s.mdsmap := by
  simp [reconnect_done]
@[simp] theorem rejoin_done_state (now : Nat) (conf : Conf) (s : MDS) :
    (rejoin_done now conf s).state = s.state := by
  simp [rejoin_done]
@[simp] theorem rejoin_done_mdsmap (now : Nat) (conf : Conf) (s : MDS) :
    (rejoin_done now conf s).mdsmap = s.mdsmap := by
  simp [rejoin_done]
@[simp] theorem stopping_done_state (now : Nat) (conf : Conf) (s : MDS) :
    (stopping_done now conf s).state = s.state := by
  simp [stopping_done]
@[simp] theorem stopping_done_mdsmap (now : Nat) (conf : Conf) (s : MDS) :
    (stopping_done now conf s).mdsmap = s.mdsmap := by
  simp [stopping_done]
@[simp] theorem stopping_start_state (s : MDS) :
    (stopping_start s).state = s.state := by
  simp [stopping_start]
@[simp] theorem stopping_start_mdsmap (s : MDS) :
    (stopping_start s).mdsmap = s.mdsmap := by
  simp [stopping_start]
@[simp] theorem reconnect_start_state (s : MDS) :
    (reconnect_start s).state = s.state := by
  simp [reconnect_start]
@[simp] theorem reconnect_start_mdsmap (s : MDS) :
    (reconnect_start s).mdsmap = s.mdsmap := by
  simp [reconnect_start]
@[simp] theorem rejoin_joint_start_state (s : MDS) :
    (rejoin_joint_start s).state = s.state := by
  simp [rejoin_joint_start]
@[simp] theorem rejoin_joint_start_mdsmap (s : MDS) :
    (rejoin_joint_start s).mdsmap = s.mdsmap := by
  simp [rejoin_joint_start]
@[simp] theorem handle_mds_recovery_state (s : MDS) (who : Int) :
    (handle_mds_recovery s who).state = s.state := by
  simp only [handle_mds_recovery]
  split_ifs <;> simp
@[simp] theorem handle_mds_recovery_mdsmap (s : MDS) (who : Int) :
    (handle_mds_recovery s who).mdsmap = s.mdsmap := by
  simp only [handle_mds_recovery]
  split_ifs <;> simp
@[simp] theorem resolve_start_state (s : MDS) :
    (resolve_start s).state = s.state := by
  unfold resolve_start
  apply foldl_keeps MDS.state
  intro s a
  split_ifs <;> simp
@[simp] theorem resolve_start_mdsmap (s : MDS) :
    (resolve_start s).mdsmap = s.mdsmap := by
  unfold resolve_start
  apply foldl_keeps MDS.mdsmap
  intro s a
  split_ifs <;> simp
theorem starting_done_state (now : Nat) (conf : Conf) (s : MDS) (s1 : MDS)
    (h : starting_done now conf s = some s1) : s1.state = s.state := by
  unfold starting_done at h
  split_ifs at h
  simp only [Option.some.injEq] at h
  subst h
  simp
theorem starting_done_mdsmap (now : Nat) (conf : Conf) (s : MDS) (s1 : MDS)
    (h : starting_done now conf s = some s1) : s1.mdsmap = s.mdsmap := by
  unfold starting_done at h
  split_ifs at h
  simp only [Option.some.injEq] at h
  subst h
  simp
theorem boot_start_4_state (now : Nat) (conf : Conf) (s : MDS) (s1 : MDS)
    (h : boot_start_4 now conf s = some s1) : s1.state = s.state := by
  unfold boot_start_4 at h
  simpa using starting_done_state _ _ _ _ h
theorem boot_start_4_mdsmap (now : Nat) (conf : Conf) (s : MDS) (s1 : MDS)
    (h : boot_start_4 now conf s = some s1) : s1.mdsmap = s.mdsmap := by
  unfold boot_start_4 at h
  simpa using starting_done_mdsmap _ _ _ _ h
theorem boot_start_3_state (now : Nat) (conf : Conf) (s : MDS) (s1 : MDS)
    (h : boot_start_3 now conf s = some s1) : s1.state = s.state := by
  unfold boot_start_3 at h
  split_ifs at h
  · simp only [Option.some.injEq] at h; subst h; simp
  · simp only [Option.some.injEq] at h; subst h; simp
  · exact boot_start_4_state _ _ _ _ h
theorem boot_start_3_mdsmap (now : Nat) (conf : Conf) (s : MDS) (s1 : MDS)
    (h : boot_start_3 now conf s = some s1) : s1.mdsmap = s.mdsmap := by
  unfold boot_start_3 at h
  split_ifs at h
  · simp only [Option.some.injEq] at h; subst h; simp
  · simp only [Option.some.injEq] at h; subst h; simp
  · exact boot_start_4_mdsmap _ _ _ _ h
@[simp] theorem boot_start_1_state (s : MDS) :
    (boot_start_1 s).state = s.state := by
  simp only [boot_start_1]
  split_ifs <;> simp
theorem boot_start_state (now : Nat) (conf : Conf) (s : MDS) (step r : Int) (s1 : MDS)
    (h : boot_start now conf s step r = some s1) : s1.state = s.state := by
  unfold boot_start at h
  split_ifs at h
  · simp only [Option.some.injEq] at h; subst h; simp
  · simp only [Option.some.injEq] at h; subst h; simp
  · simp only [Option.some.injEq] at h; subst h; simp
  · simpa using boot_start_3_state _ _ _ _ h
  · exact boot_start_3_state _ _ _ _ h
  · exact boot_start_4_state _ _ _ _ h
  · simp only [Option.some.injEq] at h; subst h; rfl
@[simp] theorem boot_start_1_mdsmap (s : MDS) :
    (boot_start_1 s).mdsmap = s.mdsmap := by
  simp only [boot_start_1]
  split_ifs <;> simp
theorem boot_start_mdsmap (now : Nat) (conf : Conf) (s : MDS) (step r : Int) (s1 : MDS)
    (h : boot_start now conf s step r = some s1) : s1.mdsmap = s.mdsmap := by
  unfold boot_start at h
  split_ifs at h
  · simp only [Option.some.injEq] at h; subst h; simp
  · simp only [Option.some.injEq] at h; subst h; simp
  · simp only [Option.some.injEq] at h; subst h; simp
  · simpa using boot_start_3_mdsmap _ _ _ _ h
  · exact boot_start_3_mdsmap _ _ _ _ h
  · exact boot_start_4_mdsmap _ _ _ _ h
  · simp only [Option.some.injEq] at h; subst h; rfl
theorem replay_start_state (now : Nat) (conf : Conf) (s : MDS) (s1 : MDS)
    (h : replay_start now conf s = some s1) : s1.state = s.state := by
  unfold replay_start at h
  simpa using boot_start_state _ _ _ _ _ _ h
theorem replay_start_mdsmap (now : Nat) (conf : Conf) (s : MDS) (s1 : MDS)
    (h : replay_start now conf s = some s1) : s1.mdsmap = s.mdsmap := by
  unfold replay_start at h
  simpa using boot_start_mdsmap _ _ _ _ _ _ h
theorem recovery_done_state (s : MDS) (s1 : MDS)
    (h : recovery_done s = some s1) : s1.state = s.state := by
  unfold recovery_done at h
  split_ifs at h <;> simp only [Option.some.injEq] at h <;> subst h <;> simp
theorem recovery_done_mdsmap (s : MDS) (s1 : MDS)
    (h : recovery_done s = some s1) : s1.mdsmap = s.mdsmap := by
  unfold recovery_done at h
  split_ifs at h <;> simp only [Option.some.injEq] at h <;> subst h <;> simp
theorem handle_mds_beacon_state (now : Nat) (conf : Conf) (s : MDS) (m : Message) (s1 : MDS)
    (h : handle_mds_beacon now conf s m = some s1) : s1.state = s.state := by
  simp only [handle_mds_beacon] at h
  split_ifs at h <;> simp only [Option.some.injEq] at h <;> subst h <;> simp
theorem handle_mds_beacon_mdsmap (now : Nat) (conf : Conf) (s : MDS) (m : Message) (s1 : MDS)
    (h : handle_mds_beacon now conf s m = some s1) : s1.mdsmap = s.mdsmap := by
  simp only [handle_mds_beacon] at h
  split_ifs at h <;> simp only [Option.some.injEq] at h <;> subst h <;> simp
@[simp] theorem map_delta_resolve_state (oldmap : MDSMap) (s : MDS) :
    (map_delta_resolve oldmap s).state = s.state := by
  simp only [map_delta_resolve]
  split_ifs
  all_goals first
    | rfl
    | (apply foldl_keeps MDS.state
       intro s a
       split_ifs <;> simp)
@[simp] theorem map_delta_resolve_mdsmap (oldmap : MDSMap) (s : MDS) :
    (map_delta_resolve oldmap s).mdsmap = s.mdsmap := by
  simp only [map_delta_resolve]
  split_ifs
  all_goals first
    | rfl
    | (apply foldl_keeps MDS.mdsmap
       intro s a
       split_ifs <;> simp)
@[simp] theorem map_delta_rejoin_state (conf : Conf) (oldmap : MDSMap) (s : MDS) :
    (map_delta_rejoin conf oldmap s).state = s.state := by
  simp only [map_delta_rejoin]
  split_ifs <;> simp
@[simp] theorem map_delta_rejoin_mdsmap (conf : Conf) (oldmap : MDSMap) (s : MDS) :
    (map_delta_rejoin conf oldmap s).mdsmap = s.mdsmap := by
  simp only [map_delta_rejoin]
  split_ifs <;> simp
@[simp] theorem map_delta_active_state (oldmap : MDSMap) (s : MDS) :
    (map_delta_active oldmap s).state = s.state := by
  simp only [map_delta_active]
  split_ifs
  all_goals first
    | rfl
    | (apply foldl_keeps MDS.state
       intro s a
       split_ifs <;> simp)
@[simp] theorem map_delta_active_mdsmap (oldmap : MDSMap) (s : MDS) :
    (map_delta_active oldmap s).mdsmap = s.mdsmap := by
  simp only [map_delta_active]
  split_ifs
  all_goals first
    | rfl
    | (apply foldl_keeps MDS.mdsmap
       intro s a
       split_ifs <;> simp)
@[simp] theorem map_delta_failed_state (oldmap : MDSMap) (s : MDS) :
    (map_delta_failed oldmap s).state = s.state := by
  simp only [map_delta_failed]
  rw [foldl_keeps MDS.state _ (by intro s a; split_ifs <;> simp),
    foldl_keeps MDS.state _ (by intro s a; split_ifs <;> simp)]
@[simp] theorem map_delta_failed_mdsmap (oldmap : MDSMap) (s : MDS) :
    (map_delta_failed oldmap s).mdsmap = s.mdsmap := by
  simp only [map_delta_failed]
  rw [foldl_keeps MDS.mdsmap _ (by intro s a; split_ifs <;> simp),
    foldl_keeps MDS.mdsmap _ (by intro s a; split_ifs <;> simp)]
@[simp] theorem map_delta_stopped_state (oldmap : MDSMap) (s : MDS) :
    (map_delta_stopped oldmap s).state = s.state := by
  simp only [map_delta_stopped]
  split_ifs
  all_goals first
    | rfl
    | (apply foldl_keeps MDS.state
       intro s a
       split_ifs <;> simp)
@[simp] theorem map_delta_stopped_mdsmap (oldmap : MDSMap) (s : MDS) :
    (map_delta_stopped oldmap s).mdsmap = s.mdsmap := by
  simp only [map_delta_stopped]
  split_ifs
  all_goals first
    | rfl
    | (apply foldl_keeps MDS.mdsmap
       intro s a
       split_ifs <;> simp)
@[simp] theorem handle_mds_map_peer_deltas_state (conf : Conf) (oldmap : MDSMap) (s : MDS) :
    (handle_mds_map_peer_deltas conf oldmap s).state = s.state := by
  simp [handle_mds_map_peer_deltas]
@[simp] theorem handle_mds_map_peer_deltas_mdsmap (conf : Conf) (oldmap : MDSMap) (s : MDS) :
    (handle_mds_map_peer_deltas conf oldmap s).mdsmap = s.mdsmap := by
  simp [handle_mds_map_peer_deltas]
@[simp] theorem note_peer_epoch_state (s : MDS) (m : Message) :
    (note_peer_epoch s m).state = s.state := by
  simp only [note_peer_epoch]
  split_ifs <;> simp
@[simp] theorem note_peer_epoch_mdsmap (s : MDS) (m : Message) :
    (note_peer_epoch s m).mdsmap = s.mdsmap := by
  simp only [note_peer_epoch]
  split_ifs <;> simp
@[simp] theorem map_open_logger_state (oldwhoami : Int) (s : MDS) :
    (map_open_logger oldwhoami s).state = s.state := by
  simp only [map_open_logger]
  split_ifs <;> simp
@[simp] theorem map_open_logger_mdsmap (oldwhoami : Int) (s : MDS) :
    (map_open_logger oldwhoami s).mdsmap = s.mdsmap := by
  simp only [map_open_logger]
  split_ifs <;> simp
@[simp] theorem map_update_messenger_state (oldwhoami : Int) (s : MDS) :
    (map_update_messenger oldwhoami s).state = s.state := by
  simp only [map_update_messenger]
  split_ifs <;> simp
@[simp] theorem map_update_messenger_mdsmap (oldwhoami : Int) (s : MDS) :
    (map_update_messenger oldwhoami s).mdsmap = s.mdsmap := by
  simp only [map_update_messenger]
  split_ifs <;> simp
theorem map_tell_objecter_state (s : MDS) (s1 : MDS)
    (h : map_tell_objecter s = some s1) : s1.state = s.state := by
  simp only [map_tell_objecter] at h
  split_ifs at h <;> simp only [Option.some.injEq] at h <;> subst h <;> simp
theorem map_tell_objecter_mdsmap (s : MDS) (s1 : MDS)
    (h : map_tell_objecter s = some s1) : s1.mdsmap = s.mdsmap := by
  simp only [map_tell_objecter] at h
  split_ifs at h <;> simp only [Option.some.injEq] at h <;> subst h <;> simp

@[simp] theorem reset_tick_whoami (conf : Conf) (s : MDS) :
    (reset_tick conf s).whoami = s.whoami := by
  cases h1 : s.tick_event <;> simp [reset_tick, h1]
@[simp] theorem reset_tick_want_state (conf : Conf) (s : MDS) :
    (reset_tick conf s).want_state = s.want_state := by
  cases h1 : s.tick_event <;> simp [reset_tick, h1]
@[simp] theorem reset_tick_beacon_last_seq (conf : Conf) (s : MDS) :
    (reset_tick conf s).beacon_last_seq = s.beacon_last_seq := by
  cases h1 : s.tick_event <;> simp [reset_tick, h1]
@[simp] theorem reset_tick_beacon_seq_stamp (conf : Conf) (s : MDS) :
    (reset_tick conf s).beacon_seq_stamp = s.beacon_seq_stamp := by
  cases h1 : s.tick_event <;> simp [reset_tick, h1]
@[simp] theorem reset_tick_beacon_last_acked_stamp (conf : Conf) (s : MDS) :
    (reset_tick conf s).beacon_last_acked_stamp = s.beacon_last_acked_stamp := by
  cases h1 : s.tick_event <;> simp [reset_tick, h1]
@[simp] theorem reset_tick_laggy (conf : Conf) (s : MDS) :
    (reset_tick conf s).laggy = s.laggy := by
  cases h1 : s.tick_event <;> simp [reset_tick, h1]
@[simp] theorem reset_tick_trace (conf : Conf) (s : MDS) :
    (reset_tick conf s).trace = s.trace := by
  cases h1 : s.tick_event <;> simp [reset_tick, h1]
@[simp] theorem reset_tick_waiting_for_nolaggy (conf : Conf) (s : MDS) :
    (reset_tick conf s).waiting_for_nolaggy = s.waiting_for_nolaggy := by
  cases h1 : s.tick_event <;> simp [reset_tick, h1]
@[simp] theorem reset_tick_finished_queue (conf : Conf) (s : MDS) :
    (reset_tick conf s).finished_queue = s.finished_queue := by
  cases h1 : s.tick_event <;> simp [reset_tick, h1]
@[simp] theorem reset_beacon_killer_whoami (conf : Conf) (s : MDS) :
    (reset_beacon_killer conf s).whoami = s.whoami := by
  cases h1 : s.beacon_killer <;> simp [reset_beacon_killer, h1]
@[simp] theorem reset_beacon_killer_want_state (conf : Conf) (s : MDS) :
    (reset_beacon_killer conf s).want_state = s.want_state := by
  cases h1 : s.beacon_killer <;> simp [reset_beacon_killer, h1]
@[simp] theorem reset_beacon_killer_beacon_last_seq (conf : Conf) (s : MDS) :
    (reset_beacon_killer conf s).beacon_last_seq = s.beacon_last_seq := by
  cases h1 : s.beacon_killer <;> simp [reset_beacon_killer, h1]
@[simp] theorem reset_beacon_killer_beacon_seq_stamp (conf : Conf) (s : MDS) :
    (reset_beacon_killer conf s).beacon_seq_stamp = s.beacon_seq_stamp := by
  cases h1 : s.beacon_killer <;> simp [reset_beacon_killer, h1]
@[simp] theorem reset_beacon_killer_beacon_last_acked_stamp (conf : Conf) (s : MDS) :
    (reset_beacon_killer conf s).beacon_last_acked_stamp = s.beacon_last_acked_stamp := by
  cases h1 : s.beacon_killer <;> simp [reset_beacon_killer, h1]
@[simp] theorem reset_beacon_killer_laggy (conf : Conf) (s : MDS) :
    (reset_beacon_killer conf s).laggy = s.laggy := by
  cases h1 : s.beacon_killer <;> simp [reset_beacon_killer, h1]
@[simp] theorem reset_beacon_killer_trace (conf : Conf) (s : MDS) :
    (reset_beacon_killer conf s).trace = s.trace := by
  cases h1 : s.beacon_killer <;> simp [reset_beacon_killer, h1]
@[simp] theorem reset_beacon_killer_waiting_for_nolaggy (conf : Conf) (s : MDS) :
    (reset_beacon_killer conf s).waiting_for_nolaggy = s.waiting_for_nolaggy := by
  cases h1 : s.beacon_killer <;> simp [reset_beacon_killer, h1]
@[simp] theorem reset_beacon_killer_finished_queue (conf : Conf) (s : MDS) :
    (reset_beacon_killer conf s).finished_queue = s.finished_queue := by
  cases h1 : s.beacon_killer <;> simp [reset_beacon_killer, h1]
@[simp] theorem beacon_send_whoami (now : Nat) (conf : Conf) (s : MDS) :
    (beacon_send now conf s).whoami = s.whoami := by
  cases h1 : s.beacon_sender <;> simp [beacon_send, h1]
@[simp] theorem beacon_send_want_state (now : Nat) (conf : Conf) (s : MDS) :
    (beacon_send now conf s).want_state = s.want_state := by
  cases h1 : s.beacon_sender <;> simp [beacon_send, h1]
@[simp] theorem beacon_send_beacon_last_seq (now : Nat) (conf : Conf) (s : MDS) :
    (beacon_send now conf s).beacon_last_seq = s.beacon_last_seq + 1 := by
  cases h1 : s.beacon_sender <;> simp [beacon_send, h1]
@[simp] theorem beacon_send_beacon_seq_stamp (now : Nat) (conf : Conf) (s : MDS) :
    (beacon_send now conf s).beacon_seq_stamp = stamp_insert (s.beacon_last_seq + 1) now s.beacon_seq_stamp := by
  cases h1 : s.beacon_sender <;> simp [beacon_send, h1]
@[simp] theorem beacon_send_beacon_last_acked_stamp (now : Nat) (conf : Conf) (s : MDS) :
    (beacon_send now conf s).beacon_last_acked_stamp = s.beacon_last_acked_stamp := by
  cases h1 : s.beacon_sender <;> simp [beacon_send, h1]
@[simp] theorem beacon_send_laggy (now : Nat) (conf : Conf) (s : MDS) :
    (beacon_send now conf s).laggy = s.laggy := by
  cases h1 : s.beacon_sender <;> simp [beacon_send, h1]
@[simp] theorem beacon_send_trace (now : Nat) (conf : Conf) (s : MDS) :
    (beacon_send now conf s).trace = s.trace ++ [Event.send_message (OutMsg.MMDSBeacon s.fsid s.mdsmap.get_epoch s.want_state
        (s.beacon_last_seq + 1) s.want_rank) (Dest.mon s.beacon_seq_stamp.length)] := by
  cases h1 : s.beacon_sender <;> simp [beacon_send, h1]
@[simp] theorem beacon_send_waiting_for_nolaggy (now : Nat) (conf : Conf) (s : MDS) :
    (beacon_send now conf s).waiting_for_nolaggy = s.waiting_for_nolaggy := by
  cases h1 : s.beacon_sender <;> simp [beacon_send, h1]
@[simp] theorem beacon_send_finished_queue (now : Nat) (conf : Conf) (s : MDS) :
    (beacon_send now conf s).finished_queue = s.finished_queue := by
  cases h1 : s.beacon_sender <;> simp [beacon_send, h1]
@[simp] theorem suicide_whoami (s : MDS) :
    (suicide s).whoami = s.whoami := by
  cases h1 : s.beacon_killer <;> cases h2 : s.beacon_sender <;> cases h3 : s.tick_event <;>
    simp [suicide, h1, h2, h3]
@[simp] theorem suicide_want_state (s : MDS) :
    (suicide s).want_state = s.want_state := by
  cases h1 : s.beacon_killer <;> cases h2 : s.beacon_sender <;> cases h3 : s.tick_event <;>
    simp [suicide, h1, h2, h3]
@[simp] theorem suicide_beacon_last_seq (s : MDS) :
    (suicide s).beacon_last_seq = s.beacon_last_seq := by
  cases h1 : s.beacon_killer <;> cases h2 : s.beacon_sender <;> cases h3 : s.tick_event <;>
    simp [suicide, h1, h2, h3]
@[simp] theorem suicide_beacon_seq_stamp (s : MDS) :
    (suicide s).beacon_seq_stamp = s.beacon_seq_stamp := by
  cases h1 : s.beacon_killer <;> cases h2 : s.beacon_sender <;> cases h3 : s.tick_event <;>
    simp [suicide, h1, h2, h3]
@[simp] theorem suicide_beacon_last_acked_stamp (s : MDS) :
    (suicide s).beacon_last_acked_stamp = s.beacon_last_acked_stamp := by
  cases h1 : s.beacon_killer <;> cases h2 : s.beacon_sender <;> cases h3 : s.tick_event <;>
    simp [suicide, h1, h2, h3]
@[simp] theorem suicide_laggy (s : MDS) :
    (suicide s).laggy = s.laggy := by
  cases h1 : s.beacon_killer <;> cases h2 : s.beacon_sender <;> cases h3 : s.tick_event <;>
    simp [suicide, h1, h2, h3]
@[simp] theorem suicide_trace (s : MDS) :
    (suicide s).trace = s.trace ++ [Event.mdcache_shutdown, Event.objecter_shutdown, Event.messenger_shutdown] := by
  cases h1 : s.beacon_killer <;> cases h2 : s.beacon_sender <;> cases h3 : s.tick_event <;>
    simp [suicide, h1, h2, h3]
@[simp] theorem suicide_waiting_for_nolaggy (s : MDS) :
    (suicide s).waiting_for_nolaggy = s.waiting_for_nolaggy := by
  cases h1 : s.beacon_killer <;> cases h2 : s.beacon_sender <;> cases h3 : s.tick_event <;>
    simp [suicide, h1, h2, h3]
@[simp] theorem suicide_finished_queue (s : MDS) :
    (suicide s).finished_queue = s.finished_queue := by
  cases h1 : s.beacon_killer <;> cases h2 : s.beacon_sender <;> cases h3 : s.tick_event <;>
    simp [suicide, h1, h2, h3]
@[simp] theorem request_state_want_state (now : Nat) (conf : Conf) (s : MDS) (st : MDSState) :
    (request_state now conf s st).want_state = st := by
  simp [request_state]
@[simp] theorem request_state_trace (now : Nat) (conf : Conf) (s : MDS) (st : MDSState) :
    (request_state now conf s st).trace = s.trace ++ [Event.send_message
      (OutMsg.MMDSBeacon s.fsid s.mdsmap.get_epoch st (s.beacon_last_seq + 1) s.want_rank)
      (Dest.mon s.beacon_seq_stamp.length)] := by
  simp [request_state]

theorem handle_mds_map_state_change_mdsmap (now : Nat) (conf : Conf) (oldstate : MDSState)
    (s : MDS) (f : Flow) (h : handle_mds_map_state_change now conf oldstate s = some f) :
    f.node.mdsmap = s.mdsmap := by
  simp only [handle_mds_map_state_change, MDS.is_active, MDS.is_replay, MDS.is_resolve,
    MDS.is_reconnect, MDS.is_creating, MDS.is_starting, MDS.is_stopping, MDS.is_stopped,
    set_want_state_state] at h
  by_cases hc : oldstate ≠ s.state
  · rw [if_pos hc] at h
    cases hs : s.state with
    | DNE =>
      simp only [hs, beq_self_eq_true, if_true, if_false, reduceCtorEq, beq_iff_eq] at h
      simp only [Option.some.injEq] at h
      subst h
      simp [Flow.node]
    | STANDBY =>
      simp only [hs, beq_self_eq_true, if_true, if_false, reduceCtorEq, beq_iff_eq] at h
      simp only [Option.some.injEq] at h
      subst h
      simp [Flow.node]
    | BOOT =>
      simp only [hs, beq_self_eq_true, if_true, if_false, reduceCtorEq, beq_iff_eq] at h
      simp only [Option.some.injEq] at h
      subst h
      simp [Flow.node]
    | CREATING =>
      simp only [hs, beq_self_eq_true, if_true, if_false, reduceCtorEq, beq_iff_eq] at h
      simp only [Option.some.injEq] at h
      subst h
      simp [Flow.node]
    | STARTING =>
      simp only [hs, beq_self_eq_true, if_true, if_false, reduceCtorEq, beq_iff_eq] at h
      simp only [Option.map_eq_some'] at h
      obtain ⟨s2, h2, rfl⟩ := h
      exact (boot_start_mdsmap _ _ _ _ _ _ h2).trans (set_want_state_mdsmap _ _)
    | REPLAY =>
      simp only [hs, beq_self_eq_true, if_true, if_false, reduceCtorEq, beq_iff_eq] at h
      simp only [Option.map_eq_some'] at h
      obtain ⟨s2, h2, rfl⟩ := h
      exact (replay_start_mdsmap _ _ _ _ h2).trans (set_want_state_mdsmap _ _)
    | RESOLVE =>
      simp only [hs, beq_self_eq_true, if_true, if_false, reduceCtorEq, beq_iff_eq] at h
      simp only [Option.some.injEq] at h
      subst h
      simp [Flow.node]
    | RECONNECT =>
      simp only [hs, beq_self_eq_true, if_true, if_false, reduceCtorEq, beq_iff_eq] at h
      simp only [Option.some.injEq] at h
      subst h
      simp [Flow.node]
    | REJOIN =>
      simp only [hs, beq_self_eq_true, if_true, if_false, reduceCtorEq, beq_iff_eq] at h
      simp only [Option.some.injEq] at h
      subst h
      simp [Flow.node]
    | ACTIVE =>
      simp only [hs, beq_self_eq_true, if_true, if_false, reduceCtorEq, beq_iff_eq] at h
      simp only [Option.map_eq_some'] at h
      obtain ⟨s2, h2, rfl⟩ := h
      split_ifs at h2
      · simpa [Flow.node] using recovery_done_mdsmap _ _ h2
      · simp only [Option.some.injEq] at h2
        subst h2
        simp [Flow.node]
    | STOPPING =>
      simp only [hs, beq_self_eq_true, if_true, if_false, reduceCtorEq, beq_iff_eq] at h
      split_ifs at h
      simp only [Option.some.injEq] at h
      subst h
      simp [Flow.node]
    | STOPPED =>
      simp only [hs, beq_self_eq_true, if_true, if_false, reduceCtorEq, beq_iff_eq] at h
      split_ifs at h
      simp only [Option.some.injEq] at h
      subst h
      simp [Flow.node]
    | FAILED =>
      simp only [hs, beq_self_eq_true, if_true, if_false, reduceCtorEq, beq_iff_eq] at h
      simp only [Option.some.injEq] at h
      subst h
      simp [Flow.node]
  · rw [if_neg hc] at h
    simp only [Option.some.injEq] at h
    subst h
    rfl

theorem handle_mds_map_ranked_mdsmap (now : Nat) (conf : Conf) (oldmap : MDSMap)
    (oldwhoami : Int) (oldstate : MDSState) (s : MDS) (m : Message) (s1 : MDS)
    (h : handle_mds_map_ranked now conf oldmap oldwhoami oldstate s m = some s1) :
    s1.mdsmap = s.mdsmap := by
  simp only [handle_mds_map_ranked, Option.bind_eq_some, Option.map_eq_some'] at h
  obtain ⟨s2, h2, f, h3, rfl⟩ := h
  have e2 := map_tell_objecter_mdsmap _ _ h2
  have e3 := handle_mds_map_state_change_mdsmap _ _ _ _ _ h3
  cases f with
  | proceed s3 =>
    simp only [Flow.node] at e3
    simp only [emit_mdsmap, handle_mds_map_peer_deltas_mdsmap, e3]
    split_ifs <;> simp [e2]
  | returned s3 =>
    simp only [Flow.node] at e3
    simp only [e3]
    split_ifs <;> simp [e2]

/-- What `handle_mds_map` does to the current map: a message that fails the
freshness gate leaves it alone, any other installs the map it encodes. -/
theorem handle_mds_map_mdsmap (now : Nat) (conf : Conf) (s : MDS) (m : Message) (s1 : MDS)
    (h : handle_mds_map now conf s m = some s1) :
    (m.epoch ≤ s.mdsmap.get_epoch ∧ s1.mdsmap = s.mdsmap) ∨
    (s.mdsmap.get_epoch < m.epoch ∧ s1.mdsmap = m.encoded) := by
  simp only [handle_mds_map, note_peer_epoch_mdsmap, note_peer_epoch_state] at h
  by_cases h1 : m.epoch ≤ s.mdsmap.get_epoch
  · left
    rw [if_pos h1] at h
    simp only [Option.some.injEq] at h
    subst h
    exact ⟨h1, by simp⟩
  · right
    refine ⟨Nat.lt_of_not_le h1, ?_⟩
    rw [if_neg h1] at h
    split_ifs at h
    · simp only [Option.some.injEq] at h; subst h; simp
    · simp only [Option.some.injEq] at h; subst h; simp
    · simp only [Option.some.injEq] at h; subst h; simp
    · simpa using handle_mds_map_ranked_mdsmap _ _ _ _ _ _ _ _ h

/-! ## The freshness gate -/

theorem note_peer_epoch_eq (s : MDS) (m : Message) :
    note_peer_epoch s m = set_peer_mdsmap_epoch (fun p =>
      if m.get_source.is_mds = true ∧ p = m.get_source.num
      then max (s.peer_mdsmap_epoch p) m.epoch else s.peer_mdsmap_epoch p) s := by
  unfold note_peer_epoch
  have key : ∀ f g : Int → Nat, f = g → set_peer_mdsmap_epoch f s = set_peer_mdsmap_epoch g s :=
    fun f g e => by rw [e]
  split_ifs with hc
  · apply key
    funext p
    by_cases hp : p = m.get_source.num
    · subst hp
      simp [set_peer_epoch, hc.1, Nat.max_eq_right (Nat.le_of_lt hc.2)]
    · simp [set_peer_epoch, hp]
  · have e : s = set_peer_mdsmap_epoch s.peer_mdsmap_epoch s := rfl
    conv_lhs => rw [e]
    apply key
    funext p
    by_cases hp : m.get_source.is_mds = true ∧ p = m.get_source.num
    · obtain ⟨h1, h2⟩ := hp
      subst h2
      have : m.epoch ≤ s.peer_mdsmap_epoch m.get_source.num := by
        by_contra hlt
        exact hc ⟨h1, Nat.lt_of_not_le hlt⟩
      simp [h1, Nat.max_eq_left this]
    · simp [hp]

/-- C1.  A map message whose epoch is not above the epoch of the current map
is discarded: the handler completes, the only change to the node is the note
of the peer source's epoch (raised to the maximum of its old value and the
message epoch) and the only call on a collaborator is the release of the
message.  The current map, whoami, state, want_state, the timers and every
queue are as before; no entry action, peer-delta side effect or suicide
happens. -/
theorem handle_mds_map_discards_stale (now : Nat) (conf : Conf) (s : MDS) (m : Message)
    (h : m.epoch ≤ s.mdsmap.get_epoch) :
    handle_mds_map now conf s m = some { s with
      peer_mdsmap_epoch := fun p =>
        if m.get_source.is_mds = true ∧ p = m.get_source.num
        then max (s.peer_mdsmap_epoch p) m.epoch else s.peer_mdsmap_epoch p
      trace := s.trace ++ [Event.delete_message m] } := by
  simp only [handle_mds_map]
  rw [if_pos (by simpa using h), note_peer_epoch_eq]
  rfl

/-- A stale map from peer rank 1 reaches a node whose map is at epoch 3: only
the peer-epoch note and the release of the message happen. -/
theorem handle_mds_map_discards_stale_witness :
    ({ exampleMessage 21 (mdsInst 1) with epoch := 2 } : Message).epoch
        ≤ nodeAtEpoch3.mdsmap.get_epoch ∧
    handle_mds_map 0 exampleConf nodeAtEpoch3 { exampleMessage 21 (mdsInst 1) with epoch := 2 }
      = some { nodeAtEpoch3 with
          peer_mdsmap_epoch := fun p =>
            if ({ exampleMessage 21 (mdsInst 1) with epoch := 2 } : Message).get_source.is_mds
                = true ∧
              p = ({ exampleMessage 21 (mdsInst 1) with epoch := 2 } : Message).get_source.num
            then max (nodeAtEpoch3.peer_mdsmap_epoch p)
              ({ exampleMessage 21 (mdsInst 1) with epoch := 2 } : Message).epoch
            else nodeAtEpoch3.peer_mdsmap_epoch p
          trace := nodeAtEpoch3.trace ++
            [Event.delete_message { exampleMessage 21 (mdsInst 1) with epoch := 2 }] } :=
  ⟨by decide, handle_mds_map_discards_stale 0 exampleConf nodeAtEpoch3 _ (by decide)⟩

/-! ## Epochs of installed maps -/

/-- C2, as stated, fails: the freshness test compares the epoch in the header
of the message, the installed map is the one decoded from the payload.  A
message with header epoch 5 whose payload encodes a map of epoch 0 passes the
test on a node at epoch 3 and leaves it with a map of epoch 0. -/
theorem handle_mds_map_installs_lower_epoch :
    nodeAtEpoch3.mdsmap.get_epoch = 3 ∧
    (mapMessage 5 (standbyMap 0)).epoch = 5 ∧
    (handle_mds_map 0 exampleConf nodeAtEpoch3 (mapMessage 5 (standbyMap 0))).map
      (fun s => s.mdsmap.get_epoch) = some 0 :=
  ⟨rfl, rfl, rfl⟩

theorem handle_mds_maps_epoch_mono (now : Nat) (conf : Conf) (ms : List Message) :
    ∀ (s s1 : MDS), (∀ x ∈ ms, x.encoded.get_epoch = x.epoch) →
      handle_mds_maps now conf s ms = some s1 → s.mdsmap.get_epoch ≤ s1.mdsmap.get_epoch := by
  induction ms with
  | nil =>
    intro s s1 _ h
    simp only [handle_mds_maps, Option.some.injEq] at h
    subst h
    exact Nat.le_refl _
  | cons m ms ih =>
    intro s s1 hms h
    simp only [handle_mds_maps, Option.bind_eq_some] at h
    obtain ⟨s2, h2, h3⟩ := h
    have hm := hms m (List.mem_cons_self _ _)
    have step : s.mdsmap.get_epoch ≤ s2.mdsmap.get_epoch := by
      rcases handle_mds_map_mdsmap _ _ _ _ _ h2 with ⟨_, e⟩ | ⟨hlt, e⟩
      · rw [e]
      · rw [e, hm]; exact Nat.le_of_lt hlt
    exact Nat.le_trans step (ih s2 s1 (fun x hx => hms x (List.mem_cons_of_mem _ hx)) h3)

/-- C2, amended.  Whenever a call of handle_mds_map installs a map, whatever
the payload, the epoch in the header of the message is strictly greater than
the epoch of the map that is replaced; otherwise the header epoch is at most
the current epoch and the current map stays.  When the header epoch equals the
epoch of the map the message encodes (as `MMDSMap(fsid, map)` builds it), the
epoch of the installed map is strictly greater than the epoch of the map it
replaces.  Over any run of such messages the epoch of the current map never
decreases. -/
theorem handle_mds_map_epoch_increases (now : Nat) (conf : Conf) (s s1 s2 : MDS)
    (ms : List Message) (m : Message)
    (h1 : handle_mds_maps now conf s ms = some s1)
    (h2 : handle_mds_map now conf s1 m = some s2) :
    ((m.epoch ≤ s1.mdsmap.get_epoch ∧ s2.mdsmap = s1.mdsmap) ∨
      (s1.mdsmap.get_epoch < m.epoch ∧ s2.mdsmap = m.encoded)) ∧
    (m.encoded.get_epoch = m.epoch →
      s2.mdsmap = s1.mdsmap ∨
        (s2.mdsmap = m.encoded ∧ s1.mdsmap.get_epoch < m.epoch ∧
          s1.mdsmap.get_epoch < s2.mdsmap.get_epoch)) ∧
    ((∀ x ∈ ms, x.encoded.get_epoch = x.epoch) →
      s.mdsmap.get_epoch ≤ s1.mdsmap.get_epoch ∧
      (m.encoded.get_epoch = m.epoch → s.mdsmap.get_epoch ≤ s2.mdsmap.get_epoch)) := by
  have hstep : m.encoded.get_epoch = m.epoch →
      s2.mdsmap = s1.mdsmap ∨
        (s2.mdsmap = m.encoded ∧ s1.mdsmap.get_epoch < m.epoch ∧
          s1.mdsmap.get_epoch < s2.mdsmap.get_epoch) := by
    intro hm
    rcases handle_mds_map_mdsmap _ _ _ _ _ h2 with ⟨_, e⟩ | ⟨hlt, e⟩
    · exact Or.inl e
    · exact Or.inr ⟨e, hlt, by rw [e, hm]; exact hlt⟩
  refine ⟨handle_mds_map_mdsmap _ _ _ _ _ h2, hstep, fun hms => ?_⟩
  have hrun := handle_mds_maps_epoch_mono now conf ms s s1 hms h1
  refine ⟨hrun, fun hm => ?_⟩
  rcases hstep hm with e | ⟨_, _, hlt⟩
  · rw [e]
    exact hrun
  · exact Nat.le_trans hrun (Nat.le_of_lt hlt)

/-- A node takes the maps of epochs 1 and 2, then the map of epoch 4: the
third is installed, its header epoch 4 is above the current epoch 2, and the
epoch of the current map goes from 2 to 4. -/
theorem handle_mds_map_epoch_increases_witness :
    handle_mds_maps 0 exampleConf exampleNode
      [mapMessage 1 (standbyMap 1), mapMessage 2 (standbyMap 2)] = some
        (emit (.delete_message (mapMessage 2 (standbyMap 2)))
          (set_mdsmap (standbyMap 2) (standbyNode 1))) ∧
    exampleNode.mdsmap.get_epoch ≤ 2 ∧
    (2 : Nat) < (mapMessage 4 (standbyMap 4)).epoch ∧
    exampleNode.mdsmap.get_epoch ≤ (standbyMap 4).get_epoch :=
  have h1 : handle_mds_maps 0 exampleConf exampleNode
      [mapMessage 1 (standbyMap 1), mapMessage 2 (standbyMap 2)] = some
        (emit (.delete_message (mapMessage 2 (standbyMap 2)))
          (set_mdsmap (standbyMap 2) (standbyNode 1))) := rfl
  have h2 : handle_mds_map 0 exampleConf
      (emit (.delete_message (mapMessage 2 (standbyMap 2)))
        (set_mdsmap (standbyMap 2) (standbyNode 1))) (mapMessage 4 (standbyMap 4)) = some
      (emit (.delete_message (mapMessage 4 (standbyMap 4)))
        (set_mdsmap (standbyMap 4) (emit (.delete_message (mapMessage 2 (standbyMap 2)))
          (set_mdsmap (standbyMap 2) (standbyNode 1))))) := rfl
  have key := handle_mds_map_epoch_increases 0 exampleConf exampleNode _ _
    [mapMessage 1 (standbyMap 1), mapMessage 2 (standbyMap 2)] (mapMessage 4 (standbyMap 4))
    h1 h2
  have hms : ∀ x ∈ [mapMessage 1 (standbyMap 1), mapMessage 2 (standbyMap 2)],
      x.encoded.get_epoch = x.epoch := by
    intro x hx
    simp at hx
    rcases hx with rfl | rfl <;> rfl
  ⟨h1, (key.2.2 hms).1,
    (key.1.resolve_left (fun hx => absurd hx.1 (by decide))).1,
    (key.2.2 hms).2 rfl⟩

/-! ## The beacon ledger -/

theorem stamp_count_iff (k : Nat) (l : List (Nat × Nat)) :
    stamp_count k l = true ↔ ∃ e ∈ l, e.1 = k := by
  simp [stamp_count]

theorem stamp_get_mem (k : Nat) (l : List (Nat × Nat)) (h : stamp_count k l = true) :
    (k, stamp_get k l) ∈ l := by
  induction l with
  | nil => simp [stamp_count] at h
  | cons e l ih =>
    obtain ⟨k1, v1⟩ := e
    by_cases hk : k1 = k
    · subst hk
      simp [stamp_get]
    · have h2 : stamp_count k l = true := by
        simp only [stamp_count, List.any_cons, Bool.or_eq_true, beq_iff_eq] at h ⊢
        rcases h with h | h
        · exact absurd h hk
        · exact h
      simp only [stamp_get, hk, if_false, List.mem_cons]
      exact Or.inr (ih h2)

theorem erase_upto_eq_filter (seq : Nat) (l : List (Nat × Nat)) (hs : keys_ascending l) :
    erase_upto seq l = l.filter (fun e => decide (seq < e.1)) := by
  induction l with
  | nil => rfl
  | cons e l ih =>
    obtain ⟨k1, v1⟩ := e
    have hs2 : keys_ascending l := (List.pairwise_cons.mp hs).2
    by_cases hk : k1 ≤ seq
    · have : ¬ seq < k1 := Nat.not_lt.mpr hk
      simp [erase_upto, hk, this, ih hs2]
    · have hlt : seq < k1 := Nat.lt_of_not_le hk
      have hall : ∀ x ∈ l, decide (seq < x.1) = true := by
        intro x hx
        have := (List.pairwise_cons.mp hs).1 x hx
        exact decide_eq_true (Nat.lt_trans hlt this)
      simp only [erase_upto, hk, if_false]
      rw [List.filter_cons_of_pos (by simpa using hlt), List.filter_eq_self.mpr hall]

theorem stamp_insert_mem (k v : Nat) (l : List (Nat × Nat)) (e : Nat × Nat)
    (h : e ∈ stamp_insert k v l) : e = (k, v) ∨ e ∈ l := by
  induction l with
  | nil => simpa [stamp_insert] using h
  | cons x l ih =>
    obtain ⟨k1, v1⟩ := x
    simp only [stamp_insert] at h
    split_ifs at h with h1 h2
    · simpa using h
    · simp only [List.mem_cons] at h ⊢
      rcases h with h | h
      · exact Or.inl h
      · exact Or.inr (Or.inr h)
    · simp only [List.mem_cons] at h ⊢
      rcases h with h | h
      · exact Or.inr (Or.inl h)
      · rcases ih h with h | h
        · exact Or.inl h
        · exact Or.inr (Or.inr h)

theorem stamp_insert_ascending (k v : Nat) (l : List (Nat × Nat)) (hs : keys_ascending l) :
    keys_ascending (stamp_insert k v l) := by
  induction l with
  | nil => simp [stamp_insert, keys_ascending]
  | cons x l ih =>
    obtain ⟨k1, v1⟩ := x
    have hp := List.pairwise_cons.mp hs
    simp only [stamp_insert]
    split_ifs with h1 h2
    · refine List.pairwise_cons.mpr ⟨?_, hs⟩
      intro y hy
      rcases List.mem_cons.mp hy with rfl | hy
      · exact h1
      · exact Nat.lt_trans h1 (hp.1 y hy)
    · subst h2
      exact List.pairwise_cons.mpr ⟨hp.1, hp.2⟩
    · refine List.pairwise_cons.mpr ⟨?_, ih hp.2⟩
      intro y hy
      rcases stamp_insert_mem _ _ _ _ hy with rfl | hy
      · exact Nat.lt_of_le_of_ne (Nat.le_of_not_lt h1) (fun e => h2 e.symm)
      · exact hp.1 y hy

/-- What an accepted acknowledgement does to the ledger and to
`beacon_last_acked_stamp`. -/
theorem handle_mds_beacon_accepted (now : Nat) (conf : Conf) (s s1 : MDS) (m : Message)
    (hin : stamp_count m.seq s.beacon_seq_stamp = true)
    (h : handle_mds_beacon now conf s m = some s1) :
    s1.beacon_last_acked_stamp = stamp_get m.seq s.beacon_seq_stamp ∧
    s1.beacon_seq_stamp = erase_upto m.seq s.beacon_seq_stamp ∧
    s1.beacon_last_seq = s.beacon_last_seq := by
  simp only [handle_mds_beacon, set_last_mon_beacon_seq_stamp, hin, if_true] at h
  split_ifs at h <;> simp only [Option.some.injEq] at h <;> subst h <;> simp

-- An acknowledgement for a sequence that the ledger lacks changes no beacon state.
theorem handle_mds_beacon_ignored (now : Nat) (conf : Conf) (s s1 : MDS) (m : Message)
    (hin : stamp_count m.seq s.beacon_seq_stamp = false)
    (h : handle_mds_beacon now conf s m = some s1) :
    s1.beacon_last_acked_stamp = s.beacon_last_acked_stamp ∧
    s1.beacon_seq_stamp = s.beacon_seq_stamp ∧
    s1.beacon_last_seq = s.beacon_last_seq := by
  simp only [handle_mds_beacon, set_last_mon_beacon_seq_stamp, hin] at h
  simp only [Bool.false_eq_true, if_false, Option.some.injEq] at h
  subst h
  simp

/-- C3.  Take an acknowledgement whose sequence is in the ledger (a `std::map`,
so its keys ascend).  The handler completes exactly when the send timestamp
held for that sequence is above last_acked_stamp (its assertion), and then
last_acked_stamp is that send timestamp and the ledger is exactly the former
entries with a greater sequence, timestamps untouched; none with a sequence
less than or equal to the acknowledged one remains. -/
theorem handle_mds_beacon_ack (now : Nat) (conf : Conf) (s : MDS) (m : Message)
    (hs : keys_ascending s.beacon_seq_stamp)
    (hin : stamp_count m.seq s.beacon_seq_stamp = true) :
    ((handle_mds_beacon now conf s m).isSome = true ↔
      s.beacon_last_acked_stamp < stamp_get m.seq s.beacon_seq_stamp) ∧
    ∀ s1, handle_mds_beacon now conf s m = some s1 →
      (m.seq, s1.beacon_last_acked_stamp) ∈ s.beacon_seq_stamp ∧
      s1.beacon_last_acked_stamp = stamp_get m.seq s.beacon_seq_stamp ∧
      s1.beacon_seq_stamp = s.beacon_seq_stamp.filter (fun e => decide (m.seq < e.1)) ∧
      (∀ e ∈ s1.beacon_seq_stamp, m.seq < e.1) := by
  constructor
  · simp only [handle_mds_beacon, set_last_mon_beacon_seq_stamp, hin, if_true,
      set_last_mon_beacon_last_acked_stamp]
    by_cases h : stamp_get m.seq s.beacon_seq_stamp > s.beacon_last_acked_stamp
    · rw [if_pos h]
      exact ⟨fun _ => h, fun _ => rfl⟩
    · rw [if_neg h]
      exact ⟨fun h0 => Bool.noConfusion h0, fun h0 => absurd h0 h⟩
  · intro s1 h
    obtain ⟨e1, e2, _⟩ := handle_mds_beacon_accepted now conf s s1 m hin h
    have e3 := erase_upto_eq_filter m.seq s.beacon_seq_stamp hs
    refine ⟨?_, e1, e2.trans e3, ?_⟩
    · rw [e1]
      exact stamp_get_mem _ _ hin
    · intro e he
      rw [e2, e3] at he
      simpa using (List.mem_filter.mp he).2

/-- Beacons 1, 2, 3 were sent at times 10, 20, 30; the acknowledgement of
beacon 2 sets last_acked_stamp to 20 and leaves only beacon 3 in the ledger. -/
theorem handle_mds_beacon_ack_witness :
    nodeThreeBeacons.beacon_seq_stamp = [(1, 10), (2, 20), (3, 30)] ∧
    handle_mds_beacon 31 exampleConf nodeThreeBeacons (beaconAck 2) = some nodeAckedTwo ∧
    nodeAckedTwo.beacon_last_acked_stamp = 20 ∧
    nodeAckedTwo.beacon_seq_stamp
      = nodeThreeBeacons.beacon_seq_stamp.filter (fun e => decide ((beaconAck 2).seq < e.1)) :=
  have hs : keys_ascending nodeThreeBeacons.beacon_seq_stamp := by
    have e : nodeThreeBeacons.beacon_seq_stamp = [(1, 10), (2, 20), (3, 30)] := rfl
    rw [e]
    simp [keys_ascending]
  have key := (handle_mds_beacon_ack 31 exampleConf nodeThreeBeacons (beaconAck 2)
    hs rfl).2 nodeAckedTwo rfl
  ⟨rfl, rfl, key.2.1, key.2.2.1⟩

/-- The invariant behind C4: the keys of the ledger ascend, the latest accepted
acknowledgement is at most `beacon_last_seq`, and every entry of the ledger has
a sequence above the former and at most the latter. -/
theorem BeaconReach.inv (s : MDS) (a : Nat) (h : BeaconReach s a) :
    keys_ascending s.beacon_seq_stamp ∧ a ≤ s.beacon_last_seq ∧
    ∀ e ∈ s.beacon_seq_stamp, a < e.1 ∧ e.1 ≤ s.beacon_last_seq := by
  induction h with
  | construct whoami myaddr fsid =>
    simp [MDS.construct, keys_ascending]
  | send now conf s a _ ih =>
    obtain ⟨h1, h2, h3⟩ := ih
    refine ⟨?_, ?_, ?_⟩
    · rw [beacon_send_beacon_seq_stamp]
      exact stamp_insert_ascending _ _ _ h1
    · rw [beacon_send_beacon_last_seq]
      exact Nat.le_succ_of_le h2
    · intro e he
      rw [beacon_send_beacon_seq_stamp] at he
      rw [beacon_send_beacon_last_seq]
      rcases stamp_insert_mem _ _ _ _ he with rfl | he
      · exact ⟨Nat.lt_succ_of_le h2, Nat.le_refl _⟩
      · exact ⟨(h3 e he).1, Nat.le_succ_of_le (h3 e he).2⟩
  | ack_accepted now conf s s1 a m _ hin hret ih =>
    obtain ⟨h1, h2, h3⟩ := ih
    obtain ⟨_, e2, e3⟩ := handle_mds_beacon_accepted now conf s s1 m hin hret
    have hf := erase_upto_eq_filter m.seq s.beacon_seq_stamp h1
    have hmem := stamp_get_mem _ _ hin
    refine ⟨?_, ?_, ?_⟩
    · rw [e2, hf]
      exact List.Pairwise.filter _ h1
    · rw [e3]
      exact (h3 _ hmem).2
    · intro e he
      rw [e2, hf] at he
      obtain ⟨he1, he2⟩ := List.mem_filter.mp he
      rw [e3]
      exact ⟨by simpa using he2, (h3 e he1).2⟩
  | ack_ignored now conf s s1 a m _ hin hret ih =>
    obtain ⟨_, e2, e3⟩ := handle_mds_beacon_ignored now conf s s1 m hin hret
    rw [e2, e3]
    exact ih

/-- C4.  In every node reachable from construction by beacon sends and beacon
acknowledgements, every sequence number in the ledger is above the latest
accepted acknowledgement and at most beacon_last_seq; and the next beacon_send
carries the sequence beacon_last_seq + 1, which it then records.  (Sequence
numbers are counted without the 64-bit wrap.) -/
theorem beacon_ledger_bounds (s : MDS) (a : Nat) (h : BeaconReach s a) :
    (∀ e ∈ s.beacon_seq_stamp, a < e.1 ∧ e.1 ≤ s.beacon_last_seq) ∧
    (∀ now conf, (beacon_send now conf s).beacon_last_seq = s.beacon_last_seq + 1 ∧
      (beacon_send now conf s).trace = s.trace ++ [Event.send_message
        (OutMsg.MMDSBeacon s.fsid s.mdsmap.get_epoch s.want_state (s.beacon_last_seq + 1)
          s.want_rank) (Dest.mon s.beacon_seq_stamp.length)]) :=
  ⟨(BeaconReach.inv s a h).2.2, fun now conf =>
    ⟨beacon_send_beacon_last_seq now conf s, beacon_send_trace now conf s⟩⟩

/-- After three beacons and the acknowledgement of beacon 2 the ledger holds
beacon 3 only, above the acknowledged 2 and at most beacon_last_seq = 3. -/
theorem beacon_ledger_bounds_witness :
    BeaconReach nodeAckedTwo 2 ∧ ((3, 30) : Nat × Nat) ∈ nodeAckedTwo.beacon_seq_stamp ∧
    (2 < 3 ∧ 3 ≤ nodeAckedTwo.beacon_last_seq) :=
  have hr : BeaconReach nodeAckedTwo 2 :=
    BeaconReach.ack_accepted 31 exampleConf nodeThreeBeacons nodeAckedTwo 0 (beaconAck 2)
      (BeaconReach.send _ _ _ _ (BeaconReach.send _ _ _ _ (BeaconReach.send _ _ _ _
        (BeaconReach.construct 0 7 1)))) rfl rfl
  have hm : ((3, 30) : Nat × Nat) ∈ nodeAckedTwo.beacon_seq_stamp := by
    have e : nodeAckedTwo.beacon_seq_stamp = [(3, 30)] := rfl
    rw [e]
    exact List.mem_singleton.mpr rfl
  ⟨hr, hm, (beacon_ledger_bounds nodeAckedTwo 2 hr).1 (3, 30) hm⟩

/-! ## The dispatcher while laggy -/

/-- C5, as stated, fails for monitor commands: a laggy node applies a monitor
command at once and queues no retry for it. -/
theorem dispatch_laggy_mon_command_not_deferred :
    from_bad_mds exampleConsts laggyNode monCommand = false ∧
    laggyNode.laggy = true ∧
    monCommand.type ≠ exampleConsts.CEPH_MSG_MDS_MAP ∧
    monCommand.type ≠ exampleConsts.MSG_MDS_BEACON ∧
    _dispatch exampleConsts 0 exampleConf false laggyNode monCommand
      = some (emit (.delete_message monCommand)
          (emit (.parse_config_option_string "debug_mds=10") laggyNode), true) ∧
    (emit (.delete_message monCommand)
      (emit (.parse_config_option_string "debug_mds=10") laggyNode)).waiting_for_nolaggy = [] :=
  ⟨rfl, rfl, by decide, by decide, rfl, rfl⟩

/-- C5, amended.  A message that passes the imposter filter while laggy is set
and whose type is none of cluster map, beacon and monitor command is deferred:
`_dispatch` appends exactly one retry continuation for it to
waiting_for_nolaggy, changes nothing else, calls no collaborator and returns
true. -/
theorem dispatch_laggy_defers (K : MsgConsts) (now : Nat) (conf : Conf) (shutdown_pass : Bool)
    (s : MDS) (m : Message)
    (hf : from_bad_mds K s m = false) (hl : s.laggy = true)
    (h1 : m.type ≠ K.CEPH_MSG_MDS_MAP) (h2 : m.type ≠ K.MSG_MDS_BEACON)
    (h3 : m.type ≠ K.MSG_MON_COMMAND) :
    _dispatch K now conf shutdown_pass s m = some ({ s with
      waiting_for_nolaggy := s.waiting_for_nolaggy ++ [Context.C_MDS_RetryMessage m] }, true) := by
  have key : _dispatch K now conf shutdown_pass s m = some (set_waiting_for_nolaggy
      (s.waiting_for_nolaggy ++ [Context.C_MDS_RetryMessage m]) s, true) := by
    simp only [_dispatch, hf, Bool.false_eq_true, if_false, if_neg h1, if_neg h2, if_neg h3,
      if_pos hl, Option.map_some', set_waiting_for_nolaggy_laggy]
  exact key

-- A laggy node defers a heartbeat that comes from a source that is no peer.
theorem dispatch_laggy_defers_witness :
    _dispatch exampleConsts 0 exampleConf false laggyNode
        (exampleMessage exampleConsts.MSG_MDS_HEARTBEAT clientInst)
      = some ({ laggyNode with
          waiting_for_nolaggy := laggyNode.waiting_for_nolaggy ++
            [Context.C_MDS_RetryMessage (exampleMessage exampleConsts.MSG_MDS_HEARTBEAT clientInst)] },
        true) :=
  dispatch_laggy_defers exampleConsts 0 exampleConf false laggyNode
    (exampleMessage exampleConsts.MSG_MDS_HEARTBEAT clientInst)
    rfl rfl (by decide) (by decide) (by decide)

/-- C6.  While laggy is set, `_dispatch` of a message that is neither a cluster
map nor a beacon returns true after one of three things: the message was
dropped by the imposter filter, it was a monitor command and was applied, or it
was deferred.  In each case no message entry point of a subsystem is called and
no post-dispatch work is done: the finished queue is not run, nothing is
trimmed and no shutdown pass is made; laggy stays set. -/
theorem dispatch_laggy_no_subsystem (K : MsgConsts) (now : Nat) (conf : Conf)
    (shutdown_pass : Bool) (s : MDS) (m : Message)
    (hl : s.laggy = true)
    (h1 : m.type ≠ K.CEPH_MSG_MDS_MAP) (h2 : m.type ≠ K.MSG_MDS_BEACON) :
    ∃ s1 evs, _dispatch K now conf shutdown_pass s m = some (s1, true) ∧
      s1.trace = s.trace ++ evs ∧
      (evs = [Event.delete_message m] ∨
        evs = [Event.parse_config_option_string m.cmd, Event.delete_message m] ∨ evs = []) ∧
      (∀ e ∈ evs, e.is_subsystem_entry = false ∧ e.is_post_dispatch = false) ∧
      s1.finished_queue = s.finished_queue ∧ s1.laggy = true ∧ s1.state = s.state := by
  by_cases hf : from_bad_mds K s m = true
  · refine ⟨emit (.delete_message m) s, [Event.delete_message m], ?_, rfl, Or.inl rfl, ?_,
      rfl, hl, rfl⟩
    · simp only [_dispatch, hf, if_true]
    · intro e he
      rw [List.mem_singleton.mp he]
      exact ⟨rfl, rfl⟩
  · have hf : from_bad_mds K s m = false := by simpa using hf
    by_cases h3 : m.type = K.MSG_MON_COMMAND
    · refine ⟨emit (.delete_message m) (emit (.parse_config_option_string m.cmd) s),
        [Event.parse_config_option_string m.cmd, Event.delete_message m], ?_, ?_,
        Or.inr (Or.inl rfl), ?_, rfl, hl, rfl⟩
      · simp only [_dispatch, hf, Bool.false_eq_true, if_false, if_neg h1, if_neg h2, if_pos h3,
          Option.map_some', emit_laggy, if_pos hl]
      · simp
      · intro e he
        simp only [List.mem_cons, List.mem_singleton, List.not_mem_nil, or_false] at he
        rcases he with rfl | rfl <;> exact ⟨rfl, rfl⟩
    · refine ⟨set_waiting_for_nolaggy
          (s.waiting_for_nolaggy ++ [Context.C_MDS_RetryMessage m]) s, [], ?_, ?_,
        Or.inr (Or.inr rfl), ?_, rfl, hl, rfl⟩
      · simp only [_dispatch, hf, Bool.false_eq_true, if_false, if_neg h1, if_neg h2, if_neg h3,
          if_pos hl, Option.map_some', set_waiting_for_nolaggy_laggy]
      · simp
      · intro e he
        exact absurd he (List.not_mem_nil _)

-- A laggy node that receives a monitor command applies it and does nothing else.
theorem dispatch_laggy_no_subsystem_witness :
    ∃ s1 evs, _dispatch exampleConsts 0 exampleConf false laggyNode monCommand = some (s1, true) ∧
      s1.trace = laggyNode.trace ++ evs ∧
      (evs = [Event.delete_message monCommand] ∨
        evs = [Event.parse_config_option_string monCommand.cmd, Event.delete_message monCommand]
        ∨ evs = []) ∧
      (∀ e ∈ evs, e.is_subsystem_entry = false ∧ e.is_post_dispatch = false) ∧
      s1.finished_queue = laggyNode.finished_queue ∧ s1.laggy = true ∧
      s1.state = laggyNode.state :=
  dispatch_laggy_no_subsystem exampleConsts 0 exampleConf false laggyNode monCommand
    rfl (by decide) (by decide)

/-! ## The imposter filter -/

/-- C7.  A message from peer rank r passes the imposter filter exactly when the
current map has an inst for r that equals the source inst of the message and r
is not marked down, or the message is a cluster map, or it is a cache-expire
whose source inst equals the inst of the map for r.  Every other peer message
is dropped: `_dispatch` returns true, calls no handler and only releases the
message. -/
theorem imposter_filter (K : MsgConsts) (now : Nat) (conf : Conf) (shutdown_pass : Bool)
    (s : MDS) (m : Message) (hmds : m.get_source.is_mds = true) :
    (from_bad_mds K s m = false ↔
      ((s.mdsmap.have_inst m.get_source.num = true ∧
          s.mdsmap.get_inst m.get_source.num = m.source_inst ∧
          s.mdsmap.is_down m.get_source.num = false) ∨
        m.type = K.CEPH_MSG_MDS_MAP ∨
        (m.type = K.MSG_MDS_CACHEEXPIRE ∧
          s.mdsmap.get_inst m.get_source.num = m.source_inst))) ∧
    (from_bad_mds K s m = true →
      _dispatch K now conf shutdown_pass s m
        = some ({ s with trace := s.trace ++ [Event.delete_message m] }, true)) := by
  constructor
  · simp only [from_bad_mds, hmds, if_true]
    cases hh : s.mdsmap.have_inst m.get_source.num <;>
      cases hd : s.mdsmap.is_down m.get_source.num <;>
      by_cases hi : s.mdsmap.get_inst m.get_source.num = m.source_inst <;>
      by_cases hm : m.type = K.CEPH_MSG_MDS_MAP <;>
      by_cases hc : m.type = K.MSG_MDS_CACHEEXPIRE <;>
      simp [hi, hm, hc]
  · intro hf
    simp only [_dispatch, hf, if_true]
    rfl

/-- A heartbeat from rank 1 reaches a node whose map has no inst for rank 1: it
does not pass the filter and is dropped. -/
theorem imposter_filter_witness :
    peerHeartbeat.get_source.is_mds = true ∧
    from_bad_mds exampleConsts exampleNode peerHeartbeat = true ∧
    _dispatch exampleConsts 0 exampleConf false exampleNode peerHeartbeat
      = some ({ exampleNode with
          trace := exampleNode.trace ++ [Event.delete_message peerHeartbeat] }, true) :=
  ⟨rfl, rfl, (imposter_filter exampleConsts 0 exampleConf false exampleNode peerHeartbeat rfl).2 rfl⟩

/-! ## Forwarding and piggybacking -/

/-- C8.  Forwarding a client request that cannot be forwarded sends exactly
one message: the forward directive to the inst the request first came from,
with the transaction id of the request, the target rank, the forward count
raised by one and must_resend set.  The request is then released.  Nothing is
forwarded on the transport, no map goes to the peer and the peer epochs, like
every other member, stay as they were. -/
theorem forward_message_mds_non_idempotent (K : MsgConsts) (s : MDS) (m : Message) (mds : Int)
    (ht : m.type = K.CEPH_MSG_CLIENT_REQUEST) (hc : m.get_orig_source.is_client = true)
    (hn : m.can_forward = false) :
    forward_message_mds K s m mds = { s with trace := s.trace ++
      [Event.send_message (OutMsg.MClientRequestForward m.tid mds (m.num_fwd + 1) true)
          (Dest.inst m.orig_source_inst),
        Event.delete_message { m with num_fwd := m.num_fwd + 1 }] } := by
  have key : forward_message_mds K s m mds =
      emit (.delete_message { m with num_fwd := m.num_fwd + 1 })
        (emit (.send_message (.MClientRequestForward m.tid mds (m.num_fwd + 1) true)
          (.inst m.orig_source_inst)) s) := by
    simp only [forward_message_mds, ht, hc, and_self, if_true, hn, Bool.not_false]
  rw [key]
  simp only [emit, List.append_assoc, List.singleton_append]

/-- The request with transaction id 42, forwarded twice before, is handed to
rank 2: the client gets a directive with forward count 3 and must_resend. -/
theorem forward_message_mds_non_idempotent_witness :
    forward_message_mds exampleConsts exampleNode clientRequest 2 = { exampleNode with
      trace := exampleNode.trace ++
        [Event.send_message (OutMsg.MClientRequestForward clientRequest.tid 2
            (clientRequest.num_fwd + 1) true) (Dest.inst clientRequest.orig_source_inst),
          Event.delete_message { clientRequest with num_fwd := clientRequest.num_fwd + 1 }] } :=
  forward_message_mds_non_idempotent exampleConsts exampleNode clientRequest 2 rfl rfl rfl

-- What the block `// send mdsmap first?` does, member by member.
theorem send_mdsmap_first_eq (s : MDS) (p : Int) :
    send_mdsmap_first s p =
      if s.peer_mdsmap_epoch p < s.mdsmap.get_epoch then
        { s with
          peer_mdsmap_epoch := set_peer_epoch s.peer_mdsmap_epoch p s.mdsmap.get_epoch
          trace := s.trace ++
            [Event.send_message (OutMsg.MMDSMap s.fsid s.mdsmap) (Dest.inst (s.mdsmap.get_inst p))] }
      else s := by
  simp only [send_mdsmap_first]
  split_ifs <;> rfl

/-- C9.  `send_message_mds(m, p)`, and the transport-level part of
`forward_message_mds(m, p)`, first look at peer_mdsmap_epoch[p].  If it is below
the epoch of the current map, a map message with the current map goes to the
inst of p right before the payload and peer_mdsmap_epoch[p] becomes the current
epoch; otherwise only the payload goes out and the peer epochs stay.  Either
way peer_mdsmap_epoch[p] is at least the current epoch afterwards.  A forward
of a client request that may be forwarded is preceded by the forward directive
to the client, and the forwarded request has its forward count raised. -/
theorem piggyback_map (K : MsgConsts) (s : MDS) (out : OutMsg) (m : Message) (p : Int) :
    (send_message_mds s out p =
      if s.peer_mdsmap_epoch p < s.mdsmap.get_epoch then
        { s with
          peer_mdsmap_epoch := set_peer_epoch s.peer_mdsmap_epoch p s.mdsmap.get_epoch
          trace := s.trace ++
            [Event.send_message (OutMsg.MMDSMap s.fsid s.mdsmap) (Dest.inst (s.mdsmap.get_inst p)),
              Event.send_message out (Dest.inst (s.mdsmap.get_inst p))] }
      else
        { s with trace := s.trace ++ [Event.send_message out (Dest.inst (s.mdsmap.get_inst p))] }) ∧
    s.mdsmap.get_epoch ≤ (send_message_mds s out p).peer_mdsmap_epoch p ∧
    (¬ (m.type = K.CEPH_MSG_CLIENT_REQUEST ∧ m.get_orig_source.is_client = true) →
      forward_message_mds K s m p =
        if s.peer_mdsmap_epoch p < s.mdsmap.get_epoch then
          { s with
            peer_mdsmap_epoch := set_peer_epoch s.peer_mdsmap_epoch p s.mdsmap.get_epoch
            trace := s.trace ++
              [Event.send_message (OutMsg.MMDSMap s.fsid s.mdsmap)
                (Dest.inst (s.mdsmap.get_inst p)),
                Event.forward_message m (Dest.inst (s.mdsmap.get_inst p))] }
        else
          { s with trace := s.trace ++
              [Event.forward_message m (Dest.inst (s.mdsmap.get_inst p))] }) ∧
    (m.type = K.CEPH_MSG_CLIENT_REQUEST ∧ m.get_orig_source.is_client = true ∧
        m.can_forward = true →
      forward_message_mds K s m p =
        if s.peer_mdsmap_epoch p < s.mdsmap.get_epoch then
          { s with
            peer_mdsmap_epoch := set_peer_epoch s.peer_mdsmap_epoch p s.mdsmap.get_epoch
            trace := s.trace ++
              [Event.send_message (OutMsg.MClientRequestForward m.tid p (m.num_fwd + 1) false)
                (Dest.inst m.orig_source_inst),
                Event.send_message (OutMsg.MMDSMap s.fsid s.mdsmap)
                  (Dest.inst (s.mdsmap.get_inst p)),
                Event.forward_message { m with num_fwd := m.num_fwd + 1 }
                  (Dest.inst (s.mdsmap.get_inst p))] }
        else
          { s with trace := s.trace ++
              [Event.send_message (OutMsg.MClientRequestForward m.tid p (m.num_fwd + 1) false)
                (Dest.inst m.orig_source_inst),
                Event.forward_message { m with num_fwd := m.num_fwd + 1 }
                  (Dest.inst (s.mdsmap.get_inst p))] }) ∧
    (¬ (m.type = K.CEPH_MSG_CLIENT_REQUEST ∧ m.get_orig_source.is_client = true ∧
        m.can_forward = false) →
      s.mdsmap.get_epoch ≤ (forward_message_mds K s m p).peer_mdsmap_epoch p) := by
  have hsend : send_message_mds s out p =
      if s.peer_mdsmap_epoch p < s.mdsmap.get_epoch then
        { s with
          peer_mdsmap_epoch := set_peer_epoch s.peer_mdsmap_epoch p s.mdsmap.get_epoch
          trace := s.trace ++
            [Event.send_message (OutMsg.MMDSMap s.fsid s.mdsmap) (Dest.inst (s.mdsmap.get_inst p)),
              Event.send_message out (Dest.inst (s.mdsmap.get_inst p))] }
      else
        { s with trace := s.trace ++ [Event.send_message out (Dest.inst (s.mdsmap.get_inst p))] } := by
    simp only [send_message_mds, send_mdsmap_first_eq]
    split_ifs <;> simp [emit]
  have htrans : ∀ (s0 : MDS) (m0 : Message), forward_message_mds_transport s0 m0 p =
      if s0.peer_mdsmap_epoch p < s0.mdsmap.get_epoch then
        { s0 with
          peer_mdsmap_epoch := set_peer_epoch s0.peer_mdsmap_epoch p s0.mdsmap.get_epoch
          trace := s0.trace ++
            [Event.send_message (OutMsg.MMDSMap s0.fsid s0.mdsmap)
              (Dest.inst (s0.mdsmap.get_inst p)),
              Event.forward_message m0 (Dest.inst (s0.mdsmap.get_inst p))] }
      else
        { s0 with trace := s0.trace ++
            [Event.forward_message m0 (Dest.inst (s0.mdsmap.get_inst p))] } := by
    intro s0 m0
    simp only [forward_message_mds_transport, send_mdsmap_first_eq]
    split_ifs <;> simp [emit]
  have hge : ∀ (s0 : MDS) (m0 : Message),
      s0.mdsmap.get_epoch ≤ (forward_message_mds_transport s0 m0 p).peer_mdsmap_epoch p := by
    intro s0 m0
    rw [htrans]
    split_ifs with hlt
    · simp [set_peer_epoch]
    · exact Nat.le_of_not_lt hlt
  refine ⟨hsend, ?_, ?_, ?_, ?_⟩
  · rw [hsend]
    split_ifs with hlt
    · simp [set_peer_epoch]
    · exact Nat.le_of_not_lt hlt
  · intro hno
    simp only [forward_message_mds, hno, if_false]
    exact htrans s m
  · rintro ⟨h1, h2, h3⟩
    simp only [forward_message_mds, h1, h2, and_self, if_true, h3, Bool.not_true,
      Bool.false_eq_true, if_false]
    rw [htrans]
    simp only [emit_peer_mdsmap_epoch_fn, emit_mdsmap]
    split_ifs <;> simp [emit]
  · intro hno
    by_cases hq : m.type = K.CEPH_MSG_CLIENT_REQUEST ∧ m.get_orig_source.is_client = true
    · have h3 : m.can_forward = true := by
        by_contra hcf
        exact hno ⟨hq.1, hq.2, by simpa using hcf⟩
      simp only [forward_message_mds, hq, and_self, if_true, h3, Bool.not_true,
        Bool.false_eq_true, if_false]
      exact hge (emit _ s) _
    · simp only [forward_message_mds, hq, if_false]
      exact hge _ _

/-- A heartbeat is forwarded to rank 1 by a node at epoch 3 that never sent it
a map: the map goes first and the peer epoch becomes 3. -/
theorem piggyback_map_witness :
    forward_message_mds exampleConsts nodeAtEpoch3 peerHeartbeat 1 = { nodeAtEpoch3 with
      peer_mdsmap_epoch := set_peer_epoch nodeAtEpoch3.peer_mdsmap_epoch 1 3
      trace := nodeAtEpoch3.trace ++
        [Event.send_message (OutMsg.MMDSMap nodeAtEpoch3.fsid nodeAtEpoch3.mdsmap)
            (Dest.inst (nodeAtEpoch3.mdsmap.get_inst 1)),
          Event.forward_message peerHeartbeat (Dest.inst (nodeAtEpoch3.mdsmap.get_inst 1))] } ∧
    3 ≤ (forward_message_mds exampleConsts nodeAtEpoch3 peerHeartbeat 1).peer_mdsmap_epoch 1 :=
  have key := piggyback_map exampleConsts nodeAtEpoch3 (OutMsg.payload peerHeartbeat)
    peerHeartbeat 1
  ⟨(key.2.2.1 (by decide)).trans rfl, key.2.2.2.2 (by decide)⟩

/-! ## Who writes the live state -/

theorem dispatch_route_state (K : MsgConsts) (s s1 : MDS) (m : Message)
    (h : dispatch_route K s m = some (some s1)) : s1.state = s.state := by
  simp only [dispatch_route] at h
  split_ifs at h
  all_goals first
    | (simp only [Option.some.injEq] at h
       subst h
       simp)
    | (simp only [Option.map_eq_some', Option.some.injEq] at h
       obtain ⟨_, _, rfl⟩ := h
       simp)
    | (simp only [Option.some.injEq, reduceCtorEq] at h)

@[simp] theorem dispatch_post_state (now : Nat) (conf : Conf) (shutdown_pass : Bool) (s : MDS) :
    (dispatch_post now conf shutdown_pass s).state = s.state := by
  have h1 : ∀ s : MDS, (dispatch_finish_queue s).state = s.state := by
    intro s; simp only [dispatch_finish_queue]; split_ifs <;> simp
  have h2 : ∀ s : MDS, (dispatch_trim s).state = s.state := by
    intro s; simp only [dispatch_trim]; split_ifs <;> simp
  have h3 : ∀ s : MDS, (dispatch_thrash now conf s).state = s.state := by
    intro s; simp only [dispatch_thrash]; split_ifs <;> simp
  have h4 : ∀ s : MDS, (dispatch_shutdown now conf shutdown_pass s).state = s.state := by
    intro s; simp only [dispatch_shutdown]; split_ifs <;> simp
  simp only [dispatch_post, h1, h2, h3, h4]

/-- C10.  The member `state` is written by the cluster-map reactor only.  Each
of init, tick, beacon_send, handle_mds_beacon, beacon_kill, request_state,
boot_create, boot_start, starting_done, replay_done, resolve_done,
reconnect_done, rejoin_done, stopping_done, recovery_done, creating_done,
send_message_mds, forward_message_mds and suicide leaves it as it was whenever
it completes, and so does `_dispatch` of any message that is not a cluster map.
`request_state(st)` is the assignment want_state = st followed by beacon_send:
it sends one beacon, which carries st. -/
theorem state_written_by_reactor_only (K : MsgConsts) (now : Nat) (conf : Conf) (s : MDS) :
    (init now conf s).state = s.state ∧
    (∀ req, (tick conf req s).state = s.state) ∧
    (beacon_send now conf s).state = s.state ∧
    (∀ m s1, handle_mds_beacon now conf s m = some s1 → s1.state = s.state) ∧
    (∀ lab, (beacon_kill lab s).state = s.state) ∧
    (∀ st, (request_state now conf s st).state = s.state ∧
      request_state now conf s st = beacon_send now conf { s with want_state := st } ∧
      (request_state now conf s st).want_state = st ∧
      (request_state now conf s st).trace = s.trace ++ [Event.send_message
        (OutMsg.MMDSBeacon s.fsid s.mdsmap.get_epoch st (s.beacon_last_seq + 1) s.want_rank)
        (Dest.mon s.beacon_seq_stamp.length)]) ∧
    (boot_create s).state = s.state ∧
    (∀ step r s1, boot_start now conf s step r = some s1 → s1.state = s.state) ∧
    (∀ s1, starting_done now conf s = some s1 → s1.state = s.state) ∧
    (replay_done now conf s).state = s.state ∧
    (resolve_done now conf s).state = s.state ∧
    (reconnect_done now conf s).state = s.state ∧
    (rejoin_done now conf s).state = s.state ∧
    (stopping_done now conf s).state = s.state ∧
    (∀ s1, recovery_done s = some s1 → s1.state = s.state) ∧
    (creating_done now conf s).state = s.state ∧
    (∀ out p, (send_message_mds s out p).state = s.state) ∧
    (∀ m p, (forward_message_mds K s m p).state = s.state) ∧
    (suicide s).state = s.state ∧
    (∀ shutdown_pass m r, m.type ≠ K.CEPH_MSG_MDS_MAP →
      _dispatch K now conf shutdown_pass s m = some r → r.1.state = s.state) := by
  refine ⟨init_state _ _ _, fun _ => tick_state _ _ _, beacon_send_state _ _ _,
    fun m s1 h => handle_mds_beacon_state _ _ _ _ _ h, fun _ => beacon_kill_state _ _,
    fun st => ⟨request_state_state _ _ _ _, rfl, request_state_want_state _ _ _ _,
      request_state_trace _ _ _ _⟩,
    boot_create_state _, fun step r s1 h => boot_start_state _ _ _ _ _ _ h,
    fun s1 h => starting_done_state _ _ _ _ h, replay_done_state _ _ _,
    resolve_done_state _ _ _, reconnect_done_state _ _ _, rejoin_done_state _ _ _,
    stopping_done_state _ _ _, fun s1 h => recovery_done_state _ _ h,
    creating_done_state _ _ _, fun _ _ => send_message_mds_state _ _ _,
    fun _ _ => forward_message_mds_state _ _ _ _, suicide_state _, ?_⟩
  intro shutdown_pass m r hm h
  simp only [_dispatch] at h
  split_ifs at h with hbad hbeacon hcmd hlaggy
  · simp only [Option.some.injEq] at h
    subst h
    rfl
  · simp only [Option.map_map, Option.map_eq_some', Function.comp] at h
    obtain ⟨s1, h1, rfl⟩ := h
    have e := handle_mds_beacon_state _ _ _ _ _ h1
    split_ifs
    all_goals simp [e]
  · simp only [Option.map_some', emit_laggy, Option.some.injEq] at h
    subst h
    split_ifs
    all_goals simp
  · simp only [Option.map_some', set_waiting_for_nolaggy_laggy, Option.some.injEq] at h
    subst h
    split_ifs
    all_goals simp
  · simp only [Option.map_eq_some'] at h
    obtain ⟨o, h1, rfl⟩ := h
    cases o with
    | none => rfl
    | some s1 =>
      have e := dispatch_route_state _ _ _ _ h1
      show (if s1.laggy = true then (s1, true)
        else (dispatch_post now conf shutdown_pass s1, true)).1.state = s.state
      split_ifs <;> simp [e]

/-- The acknowledgement of beacon 2 leaves the state of the example node in
place, and so does a request for ACTIVE, which sends its beacon. -/
theorem state_written_by_reactor_only_witness :
    handle_mds_beacon 31 exampleConf nodeThreeBeacons (beaconAck 2) = some nodeAckedTwo ∧
    nodeAckedTwo.state = nodeThreeBeacons.state ∧
    (request_state 31 exampleConf nodeThreeBeacons MDSState.ACTIVE).state
      = nodeThreeBeacons.state ∧
    (request_state 31 exampleConf nodeThreeBeacons MDSState.ACTIVE).want_state
      = MDSState.ACTIVE :=
  have key := state_written_by_reactor_only exampleConsts 31 exampleConf nodeThreeBeacons
  ⟨rfl, key.2.2.2.1 (beaconAck 2) nodeAckedTwo rfl,
    (key.2.2.2.2.2.1 MDSState.ACTIVE).1, (key.2.2.2.2.2.1 MDSState.ACTIVE).2.2.1⟩

/-! ## The counted calls of each operation -/

@[simp] theorem marks_set_whoami (v : _) (s : MDS) : marks (set_whoami v s) = marks s := rfl
@[simp] theorem marks_set_want_rank (v : _) (s : MDS) : marks (set_want_rank v s) = marks s := rfl
@[simp] theorem marks_set_state (v : _) (s : MDS) : marks (set_state v s) = marks s := rfl
@[simp] theorem marks_set_want_state (v : _) (s : MDS) : marks (set_want_state v s) = marks s := rfl
@[simp] theorem marks_set_mdsmap (v : _) (s : MDS) : marks (set_mdsmap v s) = marks s := rfl
@[simp] theorem marks_set_last_mon (v : _) (s : MDS) : marks (set_last_mon v s) = marks s := rfl
@[simp] theorem marks_set_peer_mdsmap_epoch (v : _) (s : MDS) : marks (set_peer_mdsmap_epoch v s) = marks s := rfl
@[simp] theorem marks_set_last_client_mdsmap_bcast (v : _) (s : MDS) : marks (set_last_client_mdsmap_bcast v s) = marks s := rfl
@[simp] theorem marks_set_beacon_last_seq (v : _) (s : MDS) : marks (set_beacon_last_seq v s) = marks s := rfl
@[simp] theorem marks_set_beacon_seq_stamp (v : _) (s : MDS) : marks (set_beacon_seq_stamp v s) = marks s := rfl
@[simp] theorem marks_set_beacon_last_acked_stamp (v : _) (s : MDS) : marks (set_beacon_last_acked_stamp v s) = marks s := rfl
@[simp] theorem marks_set_laggy (v : _) (s : MDS) : marks (set_laggy v s) = marks s := rfl
@[simp] theorem marks_set_beacon_sender (v : _) (s : MDS) : marks (set_beacon_sender v s) = marks s := rfl
@[simp] theorem marks_set_beacon_killer (v : _) (s : MDS) : marks (set_beacon_killer v s) = marks s := rfl
@[simp] theorem marks_set_tick_event (v : _) (s : MDS) : marks (set_tick_event v s) = marks s := rfl
@[simp] theorem marks_set_timer (v : _) (s : MDS) : marks (set_timer v s) = marks s := rfl
@[simp] theorem marks_set_next_ctx (v : _) (s : MDS) : marks (set_next_ctx v s) = marks s := rfl
@[simp] theorem marks_set_req_rate (v : _) (s : MDS) : marks (set_req_rate v s) = marks s := rfl
@[simp] theorem marks_set_logger (v : _) (s : MDS) : marks (set_logger v s) = marks s := rfl
@[simp] theorem marks_set_client_incarnation (v : _) (s : MDS) : marks (set_client_incarnation v s) = marks s := rfl
@[simp] theorem marks_set_waiting_for_active (v : _) (s : MDS) : marks (set_waiting_for_active v s) = marks s := rfl
@[simp] theorem marks_set_waiting_for_nolaggy (v : _) (s : MDS) : marks (set_waiting_for_nolaggy v s) = marks s := rfl
@[simp] theorem marks_set_waiting_for_active_peer (v : _) (s : MDS) : marks (set_waiting_for_active_peer v s) = marks s := rfl
@[simp] theorem marks_set_finished_queue (v : _) (s : MDS) : marks (set_finished_queue v s) = marks s := rfl
@[simp] theorem marks_set_dispatch_start (v : _) (s : MDS) : marks (set_dispatch_start v s) = marks s := rfl
@[simp] theorem marks_timer_cancel_event (id : Nat) (s : MDS) :
    marks (timer_cancel_event id s) = marks s := rfl
@[simp] theorem marks_timer_add_event (id : Nat) (d : Due) (c : Context) (s : MDS) :
    marks (timer_add_event id d c s) = marks s := rfl
@[simp] theorem marks_timer_cancel_all (s : MDS) : marks (timer_cancel_all s) = marks s := rfl
@[simp] theorem marks_queue_waiters (ls : List Context) (s : MDS) :
    marks (queue_waiters ls s) = marks s := rfl

@[simp] theorem marks_emit (e : Event) (s : MDS) :
    marks (emit e s) = marks s ++ e.mark.toList := by
  simp only [marks, marks_of, emit_trace, List.filterMap_append]
  cases h : e.mark <;> simp [List.filterMap, h]

@[simp] theorem marks_suicide (s : MDS) : marks (suicide s) = marks s ++ [Mark.shutdown] := by
  simp [marks, marks_of, List.filterMap_append, Event.mark]

@[simp] theorem marks_reset_tick (conf : Conf) (s : MDS) : marks (reset_tick conf s) = marks s := by
  simp [marks]

@[simp] theorem marks_reset_beacon_killer (conf : Conf) (s : MDS) :
    marks (reset_beacon_killer conf s) = marks s := by
  simp [marks]

@[simp] theorem marks_beacon_send (now : Nat) (conf : Conf) (s : MDS) :
    marks (beacon_send now conf s) = marks s ++ [Mark.beacon s.want_state] := by
  simp [marks, marks_of, List.filterMap_append, Event.mark]

@[simp] theorem marks_request_state (now : Nat) (conf : Conf) (s : MDS) (st : MDSState) :
    marks (request_state now conf s st) = marks s ++ [Mark.beacon st] := by
  simp [request_state]

@[simp] theorem marks_note_peer_epoch (s : MDS) (m : Message) :
    marks (note_peer_epoch s m) = marks s := by
  simp only [note_peer_epoch]
  split_ifs <;> simp [Event.mark]

@[simp] theorem marks_reopen_logger (start : Nat) (s : MDS) :
    marks (reopen_logger start s) = marks s := by
  simp only [reopen_logger]
  split_ifs <;> simp [Event.mark]

@[simp] theorem marks_map_open_logger (oldwhoami : Int) (s : MDS) :
    marks (map_open_logger oldwhoami s) = marks s := by
  simp only [map_open_logger]
  split_ifs <;> simp [Event.mark]

@[simp] theorem marks_map_update_messenger (oldwhoami : Int) (s : MDS) :
    marks (map_update_messenger oldwhoami s) = marks s := by
  simp only [map_update_messenger]
  split_ifs <;> simp [Event.mark]

@[simp] theorem marks_boot_create_root (s : MDS) :
    marks (boot_create_root s) = marks s := by
  simp only [boot_create_root]
  split_ifs <;> simp [Event.mark]

@[simp] theorem marks_boot_create_commit_root (fin : Context) (s : MDS) :
    marks (boot_create_commit_root fin s) = marks s := by
  simp only [boot_create_commit_root]
  split_ifs <;> simp [Event.mark]

@[simp] theorem marks_boot_create_tables (fin : Context) (k : Nat) (s : MDS) :
    marks (boot_create_tables fin k s) = marks s := by
  simp only [boot_create_tables]
  split_ifs <;> simp [Event.mark]

@[simp] theorem marks_boot_create (s : MDS) :
    marks (boot_create s) = marks s := by
  simp [boot_create, Event.mark]

@[simp] theorem marks_boot_start_1 (s : MDS) :
    marks (boot_start_1 s) = marks s := by
  simp only [boot_start_1]
  split_ifs <;> simp [Event.mark]

@[simp] theorem marks_reconnect_start (s : MDS) :
    marks (reconnect_start s) = marks s := by
  simp [reconnect_start, Event.mark]

@[simp] theorem marks_stopping_start (s : MDS) :
    marks (stopping_start s) = marks s := by
  simp [stopping_start, Event.mark]

@[simp] theorem marks_rejoin_joint_start (s : MDS) :
    marks (rejoin_joint_start s) = marks s := by
  simp [rejoin_joint_start, Event.mark]

@[simp] theorem marks_resolve_start (s : MDS) :
    marks (resolve_start s) = marks s := by
  unfold resolve_start
  apply foldl_keeps marks
  intro s a
  split_ifs <;> simp [Event.mark]

@[simp] theorem marks_bcast_mds_map (s : MDS) :
    marks (bcast_mds_map s) = marks s := by
  simp only [bcast_mds_map, marks_set_last_client_mdsmap_bcast]
  apply foldl_keeps marks
  intro s a
  simp [Event.mark]

@[simp] theorem marks_map_delta_resolve (oldmap : MDSMap) (s : MDS) :
    marks (map_delta_resolve oldmap s) = marks s := by
  simp only [map_delta_resolve]
  split_ifs
  all_goals first
    | rfl
    | (apply foldl_keeps marks
       intro s a
       split_ifs <;> simp [Event.mark])

@[simp] theorem marks_map_delta_rejoin (conf : Conf) (oldmap : MDSMap) (s : MDS) :
    marks (map_delta_rejoin conf oldmap s) = marks s := by
  simp only [map_delta_rejoin]
  split_ifs <;> simp [Event.mark]

@[simp] theorem marks_map_delta_stopped (oldmap : MDSMap) (s : MDS) :
    marks (map_delta_stopped oldmap s) = marks s := by
  simp only [map_delta_stopped]
  split_ifs
  all_goals first
    | rfl
    | (apply foldl_keeps marks
       intro s a
       split_ifs <;> simp [Event.mark])

theorem marks_map_tell_objecter (s s1 : MDS) (h : map_tell_objecter s = some s1) :
    marks s1 = marks s := by
  simp only [map_tell_objecter] at h
  split_ifs at h <;> simp only [Option.some.injEq] at h <;> subst h <;> simp [Event.mark]

theorem marks_recovery_done (s s1 : MDS) (h : recovery_done s = some s1) :
    marks s1 = marks s ++ [Mark.finish_recovery Table.anchor, Mark.finish_recovery Table.snap,
      Mark.recovered_purges] := by
  simp only [recovery_done] at h
  split_ifs at h <;> simp only [Option.some.injEq] at h <;> subst h <;> simp [Event.mark]

@[simp] theorem marks_handle_mds_recovery (s : MDS) (who : Int) :
    marks (handle_mds_recovery s who) = marks s ++ [Mark.handle_mds_recovery who] := by
  simp only [handle_mds_recovery]
  split_ifs <;> simp [Event.mark]

theorem boot_start_zero (now : Nat) (conf : Conf) (s : MDS) :
    boot_start now conf s 0 0 = some (boot_start_1 s) := by
  simp [boot_start]

theorem replay_start_eq (now : Nat) (conf : Conf) (s : MDS) :
    replay_start now conf s = some (boot_start_1 (emit (.mdcache_set_recovery_set
      ((set_fill [] s.mdsmap.get_recovery_mds_set).filter (fun p => p != s.whoami))) s)) := by
  simp [replay_start, boot_start_zero]

@[simp] theorem rejoin_joint_start_whoami (s : MDS) :
    (rejoin_joint_start s).whoami = s.whoami := by
  simp [rejoin_joint_start]
@[simp] theorem rejoin_joint_start_waiting_for_active (s : MDS) :
    (rejoin_joint_start s).waiting_for_active = s.waiting_for_active := by
  simp [rejoin_joint_start]
@[simp] theorem handle_mds_recovery_whoami (s : MDS) (who : Int) :
    (handle_mds_recovery s who).whoami = s.whoami := by
  simp only [handle_mds_recovery]
  split_ifs <;> simp
@[simp] theorem handle_mds_recovery_waiting_for_active (s : MDS) (who : Int) :
    (handle_mds_recovery s who).waiting_for_active = s.waiting_for_active := by
  simp only [handle_mds_recovery]
  split_ifs <;> simp
@[simp] theorem map_delta_resolve_whoami (oldmap : MDSMap) (s : MDS) :
    (map_delta_resolve oldmap s).whoami = s.whoami := by
  simp only [map_delta_resolve]
  split_ifs
  all_goals first
    | rfl
    | (apply foldl_keeps MDS.whoami
       intro s a
       split_ifs <;> simp)
@[simp] theorem map_delta_resolve_waiting_for_active (oldmap : MDSMap) (s : MDS) :
    (map_delta_resolve oldmap s).waiting_for_active = s.waiting_for_active := by
  simp only [map_delta_resolve]
  split_ifs
  all_goals first
    | rfl
    | (apply foldl_keeps MDS.waiting_for_active
       intro s a
       split_ifs <;> simp)
@[simp] theorem map_delta_rejoin_whoami (conf : Conf) (oldmap : MDSMap) (s : MDS) :
    (map_delta_rejoin conf oldmap s).whoami = s.whoami := by
  simp only [map_delta_rejoin]
  split_ifs <;> simp
@[simp] theorem map_delta_rejoin_waiting_for_active (conf : Conf) (oldmap : MDSMap) (s : MDS) :
    (map_delta_rejoin conf oldmap s).waiting_for_active = s.waiting_for_active := by
  simp only [map_delta_rejoin]
  split_ifs <;> simp
@[simp] theorem map_delta_active_whoami (oldmap : MDSMap) (s : MDS) :
    (map_delta_active oldmap s).whoami = s.whoami := by
  simp only [map_delta_active]
  split_ifs
  all_goals first
    | rfl
    | (apply foldl_keeps MDS.whoami
       intro s a
       split_ifs <;> simp)
@[simp] theorem map_delta_active_waiting_for_active (oldmap : MDSMap) (s : MDS) :
    (map_delta_active oldmap s).waiting_for_active = s.waiting_for_active := by
  simp only [map_delta_active]
  split_ifs
  all_goals first
    | rfl
    | (apply foldl_keeps MDS.waiting_for_active
       intro s a
       split_ifs <;> simp)
@[simp] theorem map_delta_failed_whoami (oldmap : MDSMap) (s : MDS) :
    (map_delta_failed oldmap s).whoami = s.whoami := by
  simp only [map_delta_failed]
  rw [foldl_keeps MDS.whoami _ (by intro s a; split_ifs <;> simp),
    foldl_keeps MDS.whoami _ (by intro s a; split_ifs <;> simp)]
@[simp] theorem map_delta_failed_waiting_for_active (oldmap : MDSMap) (s : MDS) :
    (map_delta_failed oldmap s).waiting_for_active = s.waiting_for_active := by
  simp only [map_delta_failed]
  rw [foldl_keeps MDS.waiting_for_active _ (by intro s a; split_ifs <;> simp),
    foldl_keeps MDS.waiting_for_active _ (by intro s a; split_ifs <;> simp)]
@[simp] theorem map_delta_stopped_whoami (oldmap : MDSMap) (s : MDS) :
    (map_delta_stopped oldmap s).whoami = s.whoami := by
  simp only [map_delta_stopped]
  split_ifs
  all_goals first
    | rfl
    | (apply foldl_keeps MDS.whoami
       intro s a
       split_ifs <;> simp)
@[simp] theorem map_delta_stopped_waiting_for_active (oldmap : MDSMap) (s : MDS) :
    (map_delta_stopped oldmap s).waiting_for_active = s.waiting_for_active := by
  simp only [map_delta_stopped]
  split_ifs
  all_goals first
    | rfl
    | (apply foldl_keeps MDS.waiting_for_active
       intro s a
       split_ifs <;> simp)
@[simp] theorem handle_mds_map_peer_deltas_whoami (conf : Conf) (oldmap : MDSMap) (s : MDS) :
    (handle_mds_map_peer_deltas conf oldmap s).whoami = s.whoami := by
  simp [handle_mds_map_peer_deltas]
@[simp] theorem handle_mds_map_peer_deltas_waiting_for_active (conf : Conf) (oldmap : MDSMap) (s : MDS) :
    (handle_mds_map_peer_deltas conf oldmap s).waiting_for_active = s.waiting_for_active := by
  simp [handle_mds_map_peer_deltas]
@[simp] theorem note_peer_epoch_whoami (s : MDS) (m : Message) :
    (note_peer_epoch s m).whoami = s.whoami := by
  simp only [note_peer_epoch]
  split_ifs <;> simp
@[simp] theorem note_peer_epoch_want_state (s : MDS) (m : Message) :
    (note_peer_epoch s m).want_state = s.want_state := by
  simp only [note_peer_epoch]
  split_ifs <;> simp
@[simp] theorem note_peer_epoch_myaddr (s : MDS) (m : Message) :
    (note_peer_epoch s m).myaddr = s.myaddr := by
  simp only [note_peer_epoch]
  split_ifs <;> simp
@[simp] theorem note_peer_epoch_laggy (s : MDS) (m : Message) :
    (note_peer_epoch s m).laggy = s.laggy := by
  simp only [note_peer_epoch]
  split_ifs <;> simp
@[simp] theorem reopen_logger_whoami (start : Nat) (s : MDS) :
    (reopen_logger start s).whoami = s.whoami := by
  simp only [reopen_logger]
  split_ifs <;> simp
@[simp] theorem map_open_logger_whoami (oldwhoami : Int) (s : MDS) :
    (map_open_logger oldwhoami s).whoami = s.whoami := by
  simp only [map_open_logger]
  split_ifs <;> simp
@[simp] theorem map_update_messenger_whoami (oldwhoami : Int) (s : MDS) :
    (map_update_messenger oldwhoami s).whoami = s.whoami := by
  simp only [map_update_messenger]
  split_ifs <;> simp
@[simp] theorem boot_create_root_whoami (s : MDS) :
    (boot_create_root s).whoami = s.whoami := by
  simp only [boot_create_root]
  split_ifs <;> simp
@[simp] theorem boot_create_commit_root_whoami (fin : Context) (s : MDS) :
    (boot_create_commit_root fin s).whoami = s.whoami := by
  simp only [boot_create_commit_root]
  split_ifs <;> simp
@[simp] theorem boot_create_tables_whoami (fin : Context) (k : Nat) (s : MDS) :
    (boot_create_tables fin k s).whoami = s.whoami := by
  simp only [boot_create_tables]
  split_ifs <;> simp
@[simp] theorem boot_create_whoami (s : MDS) :
    (boot_create s).whoami = s.whoami := by
  simp [boot_create]
@[simp] theorem boot_start_1_whoami (s : MDS) :
    (boot_start_1 s).whoami = s.whoami := by
  simp only [boot_start_1]
  split_ifs <;> simp
@[simp] theorem reconnect_start_whoami (s : MDS) :
    (reconnect_start s).whoami = s.whoami := by
  simp [reconnect_start]
@[simp] theorem stopping_start_whoami (s : MDS) :
    (stopping_start s).whoami = s.whoami := by
  simp [stopping_start]
@[simp] theorem resolve_start_whoami (s : MDS) :
    (resolve_start s).whoami = s.whoami := by
  unfold resolve_start
  apply foldl_keeps MDS.whoami
  intro s a
  split_ifs <;> simp
@[simp] theorem bcast_mds_map_whoami (s : MDS) :
    (bcast_mds_map s).whoami = s.whoami := by
  simp only [bcast_mds_map, set_last_client_mdsmap_bcast_whoami]
  apply foldl_keeps MDS.whoami
  intro s a
  rfl
theorem map_tell_objecter_whoami (s s1 : MDS) (h : map_tell_objecter s = some s1) :
    s1.whoami = s.whoami := by
  simp only [map_tell_objecter] at h
  split_ifs at h <;> simp only [Option.some.injEq] at h <;> subst h <;> simp

theorem recovery_done_whoami (s s1 : MDS) (h : recovery_done s = some s1) :
    s1.whoami = s.whoami := by
  simp only [recovery_done] at h
  split_ifs at h <;> simp only [Option.some.injEq] at h <;> subst h <;> simp

/-- A fold that calls `g s p` for the elements that pass a test, where each
call adds the one mark `mk p` and does not change the test: the marks added are
those of the elements that pass, in order. -/
theorem foldl_marks_filter (c : MDS → Int → Prop) [∀ s p, Decidable (c s p)]
    (g : MDS → Int → MDS) (mk : Int → Mark)
    (hg : ∀ s p, marks (g s p) = marks s ++ [mk p])
    (hc : ∀ s p q, c (g s p) q ↔ c s q) (l : List Int) :
    ∀ s : MDS, marks (l.foldl (fun s p => if c s p then g s p else s) s)
      = marks s ++ (l.filter (fun p => decide (c s p))).map mk := by
  induction l with
  | nil => intro s; simp
  | cons p l ih =>
    intro s
    simp only [List.foldl_cons]
    rw [ih]
    by_cases hp : c s p
    · have e : (l.filter fun q => decide (c (g s p) q)) = l.filter fun q => decide (c s q) :=
        List.filter_congr (fun q _ => by simp [hc s p q])
      simp [hp, hg, e]
    · simp [hp]

theorem marks_map_delta_active (oldmap : MDSMap) (s : MDS) :
    marks (map_delta_active oldmap s) = marks s ++
      if s.is_active || s.is_stopping then
        ((set_fill [] (s.mdsmap.get_mds_set MDSState.ACTIVE)).filter (fun p =>
          decide (p ≠ s.whoami ∧ ¬ p ∈ set_fill [] (oldmap.get_mds_set MDSState.ACTIVE)))).map
          Mark.handle_mds_recovery
      else [] := by
  simp only [map_delta_active]
  split_ifs
  · exact foldl_marks_filter
      (fun s p => p ≠ s.whoami ∧ ¬ p ∈ set_fill [] (oldmap.get_mds_set MDSState.ACTIVE))
      handle_mds_recovery Mark.handle_mds_recovery marks_handle_mds_recovery
      (fun s p q => by simp) _ s
  · simp

theorem marks_map_delta_failed (oldmap : MDSMap) (s : MDS) :
    marks (map_delta_failed oldmap s) = marks s ++
      ((set_fill [] (s.mdsmap.get_mds_set MDSState.FAILED)).filter (fun p =>
        decide (¬ p ∈ set_fill [] (oldmap.get_mds_set MDSState.FAILED)))).map
        Mark.handle_mds_failure ++
      ((set_fill [] s.mdsmap.get_up_mds_set).filter (fun p =>
        decide (oldmap.have_inst p = true ∧ oldmap.get_inst p ≠ s.mdsmap.get_inst p))).map
        Mark.handle_mds_failure := by
  simp only [map_delta_failed]
  have h1 := foldl_marks_filter
    (fun _ p => ¬ p ∈ set_fill [] (oldmap.get_mds_set MDSState.FAILED))
    (fun s p => emit (.mdcache_handle_mds_failure p) s) Mark.handle_mds_failure
    (fun s p => by simp [Event.mark]) (fun s p q => Iff.rfl)
    (set_fill [] (s.mdsmap.get_mds_set MDSState.FAILED)) s
  have h2 := foldl_marks_filter
    (fun s p => oldmap.have_inst p = true ∧ oldmap.get_inst p ≠ s.mdsmap.get_inst p)
    (fun s p => emit (.mdcache_handle_mds_failure p) s) Mark.handle_mds_failure
    (fun s p => by simp [Event.mark]) (fun s p q => by simp)
  have hm : ∀ (l : List Int) (s0 : MDS),
      (l.foldl (fun s p =>
        if ¬ p ∈ set_fill [] (oldmap.get_mds_set MDSState.FAILED)
        then emit (.mdcache_handle_mds_failure p) s else s) s0).mdsmap = s0.mdsmap := by
    intro l s0
    apply foldl_keeps MDS.mdsmap
    intro s a
    split_ifs <;> simp
  rw [hm, h2, h1]
  simp only [hm]

theorem marks_handle_mds_map_peer_deltas (conf : Conf) (oldmap : MDSMap) (s : MDS) :
    marks (handle_mds_map_peer_deltas conf oldmap s) = marks s ++
      (if s.is_active || s.is_stopping then
        ((set_fill [] (s.mdsmap.get_mds_set MDSState.ACTIVE)).filter (fun p =>
          decide (p ≠ s.whoami ∧ ¬ p ∈ set_fill [] (oldmap.get_mds_set MDSState.ACTIVE)))).map
          Mark.handle_mds_recovery
      else []) ++
      ((set_fill [] (s.mdsmap.get_mds_set MDSState.FAILED)).filter (fun p =>
        decide (¬ p ∈ set_fill [] (oldmap.get_mds_set MDSState.FAILED)))).map
        Mark.handle_mds_failure ++
      ((set_fill [] s.mdsmap.get_up_mds_set).filter (fun p =>
        decide (oldmap.have_inst p = true ∧ oldmap.get_inst p ≠ s.mdsmap.get_inst p))).map
        Mark.handle_mds_failure := by
  simp only [handle_mds_map_peer_deltas, marks_map_delta_stopped, marks_map_delta_failed,
    marks_map_delta_active, marks_map_delta_rejoin, marks_map_delta_resolve,
    map_delta_active_mdsmap, map_delta_rejoin_mdsmap, map_delta_resolve_mdsmap,
    map_delta_rejoin_whoami, map_delta_resolve_whoami, MDS.is_active, MDS.is_stopping,
    map_delta_rejoin_state, map_delta_resolve_state]

@[simp] theorem rejoin_joint_start_want_state (s : MDS) :
    (rejoin_joint_start s).want_state = s.want_state := by
  simp [rejoin_joint_start]
@[simp] theorem handle_mds_recovery_want_state (s : MDS) (who : Int) :
    (handle_mds_recovery s who).want_state = s.want_state := by
  simp only [handle_mds_recovery]
  split_ifs <;> simp
@[simp] theorem map_delta_resolve_want_state (oldmap : MDSMap) (s : MDS) :
    (map_delta_resolve oldmap s).want_state = s.want_state := by
  simp only [map_delta_resolve]
  split_ifs
  all_goals first
    | rfl
    | (apply foldl_keeps MDS.want_state
       intro s a
       split_ifs <;> simp)
@[simp] theorem map_delta_rejoin_want_state (conf : Conf) (oldmap : MDSMap) (s : MDS) :
    (map_delta_rejoin conf oldmap s).want_state = s.want_state := by
  simp only [map_delta_rejoin]
  split_ifs <;> simp
@[simp] theorem map_delta_active_want_state (oldmap : MDSMap) (s : MDS) :
    (map_delta_active oldmap s).want_state = s.want_state := by
  simp only [map_delta_active]
  split_ifs
  all_goals first
    | rfl
    | (apply foldl_keeps MDS.want_state
       intro s a
       split_ifs <;> simp)
@[simp] theorem map_delta_failed_want_state (oldmap : MDSMap) (s : MDS) :
    (map_delta_failed oldmap s).want_state = s.want_state := by
  simp only [map_delta_failed]
  rw [foldl_keeps MDS.want_state _ (by intro s a; split_ifs <;> simp),
    foldl_keeps MDS.want_state _ (by intro s a; split_ifs <;> simp)]
@[simp] theorem map_delta_stopped_want_state (oldmap : MDSMap) (s : MDS) :
    (map_delta_stopped oldmap s).want_state = s.want_state := by
  simp only [map_delta_stopped]
  split_ifs
  all_goals first
    | rfl
    | (apply foldl_keeps MDS.want_state
       intro s a
       split_ifs <;> simp)
@[simp] theorem handle_mds_map_peer_deltas_want_state (conf : Conf) (oldmap : MDSMap) (s : MDS) :
    (handle_mds_map_peer_deltas conf oldmap s).want_state = s.want_state := by
  simp [handle_mds_map_peer_deltas]
@[simp] theorem reopen_logger_want_state (start : Nat) (s : MDS) :
    (reopen_logger start s).want_state = s.want_state := by
  simp only [reopen_logger]
  split_ifs <;> simp
@[simp] theorem map_open_logger_want_state (oldwhoami : Int) (s : MDS) :
    (map_open_logger oldwhoami s).want_state = s.want_state := by
  simp only [map_open_logger]
  split_ifs <;> simp
@[simp] theorem map_update_messenger_want_state (oldwhoami : Int) (s : MDS) :
    (map_update_messenger oldwhoami s).want_state = s.want_state := by
  simp only [map_update_messenger]
  split_ifs <;> simp
@[simp] theorem boot_create_root_want_state (s : MDS) :
    (boot_create_root s).want_state = s.want_state := by
  simp only [boot_create_root]
  split_ifs <;> simp
@[simp] theorem boot_create_commit_root_want_state (fin : Context) (s : MDS) :
    (boot_create_commit_root fin s).want_state = s.want_state := by
  simp only [boot_create_commit_root]
  split_ifs <;> simp
@[simp] theorem boot_create_tables_want_state (fin : Context) (k : Nat) (s : MDS) :
    (boot_create_tables fin k s).want_state = s.want_state := by
  simp only [boot_create_tables]
  split_ifs <;> simp
@[simp] theorem boot_create_want_state (s : MDS) :
    (boot_create s).want_state = s.want_state := by
  simp [boot_create]
@[simp] theorem boot_start_1_want_state (s : MDS) :
    (boot_start_1 s).want_state = s.want_state := by
  simp only [boot_start_1]
  split_ifs <;> simp
@[simp] theorem reconnect_start_want_state (s : MDS) :
    (reconnect_start s).want_state = s.want_state := by
  simp [reconnect_start]
@[simp] theorem stopping_start_want_state (s : MDS) :
    (stopping_start s).want_state = s.want_state := by
  simp [stopping_start]
@[simp] theorem resolve_start_want_state (s : MDS) :
    (resolve_start s).want_state = s.want_state := by
  unfold resolve_start
  apply foldl_keeps MDS.want_state
  intro s a
  split_ifs <;> simp
@[simp] theorem bcast_mds_map_want_state (s : MDS) :
    (bcast_mds_map s).want_state = s.want_state := by
  simp only [bcast_mds_map, set_last_client_mdsmap_bcast_want_state]
  apply foldl_keeps MDS.want_state
  intro s a
  rfl
theorem map_tell_objecter_want_state (s s1 : MDS) (h : map_tell_objecter s = some s1) :
    s1.want_state = s.want_state := by
  simp only [map_tell_objecter] at h
  split_ifs at h <;> simp only [Option.some.injEq] at h <;> subst h <;> simp

theorem recovery_done_want_state (s s1 : MDS) (h : recovery_done s = some s1) :
    s1.want_state = s.want_state := by
  simp only [recovery_done] at h
  split_ifs at h <;> simp only [Option.some.injEq] at h <;> subst h <;> simp

/-- What the state-change block of the reactor does, whenever it completes: the
counted calls it adds are those of the entry action, it leaves `state` and
`whoami` alone, it sets `want_state` to the new state if the state changed, it
empties `waiting_for_active` on entering ACTIVE, and it leaves the reactor at
once exactly on entering STOPPED. -/
theorem handle_mds_map_state_change_spec (now : Nat) (conf : Conf) (old : MDSState)
    (s : MDS) (f : Flow) (h : handle_mds_map_state_change now conf old s = some f) :
    marks f.node = marks s ++ entry_marks old s.state ∧
    f.node.state = s.state ∧ f.node.whoami = s.whoami ∧
    f.node.want_state = (if old = s.state then s.want_state else s.state) ∧
    (old ≠ s.state → s.state = MDSState.ACTIVE → f.node.waiting_for_active = []) ∧
    (f.is_returned = true ↔ (old ≠ s.state ∧ s.state = MDSState.STOPPED)) := by
  simp only [handle_mds_map_state_change, MDS.is_active, MDS.is_replay, MDS.is_resolve,
    MDS.is_reconnect, MDS.is_creating, MDS.is_starting, MDS.is_stopping, MDS.is_stopped,
    set_want_state_state] at h
  by_cases hc : old ≠ s.state
  · rw [if_pos hc] at h
    have hc2 : ¬ old = s.state := hc
    cases hs : s.state with
    | DNE =>
      rw [hs] at hc2
      simp only [hs, beq_self_eq_true, if_true, if_false, reduceCtorEq, beq_iff_eq] at h
      simp only [Option.some.injEq] at h
      subst h
      simp [Flow.node, Flow.is_returned, entry_marks, hs, hc2, Event.mark]
    | STANDBY =>
      rw [hs] at hc2
      simp only [hs, beq_self_eq_true, if_true, if_false, reduceCtorEq, beq_iff_eq] at h
      simp only [Option.some.injEq] at h
      subst h
      simp [Flow.node, Flow.is_returned, entry_marks, hs, hc2, Event.mark]
    | BOOT =>
      rw [hs] at hc2
      simp only [hs, beq_self_eq_true, if_true, if_false, reduceCtorEq, beq_iff_eq] at h
      simp only [Option.some.injEq] at h
      subst h
      simp [Flow.node, Flow.is_returned, entry_marks, hs, hc2, Event.mark]
    | CREATING =>
      rw [hs] at hc2
      simp only [hs, beq_self_eq_true, if_true, if_false, reduceCtorEq, beq_iff_eq] at h
      simp only [Option.some.injEq] at h
      subst h
      simp [Flow.node, Flow.is_returned, entry_marks, hs, hc2, Event.mark]
    | STARTING =>
      rw [hs] at hc2
      simp only [hs, beq_self_eq_true, if_true, if_false, reduceCtorEq, beq_iff_eq] at h
      rw [boot_start_zero] at h
      simp only [Option.map_some', Option.some.injEq] at h
      subst h
      simp [Flow.node, Flow.is_returned, entry_marks, hs, hc2, Event.mark]
    | REPLAY =>
      rw [hs] at hc2
      simp only [hs, beq_self_eq_true, if_true, if_false, reduceCtorEq, beq_iff_eq] at h
      rw [replay_start_eq] at h
      simp only [Option.map_some', Option.some.injEq] at h
      subst h
      simp [Flow.node, Flow.is_returned, entry_marks, hs, hc2, Event.mark]
    | RESOLVE =>
      rw [hs] at hc2
      simp only [hs, beq_self_eq_true, if_true, if_false, reduceCtorEq, beq_iff_eq] at h
      simp only [Option.some.injEq] at h
      subst h
      simp [Flow.node, Flow.is_returned, entry_marks, hs, hc2, Event.mark]
    | RECONNECT =>
      rw [hs] at hc2
      simp only [hs, beq_self_eq_true, if_true, if_false, reduceCtorEq, beq_iff_eq] at h
      simp only [Option.some.injEq] at h
      subst h
      simp [Flow.node, Flow.is_returned, entry_marks, hs, hc2, Event.mark]
    | REJOIN =>
      rw [hs] at hc2
      simp only [hs, beq_self_eq_true, if_true, if_false, reduceCtorEq, beq_iff_eq] at h
      simp only [Option.some.injEq] at h
      subst h
      simp [Flow.node, Flow.is_returned, entry_marks, hs, hc2, Event.mark]
    | ACTIVE =>
      rw [hs] at hc2
      simp only [hs, beq_self_eq_true, if_true, if_false, reduceCtorEq, beq_iff_eq] at h
      simp only [Option.map_eq_some'] at h
      obtain ⟨s2, h2, rfl⟩ := h
      by_cases hr : old = MDSState.REJOIN ∨ old = MDSState.RECONNECT
      · rw [if_pos hr] at h2
        have e1 := marks_recovery_done _ _ h2
        have e2 := recovery_done_state _ _ h2
        have e3 := recovery_done_whoami _ _ h2
        have e4 := recovery_done_want_state _ _ h2
        simp [Flow.node, Flow.is_returned, entry_marks, hs, hc2, Event.mark, e1, e2, e3, e4, hr]
      · rw [if_neg hr] at h2
        simp only [Option.some.injEq] at h2
        subst h2
        simp [Flow.node, Flow.is_returned, entry_marks, hs, hc2, Event.mark, hr]
    | STOPPING =>
      rw [hs] at hc2
      simp only [hs, beq_self_eq_true, if_true, if_false, reduceCtorEq, beq_iff_eq] at h
      split_ifs at h with ho
      simp only [Option.some.injEq] at h
      subst h
      simp [Flow.node, Flow.is_returned, entry_marks, hs, hc2, Event.mark]
    | STOPPED =>
      rw [hs] at hc2
      simp only [hs, beq_self_eq_true, if_true, if_false, reduceCtorEq, beq_iff_eq] at h
      split_ifs at h with ho
      simp only [Option.some.injEq] at h
      subst h
      simp [Flow.node, Flow.is_returned, entry_marks, hs, hc2, Event.mark]
    | FAILED =>
      rw [hs] at hc2
      simp only [hs, beq_self_eq_true, if_true, if_false, reduceCtorEq, beq_iff_eq] at h
      simp only [Option.some.injEq] at h
      subst h
      simp [Flow.node, Flow.is_returned, entry_marks, hs, hc2, Event.mark]
  · rw [if_neg hc] at h
    simp only [Option.some.injEq] at h
    subst h
    have hc2 : old = s.state := by simpa using hc
    simp [Flow.node, Flow.is_returned, entry_marks, hc2]

theorem marks_peer_deltas_eq (conf : Conf) (oldmap : MDSMap) (s : MDS) :
    marks (handle_mds_map_peer_deltas conf oldmap s)
      = marks s ++ delta_marks oldmap s.mdsmap s.whoami s.state := by
  rw [marks_handle_mds_map_peer_deltas]
  simp only [delta_marks, MDS.is_active, MDS.is_stopping, Bool.or_eq_true, beq_iff_eq,
    List.append_assoc]

theorem dump_cache_if_marks (c : Bool) (s : MDS) :
    marks (if c = true then emit .mdcache_dump_cache s else s) = marks s := by
  split_ifs <;> simp [Event.mark]
theorem dump_cache_if_whoami (c : Bool) (s : MDS) :
    (if c = true then emit .mdcache_dump_cache s else s).whoami = s.whoami := by
  split_ifs <;> simp
theorem dump_cache_if_mdsmap (c : Bool) (s : MDS) :
    (if c = true then emit .mdcache_dump_cache s else s).mdsmap = s.mdsmap := by
  split_ifs <;> simp
theorem dump_cache_if_want_state (c : Bool) (s : MDS) :
    (if c = true then emit .mdcache_dump_cache s else s).want_state = s.want_state := by
  split_ifs <;> simp

/-- What a reactor pass does once the new map gives the node a rank, whenever
it completes. -/
theorem handle_mds_map_ranked_spec (now : Nat) (conf : Conf) (oldmap : MDSMap)
    (oldwhoami : Int) (oldstate : MDSState) (s s1 : MDS) (m : Message)
    (h : handle_mds_map_ranked now conf oldmap oldwhoami oldstate s m = some s1) :
    s1.state = s.mdsmap.get_state s.whoami ∧ s1.whoami = s.whoami ∧ s1.mdsmap = s.mdsmap ∧
    s1.want_state = (if oldstate = s.mdsmap.get_state s.whoami then s.want_state
      else s.mdsmap.get_state s.whoami) ∧
    marks s1 = marks s ++ entry_marks oldstate (s.mdsmap.get_state s.whoami) ++
      (if oldstate ≠ s.mdsmap.get_state s.whoami ∧
          s.mdsmap.get_state s.whoami = MDSState.STOPPED then []
        else delta_marks oldmap s.mdsmap s.whoami (s.mdsmap.get_state s.whoami)) ∧
    (oldstate ≠ s.mdsmap.get_state s.whoami → s.mdsmap.get_state s.whoami = MDSState.ACTIVE →
      s1.waiting_for_active = []) := by
  simp only [handle_mds_map_ranked, Option.bind_eq_some, Option.map_eq_some'] at h
  obtain ⟨s2, h2, f, h3, rfl⟩ := h
  have a1 := marks_map_tell_objecter _ _ h2
  have a2 := map_tell_objecter_whoami _ _ h2
  have a3 := map_tell_objecter_mdsmap _ _ h2
  have a4 := map_tell_objecter_want_state _ _ h2
  simp only [marks_map_update_messenger, marks_map_open_logger, map_update_messenger_whoami,
    map_open_logger_whoami, map_update_messenger_mdsmap, map_open_logger_mdsmap,
    map_update_messenger_want_state, map_open_logger_want_state] at a1 a2 a3 a4
  obtain ⟨c1, c2, c3, c4, c5, c6⟩ := handle_mds_map_state_change_spec _ _ _ _ _ h3
  have c7 := handle_mds_map_state_change_mdsmap _ _ _ _ _ h3
  simp only [set_state_state, set_state_whoami, set_state_mdsmap, set_state_want_state,
    marks_set_state, dump_cache_if_marks, dump_cache_if_whoami, dump_cache_if_mdsmap,
    dump_cache_if_want_state, emit_whoami, emit_mdsmap, emit_want_state, marks_emit,
    a1, a2, a3, a4] at c1 c2 c3 c4 c5 c6 c7
  have c1b : marks f.node = marks s ++ entry_marks oldstate (s.mdsmap.get_state s.whoami) := by
    simpa [Event.mark] using c1
  cases f with
  | proceed s3 =>
    simp only [Flow.node] at c1b c2 c3 c4 c5 c7
    have hnr : ¬ (oldstate ≠ s.mdsmap.get_state s.whoami ∧
        s.mdsmap.get_state s.whoami = MDSState.STOPPED) := by
      intro hx
      have := c6.mpr hx
      simp [Flow.is_returned] at this
    refine ⟨?_, ?_, ?_, ?_, ?_, ?_⟩
    · simpa using c2
    · simpa using c3
    · simpa using c7
    · simpa using c4
    · simp only [marks_emit, marks_peer_deltas_eq, c1b, c2, c3, c7, if_neg hnr]
      simp [Event.mark]
    · intro h1 h2
      simpa using c5 h1 h2
  | returned s3 =>
    simp only [Flow.node] at c1b c2 c3 c4 c5 c7
    have hr : oldstate ≠ s.mdsmap.get_state s.whoami ∧
        s.mdsmap.get_state s.whoami = MDSState.STOPPED := c6.mp rfl
    refine ⟨c2, c3, c7, c4, ?_, ?_⟩
    · simp only [c1b, if_pos hr, List.append_nil]
    · intro h1 h2
      exact c5 h1 h2

/-- What a reactor pass does with a fresh map that gives the address of the
node a rank, whenever it completes. -/
theorem handle_mds_map_fresh_ranked (now : Nat) (conf : Conf) (s s1 : MDS) (m : Message)
    (hfresh : s.mdsmap.get_epoch < m.epoch)
    (hrank : 0 ≤ m.encoded.get_addr_rank s.myaddr)
    (h : handle_mds_map now conf s m = some s1) :
    s1.state = m.encoded.get_state (m.encoded.get_addr_rank s.myaddr) ∧
    s1.whoami = m.encoded.get_addr_rank s.myaddr ∧ s1.mdsmap = m.encoded ∧
    s1.want_state =
      (if s.state = m.encoded.get_state (m.encoded.get_addr_rank s.myaddr) then s.want_state
        else m.encoded.get_state (m.encoded.get_addr_rank s.myaddr)) ∧
    marks s1 = marks s ++
      entry_marks s.state (m.encoded.get_state (m.encoded.get_addr_rank s.myaddr)) ++
      (if s.state ≠ m.encoded.get_state (m.encoded.get_addr_rank s.myaddr) ∧
          m.encoded.get_state (m.encoded.get_addr_rank s.myaddr) = MDSState.STOPPED then []
        else delta_marks s.mdsmap m.encoded (m.encoded.get_addr_rank s.myaddr)
          (m.encoded.get_state (m.encoded.get_addr_rank s.myaddr))) ∧
    (s.state ≠ m.encoded.get_state (m.encoded.get_addr_rank s.myaddr) →
      m.encoded.get_state (m.encoded.get_addr_rank s.myaddr) = MDSState.ACTIVE →
      s1.waiting_for_active = []) := by
  simp only [handle_mds_map, note_peer_epoch_mdsmap, note_peer_epoch_state,
    note_peer_epoch_whoami] at h
  rw [if_neg (Nat.not_le.mpr hfresh)] at h
  simp only [set_whoami_whoami, set_whoami_mdsmap, set_mdsmap_mdsmap, set_whoami_myaddr,
    set_mdsmap_myaddr, note_peer_epoch_myaddr] at h
  rw [if_neg (Int.not_lt.mpr hrank)] at h
  have key := handle_mds_map_ranked_spec _ _ _ _ _ _ _ _ h
  simpa using key

/-- What a reactor pass does with a fresh map in which the address of the node
holds no rank: nothing but the standby assignment or the suicide, and the
release of the message. -/
theorem handle_mds_map_fresh_unranked (now : Nat) (conf : Conf) (s : MDS) (m : Message)
    (hfresh : s.mdsmap.get_epoch < m.epoch)
    (hrank : m.encoded.get_addr_rank s.myaddr < 0) :
    handle_mds_map now conf s m = some (emit (.delete_message m)
      (if m.encoded.is_standby s.myaddr = true then
        (if s.state ≠ MDSState.STANDBY then
          set_state MDSState.STANDBY (set_want_state MDSState.STANDBY
            (set_whoami (m.encoded.get_addr_rank s.myaddr)
              (set_mdsmap m.encoded (note_peer_epoch s m))))
        else set_whoami (m.encoded.get_addr_rank s.myaddr)
          (set_mdsmap m.encoded (note_peer_epoch s m)))
      else suicide (set_whoami (m.encoded.get_addr_rank s.myaddr)
        (set_mdsmap m.encoded (note_peer_epoch s m))))) := by
  simp only [handle_mds_map, note_peer_epoch_mdsmap, note_peer_epoch_state,
    note_peer_epoch_whoami]
  rw [if_neg (Nat.not_le.mpr hfresh)]
  simp only [set_whoami_whoami, set_whoami_mdsmap, set_mdsmap_mdsmap, set_whoami_myaddr,
    set_mdsmap_myaddr, note_peer_epoch_myaddr, set_whoami_state, set_mdsmap_state,
    note_peer_epoch_state]
  rw [if_pos hrank]
  split_ifs <;> rfl

/-! ## Sets of ranks -/

theorem mem_set_insert (x q : Int) (l : List Int) : q ∈ set_insert x l ↔ q = x ∨ q ∈ l := by
  induction l with
  | nil => simp [set_insert]
  | cons y l ih =>
    simp only [set_insert]
    split_ifs with h1 h2
    · simp
    · subst h2
      simp
    · simp only [List.mem_cons, ih]
      constructor
      · rintro (h | h | h)
        · exact Or.inr (Or.inl h)
        · exact Or.inl h
        · exact Or.inr (Or.inr h)
      · rintro (h | h | h)
        · exact Or.inr (Or.inl h)
        · exact Or.inl h
        · exact Or.inr (Or.inr h)

theorem set_insert_ascending (x : Int) (l : List Int) (hl : l.Pairwise (· < ·)) :
    (set_insert x l).Pairwise (· < ·) := by
  induction l with
  | nil => simp [set_insert]
  | cons y l ih =>
    have hp := List.pairwise_cons.mp hl
    simp only [set_insert]
    split_ifs with h1 h2
    · refine List.pairwise_cons.mpr ⟨?_, hl⟩
      intro z hz
      rcases List.mem_cons.mp hz with rfl | hz
      · exact h1
      · exact Int.lt_trans h1 (hp.1 z hz)
    · exact hl
    · refine List.pairwise_cons.mpr ⟨?_, ih hp.2⟩
      intro z hz
      rcases (mem_set_insert x z l).mp hz with rfl | hz
      · exact lt_of_le_of_ne (Int.not_lt.mp h1) (fun e => h2 e.symm)
      · exact hp.1 z hz

theorem set_fill_spec (ranks : List Int) :
    ∀ acc : List Int, acc.Pairwise (· < ·) →
      (set_fill acc ranks).Pairwise (· < ·) ∧
      ∀ q, q ∈ set_fill acc ranks ↔ q ∈ acc ∨ q ∈ ranks := by
  induction ranks with
  | nil =>
    intro acc hacc
    simp [set_fill, hacc]
  | cons x ranks ih =>
    intro acc hacc
    have h := ih (set_insert x acc) (set_insert_ascending x acc hacc)
    simp only [set_fill, List.foldl_cons] at h ⊢
    refine ⟨h.1, fun q => ?_⟩
    rw [h.2 q, mem_set_insert]
    simp only [List.mem_cons]
    constructor
    · rintro ((h | h) | h)
      · exact Or.inr (Or.inl h)
      · exact Or.inl h
      · exact Or.inr (Or.inr h)
    · rintro (h | h | h)
      · exact Or.inl (Or.inr h)
      · exact Or.inl (Or.inl h)
      · exact Or.inr h

theorem mem_set_fill_nil (ranks : List Int) (q : Int) : q ∈ set_fill [] ranks ↔ q ∈ ranks := by
  simpa using (set_fill_spec ranks [] List.Pairwise.nil).2 q

theorem set_fill_nodup (ranks : List Int) : (set_fill [] ranks).Nodup :=
  ((set_fill_spec ranks [] List.Pairwise.nil).1).imp (fun h => ne_of_lt h)

/-! ## Counting the counted calls -/

theorem handle_mds_map_discards_stale_eq (now : Nat) (conf : Conf) (s : MDS) (m : Message)
    (h : m.epoch ≤ s.mdsmap.get_epoch) :
    handle_mds_map now conf s m = some (emit (.delete_message m) (note_peer_epoch s m)) := by
  simp only [handle_mds_map, note_peer_epoch_mdsmap]
  rw [if_pos h]

theorem count_recovery_filter_map (l : List Int) (hl : l.Nodup) (c : Int → Bool) (p : Int) :
    ((l.filter c).map Mark.handle_mds_recovery).count (Mark.handle_mds_recovery p)
      = if p ∈ l ∧ c p = true then 1 else 0 := by
  have hinj : Function.Injective Mark.handle_mds_recovery := fun a b e => by
    injection e
  rw [List.count_map_of_injective _ _ hinj]
  by_cases hc : c p = true
  · rw [List.count_filter hc, List.count_eq_of_nodup hl]
    simp [hc]
  · rw [List.count_eq_zero_of_not_mem (fun hm => hc (List.mem_filter.mp hm).2)]
    simp [hc]

theorem count_recovery_failure_map (l : List Int) (p : Int) :
    (l.map Mark.handle_mds_failure).count (Mark.handle_mds_recovery p) = 0 := by
  apply List.count_eq_zero_of_not_mem
  simp

theorem count_recovery_entry_marks (old new : MDSState) (p : Int) :
    (entry_marks old new).count (Mark.handle_mds_recovery p) = 0 := by
  simp only [entry_marks]
  split_ifs <;> simp

theorem not_beacon_entry_marks (old new st : MDSState) : Mark.beacon st ∉ entry_marks old new := by
  simp only [entry_marks]
  split_ifs <;> simp

theorem not_beacon_delta_marks (oldmap newmap : MDSMap) (w : Int) (new st : MDSState) :
    Mark.beacon st ∉ delta_marks oldmap newmap w new := by
  simp only [delta_marks]
  split_ifs <;> simp

@[simp] theorem marks_init (now : Nat) (conf : Conf) (s : MDS) :
    marks (init now conf s) = marks s ++ [Mark.beacon MDSState.BOOT] := by
  simp [init, beacon_start, Event.mark]

@[simp] theorem init_want_state (now : Nat) (conf : Conf) (s : MDS) :
    (init now conf s).want_state = MDSState.BOOT := by
  simp [init, beacon_start]

/-! ## Desired state and beacons -/

/-- C11, as stated, fails for the reactor: the first map that lists the node
as standby changes want_state from DNE to STANDBY, and the pass sends no
beacon (its only call is the release of the message). -/
theorem handle_mds_map_sets_want_state_without_beacon :
    handle_mds_map 0 exampleConf exampleNode (mapMessage 1 (standbyMap 1))
      = some (standbyNode 1) ∧
    exampleNode.want_state = MDSState.DNE ∧
    (standbyNode 1).want_state = MDSState.STANDBY ∧
    (standbyNode 1).trace = [Event.delete_message (mapMessage 1 (standbyMap 1))] ∧
    marks (standbyNode 1) = [] :=
  ⟨rfl, rfl, rfl, rfl, rfl⟩

/-- C11, amended.  The operations that change want_state by a local decision
send a beacon that carries the new desired state: `init` sets BOOT and sends a
beacon with BOOT, `request_state(st)` sets st and sends a beacon with st.  The
reactor sends no beacon at all; when a pass that completes has changed
want_state, the new value is the state the pass has just given the node. -/
theorem want_state_and_beacons (now : Nat) (conf : Conf) (s : MDS) :
    ((init now conf s).want_state = MDSState.BOOT ∧
      marks (init now conf s) = marks s ++ [Mark.beacon MDSState.BOOT]) ∧
    (∀ st, (request_state now conf s st).want_state = st ∧
      marks (request_state now conf s st) = marks s ++ [Mark.beacon st]) ∧
    (∀ m s1, handle_mds_map now conf s m = some s1 →
      (s1.want_state = s.want_state ∨ s1.want_state = s1.state) ∧
      ∃ added, marks s1 = marks s ++ added ∧ ∀ st, Mark.beacon st ∉ added) := by
  refine ⟨⟨init_want_state _ _ _, marks_init _ _ _⟩,
    fun st => ⟨request_state_want_state _ _ _ _, marks_request_state _ _ _ _⟩, ?_⟩
  intro m s1 h
  by_cases hstale : m.epoch ≤ s.mdsmap.get_epoch
  · rw [handle_mds_map_discards_stale_eq now conf s m hstale] at h
    simp only [Option.some.injEq] at h
    subst h
    exact ⟨Or.inl (by simp), [], by simp [Event.mark], fun st => List.not_mem_nil _⟩
  · have hfresh : s.mdsmap.get_epoch < m.epoch := Nat.lt_of_not_le hstale
    by_cases hrank : m.encoded.get_addr_rank s.myaddr < 0
    · rw [handle_mds_map_fresh_unranked now conf s m hfresh hrank] at h
      simp only [Option.some.injEq] at h
      subst h
      split_ifs with h1 h2
      · exact ⟨Or.inr (by simp), [], by simp [Event.mark], fun st => List.not_mem_nil _⟩
      · exact ⟨Or.inl (by simp), [], by simp [Event.mark], fun st => List.not_mem_nil _⟩
      · exact ⟨Or.inl (by simp), [Mark.shutdown], by simp [Event.mark], fun st => by simp⟩
    · obtain ⟨e1, _, _, e4, e5, _⟩ :=
        handle_mds_map_fresh_ranked now conf s s1 m hfresh (Int.not_lt.mp hrank) h
      refine ⟨?_, _, by rw [e5, List.append_assoc], ?_⟩
      · rw [e4, e1]
        split_ifs
        · exact Or.inl rfl
        · exact Or.inr rfl
      · intro st hmem
        rcases List.mem_append.mp hmem with hm | hm
        · exact not_beacon_entry_marks _ _ _ hm
        · split_ifs at hm
          · exact List.not_mem_nil _ hm
          · exact not_beacon_delta_marks _ _ _ _ _ hm

/-- The example node asks for ACTIVE: want_state becomes ACTIVE and the one
call it adds is a beacon that carries ACTIVE. -/
theorem want_state_and_beacons_witness :
    handle_mds_map 0 exampleConf exampleNode (mapMessage 1 (standbyMap 1))
      = some (standbyNode 1) ∧
    ((standbyNode 1).want_state = exampleNode.want_state ∨
      (standbyNode 1).want_state = (standbyNode 1).state) ∧
    (request_state 0 exampleConf exampleNode MDSState.ACTIVE).want_state = MDSState.ACTIVE ∧
    marks (request_state 0 exampleConf exampleNode MDSState.ACTIVE)
      = marks exampleNode ++ [Mark.beacon MDSState.ACTIVE] :=
  have key := want_state_and_beacons 0 exampleConf exampleNode
  ⟨rfl, (key.2.2 (mapMessage 1 (standbyMap 1)) (standbyNode 1) rfl).1,
    (key.2.1 MDSState.ACTIVE).1, (key.2.1 MDSState.ACTIVE).2⟩

/-! ## When a ranked pass completes -/

@[simp] theorem note_peer_epoch_client_incarnation (s : MDS) (m : Message) :
    (note_peer_epoch s m).client_incarnation = s.client_incarnation := by
  simp only [note_peer_epoch]
  split_ifs <;> simp
@[simp] theorem reopen_logger_client_incarnation (start : Nat) (s : MDS) :
    (reopen_logger start s).client_incarnation = s.client_incarnation := by
  simp only [reopen_logger]
  split_ifs <;> simp
@[simp] theorem map_open_logger_client_incarnation (oldwhoami : Int) (s : MDS) :
    (map_open_logger oldwhoami s).client_incarnation = s.client_incarnation := by
  simp only [map_open_logger]
  split_ifs <;> simp
@[simp] theorem map_update_messenger_client_incarnation (oldwhoami : Int) (s : MDS) :
    (map_update_messenger oldwhoami s).client_incarnation = s.client_incarnation := by
  simp only [map_update_messenger]
  split_ifs <;> simp

theorem dump_cache_if_state (c : Bool) (s : MDS) :
    (if c = true then emit .mdcache_dump_cache s else s).state = s.state := by
  split_ifs <;> simp

/-- The incarnation block completes when its assertion holds. -/
theorem map_tell_objecter_isSome (s : MDS)
    (h : s.client_incarnation < 0 → s.mdsmap.have_inst s.whoami = true →
      0 < s.mdsmap.get_inc s.whoami) : (map_tell_objecter s).isSome = true := by
  simp only [map_tell_objecter]
  by_cases hc : s.client_incarnation < 0 ∧ s.mdsmap.have_inst s.whoami = true
  · rw [if_pos hc, if_pos (h hc.1 hc.2)]
    rfl
  · rw [if_neg hc]
    rfl

/-- The state-change block completes on entering ACTIVE, and on entering
STOPPING from ACTIVE; it does nothing when the state is unchanged. -/
theorem handle_mds_map_state_change_isSome (now : Nat) (conf : Conf) (old : MDSState)
    (s : MDS)
    (h : s.state = MDSState.ACTIVE ∨
      (s.state = MDSState.STOPPING ∧ (old = MDSState.ACTIVE ∨ old = MDSState.STOPPING))) :
    (handle_mds_map_state_change now conf old s).isSome = true := by
  simp only [handle_mds_map_state_change, MDS.is_active, MDS.is_replay, MDS.is_resolve,
    MDS.is_reconnect, MDS.is_creating, MDS.is_starting, MDS.is_stopping, MDS.is_stopped,
    set_want_state_state]
  by_cases hc : old ≠ s.state
  · rw [if_pos hc]
    rcases h with hs | ⟨hs, ho⟩
    · simp only [hs, beq_self_eq_true, if_true]
      by_cases hr : old = MDSState.REJOIN ∨ old = MDSState.RECONNECT
      · rw [if_pos hr]
        simp [recovery_done, MDS.is_active, hs]
      · rw [if_neg hr]
        rfl
    · have ho1 : old = MDSState.ACTIVE := by
        rcases ho with ho | ho
        · exact ho
        · exact absurd (ho.trans hs.symm) hc
      simp only [hs, ho1, beq_self_eq_true, if_true, if_false, reduceCtorEq, beq_iff_eq]
      rfl
  · rw [if_neg hc]
    rfl

theorem handle_mds_map_ranked_isSome (now : Nat) (conf : Conf) (oldmap : MDSMap)
    (oldwhoami : Int) (oldstate : MDSState) (s : MDS) (m : Message)
    (hinc : s.client_incarnation < 0 → s.mdsmap.have_inst s.whoami = true →
      0 < s.mdsmap.get_inc s.whoami)
    (hst : s.mdsmap.get_state s.whoami = MDSState.ACTIVE ∨
      (s.mdsmap.get_state s.whoami = MDSState.STOPPING ∧
        (oldstate = MDSState.ACTIVE ∨ oldstate = MDSState.STOPPING))) :
    (handle_mds_map_ranked now conf oldmap oldwhoami oldstate s m).isSome = true := by
  have h1 : (map_tell_objecter
      (map_update_messenger oldwhoami (map_open_logger oldwhoami s))).isSome = true := by
    apply map_tell_objecter_isSome
    simpa using hinc
  obtain ⟨s2, h2⟩ := Option.isSome_iff_exists.mp h1
  have a2 := map_tell_objecter_whoami _ _ h2
  have a3 := map_tell_objecter_mdsmap _ _ h2
  simp only [map_update_messenger_whoami, map_open_logger_whoami, map_update_messenger_mdsmap,
    map_open_logger_mdsmap] at a2 a3
  simp only [handle_mds_map_ranked, h2, Option.some_bind, Option.isSome_map']
  apply handle_mds_map_state_change_isSome
  simp only [set_state_state, dump_cache_if_mdsmap, dump_cache_if_whoami, emit_mdsmap,
    emit_whoami, a2, a3]
  exact hst

/-- A reactor pass over a fresh map that gives the node a rank completes when
the new state is ACTIVE, or STOPPING in a node that is ACTIVE or STOPPING,
provided the incarnation assertion holds. -/
theorem handle_mds_map_ranked_completes (now : Nat) (conf : Conf) (s : MDS) (m : Message)
    (hfresh : s.mdsmap.get_epoch < m.epoch)
    (hrank : 0 ≤ m.encoded.get_addr_rank s.myaddr)
    (hinc : s.client_incarnation < 0 →
      m.encoded.have_inst (m.encoded.get_addr_rank s.myaddr) = true →
      0 < m.encoded.get_inc (m.encoded.get_addr_rank s.myaddr))
    (hst : m.encoded.get_state (m.encoded.get_addr_rank s.myaddr) = MDSState.ACTIVE ∨
      (m.encoded.get_state (m.encoded.get_addr_rank s.myaddr) = MDSState.STOPPING ∧
        (s.state = MDSState.ACTIVE ∨ s.state = MDSState.STOPPING))) :
    (handle_mds_map now conf s m).isSome = true := by
  simp only [handle_mds_map, note_peer_epoch_mdsmap, note_peer_epoch_state,
    note_peer_epoch_whoami]
  rw [if_neg (Nat.not_le.mpr hfresh)]
  simp only [set_whoami_whoami, set_whoami_mdsmap, set_mdsmap_mdsmap, set_whoami_myaddr,
    set_mdsmap_myaddr, note_peer_epoch_myaddr]
  rw [if_neg (Int.not_lt.mpr hrank)]
  apply handle_mds_map_ranked_isSome
  · simpa using hinc
  · simpa using hst

/-! ## Peers that become active -/

theorem mem_delta_filter (l old : List Int) (w p : Int) :
    (p ∈ set_fill [] l ∧
      decide (p ≠ w ∧ ¬ p ∈ set_fill [] old) = true) ↔ (p ≠ w ∧ p ∈ l ∧ p ∉ old) := by
  simp only [mem_set_fill_nil, decide_eq_true_eq]
  tauto

theorem count_recovery_delta_marks (oldmap newmap : MDSMap) (w : Int) (new : MDSState)
    (hnew : new = MDSState.ACTIVE ∨ new = MDSState.STOPPING) (p : Int) :
    (delta_marks oldmap newmap w new).count (Mark.handle_mds_recovery p) =
      if p ≠ w ∧ p ∈ newmap.get_mds_set MDSState.ACTIVE ∧
        p ∉ oldmap.get_mds_set MDSState.ACTIVE then 1 else 0 := by
  simp only [delta_marks]
  rw [if_pos hnew, List.count_append, List.count_append, count_recovery_failure_map,
    count_recovery_failure_map, count_recovery_filter_map _ (set_fill_nodup _)]
  simp only [mem_delta_filter, Nat.add_zero]

/-- C12.  Take a reactor pass over a fresh map that gives this node a rank
and a new state of ACTIVE or STOPPING.  The pass completes when its assertions
hold (a positive incarnation where one is reported, and STOPPING entered from
ACTIVE only).  When it completes, the node is in that new state and the calls
the pass adds contain handle_mds_recovery(p) exactly once for every rank p
other than the node itself that is ACTIVE in the new map and was not ACTIVE in
the previous map, and not at all for any other rank. -/
theorem handle_mds_recovery_once_per_new_active (now : Nat) (conf : Conf) (s : MDS)
    (m : Message) (p : Int)
    (hfresh : s.mdsmap.get_epoch < m.epoch)
    (hrank : 0 ≤ m.encoded.get_addr_rank s.myaddr)
    (hst : m.encoded.get_state (m.encoded.get_addr_rank s.myaddr) = MDSState.ACTIVE ∨
      m.encoded.get_state (m.encoded.get_addr_rank s.myaddr) = MDSState.STOPPING) :
    (((s.client_incarnation < 0 →
        m.encoded.have_inst (m.encoded.get_addr_rank s.myaddr) = true →
        0 < m.encoded.get_inc (m.encoded.get_addr_rank s.myaddr)) ∧
      (m.encoded.get_state (m.encoded.get_addr_rank s.myaddr) = MDSState.STOPPING →
        s.state = MDSState.ACTIVE ∨ s.state = MDSState.STOPPING)) →
      (handle_mds_map now conf s m).isSome = true) ∧
    ∀ s1, handle_mds_map now conf s m = some s1 →
      (s1.state = MDSState.ACTIVE ∨ s1.state = MDSState.STOPPING) ∧
      ∃ added, marks s1 = marks s ++ added ∧
        added.count (Mark.handle_mds_recovery p) =
          if p ≠ s1.whoami ∧ p ∈ m.encoded.get_mds_set MDSState.ACTIVE ∧
            p ∉ s.mdsmap.get_mds_set MDSState.ACTIVE then 1 else 0 := by
  constructor
  · rintro ⟨hinc, hstop⟩
    apply handle_mds_map_ranked_completes now conf s m hfresh hrank hinc
    rcases hst with h1 | h1
    · exact Or.inl h1
    · exact Or.inr ⟨h1, hstop h1⟩
  · intro s1 h
    obtain ⟨e1, e2, _, _, e5, _⟩ := handle_mds_map_fresh_ranked now conf s s1 m hfresh hrank h
    rw [← e1] at hst
    rw [← e1, ← e2] at e5
    have hns : ¬ (s.state ≠ s1.state ∧ s1.state = MDSState.STOPPED) := by
      rintro ⟨_, hx⟩
      rcases hst with h1 | h1 <;> rw [h1] at hx <;> cases hx
    rw [if_neg hns, List.append_assoc] at e5
    refine ⟨hst, _, e5, ?_⟩
    rw [List.count_append, count_recovery_entry_marks, Nat.zero_add,
      count_recovery_delta_marks _ _ _ _ hst]

/-- Rank 0, ACTIVE alone, is shown a map in which rank 1 is ACTIVE too: the
pass completes, calls handle_mds_recovery(1) once and handle_mds_recovery(0)
never. -/
theorem handle_mds_recovery_once_per_new_active_witness :
    (handle_mds_map 0 exampleConf (rankedNode MDSState.ACTIVE [0]) peerActiveMessage).isSome
      = true ∧
    (∃ added, marks activeWithPeer = marks (rankedNode MDSState.ACTIVE [0]) ++ added ∧
      added.count (Mark.handle_mds_recovery 1) = 1) ∧
    (∃ added, marks activeWithPeer = marks (rankedNode MDSState.ACTIVE [0]) ++ added ∧
      added.count (Mark.handle_mds_recovery 0) = 0) ∧
    marks activeWithPeer = [Mark.handle_mds_recovery 1] :=
  ⟨(handle_mds_recovery_once_per_new_active 0 exampleConf (rankedNode MDSState.ACTIVE [0])
      peerActiveMessage 1 (by decide) (by decide) (Or.inl rfl)).1
      ⟨fun _ hi => absurd hi (by decide), fun hx => absurd hx (by decide)⟩,
    ((handle_mds_recovery_once_per_new_active 0 exampleConf (rankedNode MDSState.ACTIVE [0])
      peerActiveMessage 1 (by decide) (by decide) (Or.inl rfl)).2 activeWithPeer rfl).2,
    ((handle_mds_recovery_once_per_new_active 0 exampleConf (rankedNode MDSState.ACTIVE [0])
      peerActiveMessage 0 (by decide) (by decide) (Or.inl rfl)).2 activeWithPeer rfl).2,
    rfl⟩

/-! ## The calls of recovery_done in a reactor pass -/

theorem recovery_calls_emit (e : Event) (s : MDS) :
    recovery_calls (emit e s) = recovery_calls s ++ e.recovery_call.toList := by
  simp only [recovery_calls, emit_trace, List.filterMap_append]
  cases h : e.recovery_call <;> simp [List.filterMap, h]

theorem recovery_view_note_peer_epoch (s : MDS) (m : Message) :
    recovery_view (note_peer_epoch s m) = recovery_view s := by
  simp only [note_peer_epoch]
  split_ifs <;> rfl

theorem recovery_view_reopen_logger (start : Nat) (s : MDS) :
    recovery_view (reopen_logger start s) = recovery_view s := by
  simp only [reopen_logger]
  split_ifs <;> simp [recovery_view, recovery_calls, Event.recovery_call]

theorem recovery_view_map_open_logger (oldwhoami : Int) (s : MDS) :
    recovery_view (map_open_logger oldwhoami s) = recovery_view s := by
  simp only [map_open_logger]
  split_ifs
  · rw [recovery_view_reopen_logger]
    simp [recovery_view, recovery_calls, Event.recovery_call]
  · rfl

theorem recovery_view_map_update_messenger (oldwhoami : Int) (s : MDS) :
    recovery_view (map_update_messenger oldwhoami s) = recovery_view s := by
  simp only [map_update_messenger]
  split_ifs <;> simp [recovery_view, recovery_calls, Event.recovery_call]

theorem recovery_view_map_tell_objecter (s s1 : MDS) (h : map_tell_objecter s = some s1) :
    recovery_view s1 = recovery_view s := by
  simp only [map_tell_objecter] at h
  split_ifs at h <;> simp only [Option.some.injEq] at h <;> subst h <;>
    simp [recovery_view, recovery_calls, Event.recovery_call]

theorem recovery_view_rejoin_joint_start (s : MDS) :
    recovery_view (rejoin_joint_start s) = recovery_view s := by
  simp [rejoin_joint_start, recovery_view, recovery_calls, Event.recovery_call]

theorem recovery_view_handle_mds_recovery (s : MDS) (who : Int) :
    recovery_view (handle_mds_recovery s who) = recovery_view s := by
  simp only [handle_mds_recovery]
  split_ifs <;> simp [recovery_view, recovery_calls, Event.recovery_call]

theorem recovery_view_map_delta_resolve (oldmap : MDSMap) (s : MDS) :
    recovery_view (map_delta_resolve oldmap s) = recovery_view s := by
  simp only [map_delta_resolve]
  split_ifs
  all_goals first
    | rfl
    | (apply foldl_keeps recovery_view
       intro s a
       split_ifs <;> simp [recovery_view, recovery_calls, Event.recovery_call])

theorem recovery_view_emit_none (e : Event) (s : MDS) (h : e.recovery_call = none) :
    recovery_view (emit e s) = recovery_view s := by
  simp only [recovery_view, recovery_calls_emit, h, Option.toList, List.append_nil,
    emit_last_client_mdsmap_bcast, emit_client_sessions]

theorem recovery_view_map_delta_rejoin (conf : Conf) (oldmap : MDSMap) (s : MDS) :
    recovery_view (map_delta_rejoin conf oldmap s) = recovery_view s := by
  simp only [map_delta_rejoin]
  split_ifs
  all_goals simp only [recovery_view_emit_none Event.mdcache_dump_cache _ rfl,
    recovery_view_rejoin_joint_start]

theorem recovery_view_map_delta_active (oldmap : MDSMap) (s : MDS) :
    recovery_view (map_delta_active oldmap s) = recovery_view s := by
  simp only [map_delta_active]
  split_ifs
  all_goals first
    | rfl
    | (apply foldl_keeps recovery_view
       intro s a
       split_ifs
       · exact recovery_view_handle_mds_recovery s a
       · rfl)

theorem recovery_view_map_delta_failed (oldmap : MDSMap) (s : MDS) :
    recovery_view (map_delta_failed oldmap s) = recovery_view s := by
  simp only [map_delta_failed]
  rw [foldl_keeps recovery_view _
      (by intro s a; split_ifs <;> simp [recovery_view, recovery_calls, Event.recovery_call]),
    foldl_keeps recovery_view _
      (by intro s a; split_ifs <;> simp [recovery_view, recovery_calls, Event.recovery_call])]

theorem recovery_view_map_delta_stopped (oldmap : MDSMap) (s : MDS) :
    recovery_view (map_delta_stopped oldmap s) = recovery_view s := by
  simp only [map_delta_stopped]
  split_ifs
  all_goals first
    | rfl
    | (apply foldl_keeps recovery_view
       intro s a
       split_ifs <;> simp [recovery_view, recovery_calls, Event.recovery_call])

theorem recovery_view_peer_deltas (conf : Conf) (oldmap : MDSMap) (s : MDS) :
    recovery_view (handle_mds_map_peer_deltas conf oldmap s) = recovery_view s := by
  simp only [handle_mds_map_peer_deltas, recovery_view_map_delta_stopped,
    recovery_view_map_delta_failed, recovery_view_map_delta_active,
    recovery_view_map_delta_rejoin, recovery_view_map_delta_resolve]

theorem recovery_calls_bcast_fold (l : List Inst) :
    ∀ s : MDS, recovery_view (l.foldl
        (fun s i => emit (.send_message (.MMDSMap s.fsid s.mdsmap) (.inst i)) s) s)
      = (recovery_calls s ++ l.map (fun i => RecoveryCall.map_sent i s.mdsmap.get_epoch),
        s.last_client_mdsmap_bcast, s.client_sessions) := by
  induction l with
  | nil =>
    intro s
    simp [recovery_view]
  | cons i l ih =>
    intro s
    rw [List.foldl_cons, ih]
    simp [recovery_calls_emit, Event.recovery_call]

theorem recovery_view_bcast_mds_map (s : MDS) :
    recovery_view (bcast_mds_map s)
      = (recovery_calls s ++
          s.client_sessions.map (fun i => RecoveryCall.map_sent i s.mdsmap.get_epoch),
        s.mdsmap.get_epoch, s.client_sessions) := by
  have h := recovery_calls_bcast_fold s.client_sessions s
  simp only [recovery_view, Prod.mk.injEq] at h
  obtain ⟨h1, h2, h3⟩ := h
  have hm : (s.client_sessions.foldl
      (fun s i => emit (.send_message (.MMDSMap s.fsid s.mdsmap) (.inst i)) s) s).mdsmap
        = s.mdsmap := by
    apply foldl_keeps MDS.mdsmap
    intro x a
    rfl
  simp only [recovery_view, bcast_mds_map, Prod.mk.injEq]
  exact ⟨h1, hm ▸ rfl, h3⟩

/-- What one run of `recovery_done` adds and leaves behind. -/
theorem recovery_view_recovery_done (s s1 : MDS) (h : recovery_done s = some s1) :
    recovery_view s1
      = (recovery_calls s ++ recovery_done_calls s.mdsmap s.whoami s.client_sessions,
        s.mdsmap.get_epoch, s.client_sessions) := by
  simp only [recovery_done] at h
  split_ifs at h with h1 h2
  · simp only [Option.some.injEq] at h
    subst h
    have hb := recovery_view_bcast_mds_map
      (emit .mdcache_do_file_recover (emit .mdcache_start_recovered_purges
        (emit (.tableclient_finish_recovery .snap) (emit (.tableclient_finish_recovery .anchor)
          (emit (.tableserver_finish_recovery .snap)
            (emit (.tableserver_finish_recovery .anchor) s))))))
    simp only [recovery_view, Prod.mk.injEq] at hb ⊢
    obtain ⟨b1, b2, b3⟩ := hb
    refine ⟨?_, ?_, ?_⟩
    · simp only [recovery_calls] at b1 ⊢
      simp only [set_waiting_for_active_trace, queue_waiters_trace]
      rw [b1]
      simp [recovery_done_calls, h2, Event.recovery_call]
    · simpa using b2
    · simpa using b3
  · simp only [Option.some.injEq] at h
    subst h
    have hb := recovery_view_bcast_mds_map
      (emit .mdcache_do_file_recover (emit .mdcache_start_recovered_purges
        (emit (.tableclient_finish_recovery .snap)
          (emit (.tableclient_finish_recovery .anchor) s))))
    simp only [recovery_view, Prod.mk.injEq] at hb ⊢
    obtain ⟨b1, b2, b3⟩ := hb
    refine ⟨?_, ?_, ?_⟩
    · simp only [recovery_calls] at b1 ⊢
      simp only [set_waiting_for_active_trace, queue_waiters_trace]
      rw [b1]
      simp [recovery_done_calls, h2, Event.recovery_call]
    · simpa using b2
    · simpa using b3

theorem recovery_view_set_state (v : MDSState) (s : MDS) :
    recovery_view (set_state v s) = recovery_view s := rfl
theorem recovery_view_set_want_state (v : MDSState) (s : MDS) :
    recovery_view (set_want_state v s) = recovery_view s := rfl
theorem recovery_view_set_whoami (v : Int) (s : MDS) :
    recovery_view (set_whoami v s) = recovery_view s := rfl
theorem recovery_view_set_mdsmap (v : MDSMap) (s : MDS) :
    recovery_view (set_mdsmap v s) = recovery_view s := rfl
theorem recovery_view_set_waiting_for_active (v : List Context) (s : MDS) :
    recovery_view (set_waiting_for_active v s) = recovery_view s := rfl
theorem recovery_view_dump_cache_if (c : Bool) (s : MDS) :
    recovery_view (if c = true then emit .mdcache_dump_cache s else s) = recovery_view s := by
  split_ifs
  · exact recovery_view_emit_none _ _ rfl
  · rfl

/-- The entry action of ACTIVE runs `recovery_done` exactly when the prior
state was REJOIN or RECONNECT, and the reactor goes on to the peer deltas. -/
theorem recovery_view_state_change_active (now : Nat) (conf : Conf) (old : MDSState)
    (s : MDS) (f : Flow) (h : handle_mds_map_state_change now conf old s = some f)
    (hs : s.state = MDSState.ACTIVE) (ho : old ≠ MDSState.ACTIVE) :
    (∃ s3, f = Flow.proceed s3) ∧
    recovery_view f.node =
      (if old = MDSState.REJOIN ∨ old = MDSState.RECONNECT then
        ((recovery_view s).1 ++ recovery_done_calls s.mdsmap s.whoami (recovery_view s).2.2,
          s.mdsmap.get_epoch, (recovery_view s).2.2)
      else recovery_view s) := by
  have hc : old ≠ s.state := by
    rw [hs]
    exact ho
  simp only [handle_mds_map_state_change, MDS.is_active, set_want_state_state] at h
  rw [if_pos hc] at h
  simp only [hs, beq_self_eq_true, if_true, Option.map_eq_some'] at h
  obtain ⟨s2, h2, rfl⟩ := h
  have e0 : recovery_view (set_waiting_for_active []
      (emit (.finish_contexts s2.waiting_for_active) s2)) = recovery_view s2 := by
    rw [recovery_view_set_waiting_for_active]
    exact recovery_view_emit_none _ _ rfl
  refine ⟨⟨_, rfl⟩, ?_⟩
  simp only [Flow.node]
  rw [e0]
  by_cases hr : old = MDSState.REJOIN ∨ old = MDSState.RECONNECT
  · rw [if_pos hr] at h2
    rw [if_pos hr, recovery_view_recovery_done _ _ h2]
    rfl
  · rw [if_neg hr] at h2
    simp only [Option.some.injEq] at h2
    subst h2
    rw [if_neg hr]
    rfl

theorem recovery_view_ranked_active (now : Nat) (conf : Conf) (oldmap : MDSMap)
    (oldwhoami : Int) (oldstate : MDSState) (s s1 : MDS) (m : Message)
    (h : handle_mds_map_ranked now conf oldmap oldwhoami oldstate s m = some s1)
    (hact : s.mdsmap.get_state s.whoami = MDSState.ACTIVE)
    (ho : oldstate ≠ MDSState.ACTIVE) :
    recovery_view s1 =
      (if oldstate = MDSState.REJOIN ∨ oldstate = MDSState.RECONNECT then
        ((recovery_view s).1 ++ recovery_done_calls s.mdsmap s.whoami (recovery_view s).2.2,
          s.mdsmap.get_epoch, (recovery_view s).2.2)
      else recovery_view s) := by
  simp only [handle_mds_map_ranked, Option.bind_eq_some, Option.map_eq_some'] at h
  obtain ⟨s2, h2, f, h3, rfl⟩ := h
  have a1 := recovery_view_map_tell_objecter _ _ h2
  have a2 := map_tell_objecter_whoami _ _ h2
  have a3 := map_tell_objecter_mdsmap _ _ h2
  simp only [recovery_view_map_update_messenger, recovery_view_map_open_logger,
    map_update_messenger_whoami, map_open_logger_whoami, map_update_messenger_mdsmap,
    map_open_logger_mdsmap] at a1 a2 a3
  have hinc : ∀ (x : Nat) (y : MDS),
      recovery_view (emit (.objecter_set_inc_lock x) y) = recovery_view y :=
    fun x y => recovery_view_emit_none _ _ rfl
  obtain ⟨⟨s3, rfl⟩, c⟩ := recovery_view_state_change_active now conf oldstate _ f h3
    (by simp only [set_state_state, dump_cache_if_mdsmap, dump_cache_if_whoami, emit_mdsmap,
          emit_whoami, a2, a3]
        exact hact) ho
  simp only [recovery_view_set_state, recovery_view_dump_cache_if, hinc, a1, set_state_mdsmap,
    set_state_whoami, dump_cache_if_mdsmap, dump_cache_if_whoami, emit_mdsmap, emit_whoami,
    a2, a3, Flow.node] at c
  rw [recovery_view_emit_none (.delete_message m) _ rfl, recovery_view_peer_deltas]
  exact c

/-- What a reactor pass that makes the node ACTIVE does of `recovery_done`. -/
theorem recovery_view_fresh_active (now : Nat) (conf : Conf) (s s1 : MDS) (m : Message)
    (hfresh : s.mdsmap.get_epoch < m.epoch)
    (hrank : 0 ≤ m.encoded.get_addr_rank s.myaddr)
    (hact : m.encoded.get_state (m.encoded.get_addr_rank s.myaddr) = MDSState.ACTIVE)
    (hchg : s.state ≠ MDSState.ACTIVE)
    (h : handle_mds_map now conf s m = some s1) :
    recovery_view s1 =
      (if s.state = MDSState.REJOIN ∨ s.state = MDSState.RECONNECT then
        (recovery_calls s ++
            recovery_done_calls m.encoded (m.encoded.get_addr_rank s.myaddr) s.client_sessions,
          m.encoded.get_epoch, s.client_sessions)
      else recovery_view s) := by
  simp only [handle_mds_map, note_peer_epoch_mdsmap, note_peer_epoch_state,
    note_peer_epoch_whoami] at h
  rw [if_neg (Nat.not_le.mpr hfresh)] at h
  simp only [set_whoami_whoami, set_whoami_mdsmap, set_mdsmap_mdsmap, set_whoami_myaddr,
    set_mdsmap_myaddr, note_peer_epoch_myaddr] at h
  rw [if_neg (Int.not_lt.mpr hrank)] at h
  have key := recovery_view_ranked_active _ _ _ _ _ _ _ _ h
    (by simp only [set_whoami_whoami, set_whoami_mdsmap, set_mdsmap_mdsmap, set_whoami_myaddr,
          set_mdsmap_myaddr, note_peer_epoch_myaddr]
        exact hact) hchg
  simp only [recovery_view_set_whoami, recovery_view_set_mdsmap, recovery_view_note_peer_epoch,
    set_whoami_whoami, set_whoami_mdsmap, set_mdsmap_mdsmap, set_whoami_myaddr,
    set_mdsmap_myaddr, note_peer_epoch_myaddr] at key
  exact key

/-! ## Entering ACTIVE -/

theorem count_finish_recovery_delta_marks (oldmap newmap : MDSMap) (w : Int) (new : MDSState)
    (t : Table) : (delta_marks oldmap newmap w new).count (Mark.finish_recovery t) = 0 := by
  apply List.count_eq_zero_of_not_mem
  simp only [delta_marks]
  split_ifs <;> simp

theorem count_recovered_purges_delta_marks (oldmap newmap : MDSMap) (w : Int)
    (new : MDSState) : (delta_marks oldmap newmap w new).count Mark.recovered_purges = 0 := by
  apply List.count_eq_zero_of_not_mem
  simp only [delta_marks]
  split_ifs <;> simp

theorem count_entry_marks_active (old : MDSState) (hold : old ≠ MDSState.ACTIVE) :
    (∀ t, (entry_marks old MDSState.ACTIVE).count (Mark.finish_recovery t) =
      if old = MDSState.REJOIN ∨ old = MDSState.RECONNECT then 1 else 0) ∧
    (entry_marks old MDSState.ACTIVE).count Mark.recovered_purges =
      if old = MDSState.REJOIN ∨ old = MDSState.RECONNECT then 1 else 0 := by
  simp only [entry_marks, if_neg hold, true_and, reduceCtorEq, if_false]
  by_cases hc : old = MDSState.REJOIN ∨ old = MDSState.RECONNECT
  · simp only [if_pos hc]
    refine ⟨fun t => ?_, by decide⟩
    cases t <;> decide
  · simp only [if_neg hc]
    exact ⟨fun t => rfl, rfl⟩

/-- C17.  Take a reactor pass over a fresh map that gives this node a rank
and changes its state to ACTIVE.  The pass completes when the incarnation
assertion holds.  When it completes, recovery_done has run if and only if the
prior state was REJOIN or RECONNECT: in that case the pass makes exactly the
calls of one recovery_done (finish_recovery on the anchor and snap table
servers when this rank is the table server, finish_recovery on the anchor and
snap table clients, the start of the deferred purges, the file recovery, and
the new map sent to every client session) and the epoch of the last map
broadcast to the clients is the new epoch; otherwise it makes none of these
calls and leaves that epoch alone.  In either case waiting_for_active is empty
when the pass ends. -/
theorem active_entry_runs_recovery_done (now : Nat) (conf : Conf) (s : MDS) (m : Message)
    (hfresh : s.mdsmap.get_epoch < m.epoch)
    (hrank : 0 ≤ m.encoded.get_addr_rank s.myaddr)
    (hact : m.encoded.get_state (m.encoded.get_addr_rank s.myaddr) = MDSState.ACTIVE)
    (hchg : s.state ≠ MDSState.ACTIVE) :
    ((s.client_incarnation < 0 →
        m.encoded.have_inst (m.encoded.get_addr_rank s.myaddr) = true →
        0 < m.encoded.get_inc (m.encoded.get_addr_rank s.myaddr)) →
      (handle_mds_map now conf s m).isSome = true) ∧
    ∀ s1, handle_mds_map now conf s m = some s1 →
      s1.state = MDSState.ACTIVE ∧
      (∃ added, marks s1 = marks s ++ added ∧
        (∀ t, added.count (Mark.finish_recovery t) =
          if s.state = MDSState.REJOIN ∨ s.state = MDSState.RECONNECT then 1 else 0) ∧
        added.count Mark.recovered_purges =
          if s.state = MDSState.REJOIN ∨ s.state = MDSState.RECONNECT then 1 else 0) ∧
      s1.waiting_for_active = [] ∧
      recovery_calls s1 = recovery_calls s ++
        (if s.state = MDSState.REJOIN ∨ s.state = MDSState.RECONNECT then
          recovery_done_calls m.encoded (m.encoded.get_addr_rank s.myaddr) s.client_sessions
        else []) ∧
      s1.last_client_mdsmap_bcast =
        (if s.state = MDSState.REJOIN ∨ s.state = MDSState.RECONNECT then m.encoded.get_epoch
        else s.last_client_mdsmap_bcast) := by
  constructor
  · intro hinc
    exact handle_mds_map_ranked_completes now conf s m hfresh hrank hinc (Or.inl hact)
  · intro s1 h
    obtain ⟨e1, _, _, _, e5, e6⟩ := handle_mds_map_fresh_ranked now conf s s1 m hfresh hrank h
    have hv := recovery_view_fresh_active now conf s s1 m hfresh hrank hact hchg h
    rw [hact] at e1 e5 e6
    have hns : ¬ (s.state ≠ MDSState.ACTIVE ∧ MDSState.ACTIVE = MDSState.STOPPED) := by
      rintro ⟨_, hx⟩
      cases hx
    rw [if_neg hns, List.append_assoc] at e5
    obtain ⟨k1, k2⟩ := count_entry_marks_active s.state hchg
    refine ⟨e1, ⟨_, e5, fun t => ?_, ?_⟩, e6 hchg rfl, ?_, ?_⟩
    · rw [List.count_append, count_finish_recovery_delta_marks, Nat.add_zero, k1 t]
    · rw [List.count_append, count_recovered_purges_delta_marks, Nat.add_zero, k2]
    · by_cases hr : s.state = MDSState.REJOIN ∨ s.state = MDSState.RECONNECT
      · rw [if_pos hr] at hv ⊢
        exact congrArg Prod.fst hv
      · rw [if_neg hr] at hv ⊢
        rw [List.append_nil]
        exact congrArg Prod.fst hv
    · by_cases hr : s.state = MDSState.REJOIN ∨ s.state = MDSState.RECONNECT
      · rw [if_pos hr] at hv ⊢
        exact congrArg (fun v => v.2.1) hv
      · rw [if_neg hr] at hv ⊢
        exact congrArg (fun v => v.2.1) hv

/-- Rank 0, the table server, in REJOIN with one client session and one
continuation waiting, is shown a map of epoch 2 that makes it ACTIVE: the pass
completes, recovery_done runs with all its calls, the client is sent the map of
epoch 2, and the waiters are drained.  From CREATING, the same map runs none of
the calls of recovery_done. -/
theorem active_entry_runs_recovery_done_witness :
    (handle_mds_map 0 exampleConf rejoinNode goActiveMessage).isSome = true ∧
    (activeFromRejoin.state = MDSState.ACTIVE ∧
      (∃ added, marks activeFromRejoin = marks rejoinNode ++ added ∧
        (∀ t, added.count (Mark.finish_recovery t) = 1) ∧
        added.count Mark.recovered_purges = 1) ∧
      activeFromRejoin.waiting_for_active = [] ∧
      recovery_calls activeFromRejoin = recovery_calls rejoinNode ++
        [RecoveryCall.server_finish_recovery Table.anchor,
          RecoveryCall.server_finish_recovery Table.snap,
          RecoveryCall.client_finish_recovery Table.anchor,
          RecoveryCall.client_finish_recovery Table.snap,
          RecoveryCall.start_recovered_purges, RecoveryCall.do_file_recover,
          RecoveryCall.map_sent clientInst 2] ∧
      activeFromRejoin.last_client_mdsmap_bcast = 2) ∧
    rejoinNode.waiting_for_active = [Context.other 5] ∧
    activeFromRejoin.finished_queue = [Context.other 5] ∧
    rejoinNode.last_client_mdsmap_bcast = 0 ∧
    handle_mds_map 0 exampleConf (rankedNode MDSState.CREATING []) goActiveMessage
      = some activeFromCreating ∧
    recovery_calls activeFromCreating = [] ∧
    marks activeFromCreating = [] :=
  ⟨(active_entry_runs_recovery_done 0 exampleConf rejoinNode
      goActiveMessage (by decide) (by decide) rfl (by decide)).1
      (fun _ hi => absurd hi (by decide)),
    (active_entry_runs_recovery_done 0 exampleConf rejoinNode
      goActiveMessage (by decide) (by decide) rfl (by decide)).2 activeFromRejoin rfl,
    rfl, rfl, rfl, rfl, rfl, rfl⟩

/-! ## The end of replay -/

/-- C13.  replay_done requests RECONNECT if and only if the current map has
exactly one rank in the cluster and no FAILED rank, and requests RESOLVE in
every other case.  Its calls are exactly one beacon, which carries the
requested state, and the start of a new journal segment: one state request and
no resolve message. -/
theorem replay_done_requests (now : Nat) (conf : Conf) (s : MDS) :
    ((replay_done now conf s).want_state = MDSState.RECONNECT ↔
      (s.mdsmap.get_num_in_mds = 1 ∧ s.mdsmap.get_num_mds MDSState.FAILED = 0)) ∧
    ((replay_done now conf s).want_state = MDSState.RESOLVE ↔
      ¬ (s.mdsmap.get_num_in_mds = 1 ∧ s.mdsmap.get_num_mds MDSState.FAILED = 0)) ∧
    (replay_done now conf s).trace = s.trace ++
      [Event.send_message
        (OutMsg.MMDSBeacon s.fsid s.mdsmap.get_epoch (replay_done now conf s).want_state
          (s.beacon_last_seq + 1) s.want_rank)
        (Dest.mon s.beacon_seq_stamp.length),
       Event.mdlog_start_new_segment none] := by
  simp only [replay_done]
  by_cases hc : s.mdsmap.get_num_in_mds = 1 ∧ s.mdsmap.get_num_mds MDSState.FAILED = 0
  · rw [if_pos hc]
    simp [hc]
  · rw [if_neg hc]
    simp [hc]

/-- With one rank in the cluster and none FAILED the node asks for RECONNECT;
with two ranks, or with a FAILED rank, it asks for RESOLVE. -/
theorem replay_done_requests_witness :
    (replay_done 0 exampleConf (set_mdsmap (countedMap 1 1 0) exampleNode)).want_state
      = MDSState.RECONNECT ∧
    (replay_done 0 exampleConf (set_mdsmap (countedMap 1 2 0) exampleNode)).want_state
      = MDSState.RESOLVE ∧
    (replay_done 0 exampleConf (set_mdsmap (countedMap 1 1 1) exampleNode)).want_state
      = MDSState.RESOLVE :=
  ⟨(replay_done_requests 0 exampleConf (set_mdsmap (countedMap 1 1 0) exampleNode)).1.mpr
      (by decide),
    (replay_done_requests 0 exampleConf (set_mdsmap (countedMap 1 2 0) exampleNode)).2.1.mpr
      (by decide), rfl⟩

/-! ## Failed boot steps -/

/-- C14.  For every step number and every node, boot_start(step, r) with
r < 0 completes and is exactly suicide: the calls it adds are the three
shutdowns of suicide (cache, objecter, messenger) and nothing else, so no table,
session-map or journal operation is started, no directory is opened and no
beacon is sent; state and want_state are unchanged. -/
theorem boot_start_negative_suicides (now : Nat) (conf : Conf) (s : MDS) (step r : Int)
    (hr : r < 0) :
    ∃ s1, boot_start now conf s step r = some s1 ∧ s1 = suicide s ∧
      s1.trace = s.trace ++
        [Event.mdcache_shutdown, Event.objecter_shutdown, Event.messenger_shutdown] ∧
      s1.timer = [] ∧
      s1.state = s.state ∧ s1.want_state = s.want_state ∧
      s1.beacon_last_seq = s.beacon_last_seq := by
  refine ⟨suicide s, ?_, rfl, suicide_trace s, ?_, suicide_state s, suicide_want_state s,
    suicide_beacon_last_seq s⟩
  · simp only [boot_start]
    rw [if_pos hr]
  · cases h1 : s.beacon_killer <;> cases h2 : s.beacon_sender <;> cases h3 : s.tick_event <;>
      simp [suicide, h1, h2, h3]

/-- Step 2 of the boot of a STARTING rank 0 ends with status -5: the node
shuts down and asks the monitor for nothing. -/
theorem boot_start_negative_suicides_witness :
    ∃ s1, boot_start 0 exampleConf (rankedNode MDSState.STARTING []) 2 (-5) = some s1 ∧
      s1 = suicide (rankedNode MDSState.STARTING []) ∧
      s1.trace = (rankedNode MDSState.STARTING []).trace ++
        [Event.mdcache_shutdown, Event.objecter_shutdown, Event.messenger_shutdown] ∧
      s1.timer = [] ∧
      s1.state = (rankedNode MDSState.STARTING []).state ∧
      s1.want_state = (rankedNode MDSState.STARTING []).want_state ∧
      s1.beacon_last_seq = (rankedNode MDSState.STARTING []).beacon_last_seq :=
  boot_start_negative_suicides 0 exampleConf (rankedNode MDSState.STARTING []) 2 (-5)
    (by decide)

/-! ## A failed create -/

/-- C15 fails on the code.  The finisher of the boot-create gather ignores
its status: with a negative status it still runs creating_done, so the node
sets want_state to ACTIVE and sends a beacon that asks for ACTIVE, its only
call; it does not shut down.  (boot_start, the finisher of the STARTING and
REPLAY steps, tests the status and suicides.) -/
theorem create_finish_negative_requests_active (now : Nat) (conf : Conf) (s : MDS) (r : Int)
    (hr : r < 0) :
    (C_MDS_CreateFinish_finish now conf s r).want_state = MDSState.ACTIVE ∧
    marks (C_MDS_CreateFinish_finish now conf s r) = marks s ++ [Mark.beacon MDSState.ACTIVE] ∧
    C_MDS_CreateFinish_finish now conf s r ≠ suicide s ∧
    boot_start now conf s 0 r = some (suicide s) := by
  have hm : marks (C_MDS_CreateFinish_finish now conf s r)
      = marks s ++ [Mark.beacon MDSState.ACTIVE] := by
    simp only [C_MDS_CreateFinish_finish, creating_done, marks_request_state]
  refine ⟨by simp [C_MDS_CreateFinish_finish, creating_done], hm, ?_, ?_⟩
  · intro he
    rw [he, marks_suicide] at hm
    simp at hm
  · simp only [boot_start]
    rw [if_pos hr]

/-- The create of rank 0 ends with status -5: the node in CREATING asks for
ACTIVE and stays up. -/
theorem create_finish_negative_requests_active_witness :
    (C_MDS_CreateFinish_finish 9 exampleConf (rankedNode MDSState.CREATING []) (-5)).want_state
      = MDSState.ACTIVE ∧
    marks (C_MDS_CreateFinish_finish 9 exampleConf (rankedNode MDSState.CREATING []) (-5))
      = [Mark.beacon MDSState.ACTIVE] ∧
    (C_MDS_CreateFinish_finish 9 exampleConf (rankedNode MDSState.CREATING []) (-5)).trace
      = [Event.send_message (OutMsg.MMDSBeacon 1 1 MDSState.ACTIVE 1 0) (Dest.mon 0)] :=
  ⟨(create_finish_negative_requests_active 9 exampleConf (rankedNode MDSState.CREATING [])
      (-5) (by decide)).1, rfl, rfl⟩

/-! ## A map that gives the node no rank -/

@[simp] theorem note_peer_epoch_trace (s : MDS) (m : Message) :
    (note_peer_epoch s m).trace = s.trace := by
  simp only [note_peer_epoch]
  split_ifs <;> simp

/-- C16, as stated, fails when the node is already in STANDBY: a standby that
asked for ACTIVE is shown a fresh map that again lists it as standby, and its
want_state stays ACTIVE. -/
theorem handle_mds_map_standby_keeps_want_state :
    standbyWantsActive.state = MDSState.STANDBY ∧
    standbyWantsActive.want_state = MDSState.ACTIVE ∧
    standbyWantsActive.mdsmap.get_epoch < (mapMessage 2 (standbyMap 2)).epoch ∧
    (standbyMap 2).get_addr_rank standbyWantsActive.myaddr < 0 ∧
    (standbyMap 2).is_standby standbyWantsActive.myaddr = true ∧
    (handle_mds_map 6 exampleConf standbyWantsActive (mapMessage 2 (standbyMap 2))).map
      (fun s1 => (s1.state, s1.want_state)) = some (MDSState.STANDBY, MDSState.ACTIVE) :=
  ⟨rfl, rfl, by decide, by decide, rfl, rfl⟩

/-- C16, amended.  For every fresh map in which the address of the node holds
no rank, the pass completes.  If the map lists the address as standby the node
is in STANDBY afterwards, with want_state STANDBY when it was not in STANDBY
before and want_state untouched when it was; the only call is the release of
the message, so there is no suicide.  Otherwise the pass is suicide: its calls
are the three shutdowns and the release of the message.  In both cases no
entry action and no peer delta runs. -/
theorem handle_mds_map_unranked (now : Nat) (conf : Conf) (s : MDS) (m : Message)
    (hfresh : s.mdsmap.get_epoch < m.epoch)
    (hrank : m.encoded.get_addr_rank s.myaddr < 0) :
    ∃ s1, handle_mds_map now conf s m = some s1 ∧
      (m.encoded.is_standby s.myaddr = true →
        s1.state = MDSState.STANDBY ∧
        (s.state ≠ MDSState.STANDBY → s1.want_state = MDSState.STANDBY) ∧
        (s.state = MDSState.STANDBY → s1.want_state = s.want_state) ∧
        s1.trace = s.trace ++ [Event.delete_message m]) ∧
      (m.encoded.is_standby s.myaddr ≠ true →
        s1.state = s.state ∧ s1.want_state = s.want_state ∧
        s1.trace = s.trace ++ [Event.mdcache_shutdown, Event.objecter_shutdown,
          Event.messenger_shutdown, Event.delete_message m]) := by
  refine ⟨_, handle_mds_map_fresh_unranked now conf s m hfresh hrank, ?_, ?_⟩
  · intro hsb
    rw [if_pos hsb]
    by_cases hst : s.state = MDSState.STANDBY
    · rw [if_neg (not_not.mpr hst)]
      exact ⟨by simpa using hst, fun hne => absurd hst hne, fun _ => by simp, by simp⟩
    · rw [if_pos hst]
      exact ⟨by simp, fun _ => by simp, fun he => absurd he hst, by simp⟩
  · intro hsb
    rw [if_neg hsb]
    exact ⟨by simp, by simp, by simp⟩

/-- The example node, fresh from its constructor, is shown a map that lists it
as standby: state and want_state become STANDBY and the message is released. -/
theorem handle_mds_map_unranked_witness :
    ∃ s1, handle_mds_map 0 exampleConf exampleNode (mapMessage 1 (standbyMap 1)) = some s1 ∧
      ((standbyMap 1).is_standby exampleNode.myaddr = true →
        s1.state = MDSState.STANDBY ∧
        (exampleNode.state ≠ MDSState.STANDBY → s1.want_state = MDSState.STANDBY) ∧
        (exampleNode.state = MDSState.STANDBY → s1.want_state = exampleNode.want_state) ∧
        s1.trace = exampleNode.trace ++ [Event.delete_message (mapMessage 1 (standbyMap 1))]) ∧
      ((standbyMap 1).is_standby exampleNode.myaddr ≠ true →
        s1.state = exampleNode.state ∧ s1.want_state = exampleNode.want_state ∧
        s1.trace = exampleNode.trace ++ [Event.mdcache_shutdown, Event.objecter_shutdown,
          Event.messenger_shutdown, Event.delete_message (mapMessage 1 (standbyMap 1))]) :=
  handle_mds_map_unranked 0 exampleConf exampleNode (mapMessage 1 (standbyMap 1))
    (by decide) (by decide)

/-! ## Leaving the laggy condition -/

/-- C18.  Take an acknowledgement whose sequence is in the ledger, with a send
timestamp above last_acked_stamp (the assertion of the handler), arriving while
laggy is set.  The handler completes.  If now minus that send timestamp is
strictly less than the grace window, laggy is cleared and waiting_for_nolaggy
is left empty, its continuations queued at the end of finished_queue;
otherwise laggy stays set, and waiting_for_nolaggy and finished_queue are
unchanged. -/
theorem handle_mds_beacon_clears_laggy (now : Nat) (conf : Conf) (s : MDS) (m : Message)
    (hin : stamp_count m.seq s.beacon_seq_stamp = true)
    (hok : stamp_get m.seq s.beacon_seq_stamp > s.beacon_last_acked_stamp)
    (hl : s.laggy = true) :
    (handle_mds_beacon now conf s m).map
        (fun s1 => (s1.laggy, s1.waiting_for_nolaggy, s1.finished_queue)) =
      some (if (now : Int) - (stamp_get m.seq s.beacon_seq_stamp : Int)
            < (conf.mds_beacon_grace : Int)
        then (false, [], s.finished_queue ++ s.waiting_for_nolaggy)
        else (true, s.waiting_for_nolaggy, s.finished_queue)) := by
  simp only [handle_mds_beacon, set_last_mon_beacon_seq_stamp, hin, if_true,
    set_last_mon_beacon_last_acked_stamp]
  rw [if_pos hok]
  simp only [Option.map_some', Option.some.injEq, emit_laggy, emit_waiting_for_nolaggy,
    emit_finished_queue, reset_beacon_killer_laggy, reset_beacon_killer_waiting_for_nolaggy,
    reset_beacon_killer_finished_queue]
  by_cases hc : (now : Int) - (stamp_get m.seq s.beacon_seq_stamp : Int)
      < (conf.mds_beacon_grace : Int)
  · simp [hc, hl]
  · simp [hc, hl]

/-- The laggy node that sent beacon 2 at time 20 gets its acknowledgement at
time 31, within the grace window of 15: laggy is cleared and the deferred
request is queued to run.  At time 40 it would stay laggy. -/
theorem handle_mds_beacon_clears_laggy_witness :
    (handle_mds_beacon 31 exampleConf laggyThreeBeacons (beaconAck 2)).map
        (fun s1 => (s1.laggy, s1.waiting_for_nolaggy, s1.finished_queue)) =
      some (false, [], [Context.C_MDS_RetryMessage clientRequest]) ∧
    (handle_mds_beacon 40 exampleConf laggyThreeBeacons (beaconAck 2)).map
        (fun s1 => (s1.laggy, s1.waiting_for_nolaggy, s1.finished_queue)) =
      some (true, [Context.C_MDS_RetryMessage clientRequest], []) :=
  ⟨handle_mds_beacon_clears_laggy 31 exampleConf laggyThreeBeacons (beaconAck 2) rfl
      (by decide) rfl,
    handle_mds_beacon_clears_laggy 40 exampleConf laggyThreeBeacons (beaconAck 2) rfl
      (by decide) rfl⟩

/-! ## The beacon killer -/

/-- C19.  beacon_kill(lab) sets laggy to true exactly when lab equals the
current last_acked_stamp (afterwards laggy is true if and only if that holds
or laggy was already set); when last_acked_stamp differs from lab the call
leaves the whole node unchanged.  In neither case is there a suicide: the call
makes no call on a collaborator and leaves the timer, the state and the
desired state alone. -/
theorem beacon_kill_sets_laggy (lab : Nat) (s : MDS) :
    ((beacon_kill lab s).laggy = true ↔ (lab = s.beacon_last_acked_stamp ∨ s.laggy = true)) ∧
    (lab ≠ s.beacon_last_acked_stamp → beacon_kill lab s = s) ∧
    (beacon_kill lab s).trace = s.trace ∧ (beacon_kill lab s).timer = s.timer ∧
    (beacon_kill lab s).state = s.state ∧ (beacon_kill lab s).want_state = s.want_state ∧
    (beacon_kill lab s).beacon_last_acked_stamp = s.beacon_last_acked_stamp := by
  simp only [beacon_kill]
  by_cases hc : lab = s.beacon_last_acked_stamp
  · rw [if_pos hc]
    simp [hc]
  · rw [if_neg hc]
    simp [hc]

/-- The node whose last accepted acknowledgement has stamp 20: the killer armed
with stamp 20 sets laggy, the killer armed with stamp 10 does nothing. -/
theorem beacon_kill_sets_laggy_witness :
    nodeAckedTwo.beacon_last_acked_stamp = 20 ∧ nodeAckedTwo.laggy = false ∧
    (beacon_kill 20 nodeAckedTwo).laggy = true ∧
    beacon_kill 10 nodeAckedTwo = nodeAckedTwo :=
  ⟨rfl, rfl, (beacon_kill_sets_laggy 20 nodeAckedTwo).1.mpr (Or.inl rfl),
    (beacon_kill_sets_laggy 10 nodeAckedTwo).2.1 (by decide)⟩

/-! ## The laggy scenario -/

theorem reset_beacon_killer_armed (conf : Conf) (s : MDS) (h : timer_ok s) :
    killer_armed ⟨s.next_ctx, Due.at_time (s.beacon_last_acked_stamp + conf.mds_beacon_grace),
      Context.C_MDS_BeaconKiller s.beacon_last_acked_stamp⟩ (reset_beacon_killer conf s) := by
  obtain ⟨h1, h2, h3⟩ := h
  cases hk : s.beacon_killer with
  | none =>
    simp only [killer_armed, reset_beacon_killer, hk, timer_add_event_timer,
      set_next_ctx_timer, set_beacon_killer_timer, timer_add_event_next_ctx,
      set_next_ctx_next_ctx, timer_add_event_beacon_sender, set_next_ctx_beacon_sender,
      set_beacon_killer_beacon_sender, timer_add_event_beacon_last_acked_stamp,
      set_next_ctx_beacon_last_acked_stamp, set_beacon_killer_beacon_last_acked_stamp]
    refine ⟨?_, ?_, ?_, by simp, trivial⟩
    · rw [List.map_append, List.nodup_append]
      refine ⟨h1, by simp, ?_⟩
      intro a ha hb
      obtain ⟨x, hx, rfl⟩ := List.mem_map.mp ha
      simp only [List.map_cons, List.map_nil, List.mem_singleton] at hb
      exact absurd hb (Nat.ne_of_lt (h2 x hx))
    · intro x hx
      rcases List.mem_append.mp hx with hx | hx
      · exact Nat.lt_succ_of_lt (h2 x hx)
      · simp only [List.mem_singleton] at hx
        subst hx
        exact Nat.lt_succ_self _
    · intro id hid
      exact ⟨Nat.lt_succ_of_lt (h3 id hid), Nat.ne_of_lt (h3 id hid)⟩
  | some old =>
    simp only [killer_armed, reset_beacon_killer, hk, timer_add_event_timer,
      set_next_ctx_timer, set_beacon_killer_timer, timer_add_event_next_ctx,
      set_next_ctx_next_ctx, timer_add_event_beacon_sender, set_next_ctx_beacon_sender,
      set_beacon_killer_beacon_sender, timer_add_event_beacon_last_acked_stamp,
      set_next_ctx_beacon_last_acked_stamp, set_beacon_killer_beacon_last_acked_stamp,
      timer_cancel_event_timer, timer_cancel_event_next_ctx, timer_cancel_event_beacon_sender,
      timer_cancel_event_beacon_last_acked_stamp]
    refine ⟨?_, ?_, ?_, by simp, trivial⟩
    · rw [List.map_append, List.nodup_append]
      refine ⟨h1.sublist ((List.filter_sublist _).map _), by simp, ?_⟩
      intro a ha hb
      obtain ⟨x, hx, rfl⟩ := List.mem_map.mp ha
      simp only [List.map_cons, List.map_nil, List.mem_singleton] at hb
      exact absurd hb (Nat.ne_of_lt (h2 x (List.mem_filter.mp hx).1))
    · intro x hx
      rcases List.mem_append.mp hx with hx | hx
      · exact Nat.lt_succ_of_lt (h2 x (List.mem_filter.mp hx).1)
      · simp only [List.mem_singleton] at hx
        subst hx
        exact Nat.lt_succ_self _
    · intro id hid
      exact ⟨Nat.lt_succ_of_lt (h3 id hid), Nat.ne_of_lt (h3 id hid)⟩

theorem beacon_send_armed (now : Nat) (conf : Conf) (e : TimerEvent) (s : MDS)
    (h : killer_armed e s) : killer_armed e (beacon_send now conf s) := by
  obtain ⟨h1, h2, h3, h4, h5⟩ := h
  cases hk : s.beacon_sender with
  | none =>
    simp only [killer_armed, beacon_send, hk, timer_add_event_timer,
      set_next_ctx_timer, set_beacon_sender_timer, timer_add_event_next_ctx,
      set_next_ctx_next_ctx, timer_add_event_beacon_sender, set_next_ctx_beacon_sender,
      set_beacon_sender_beacon_sender, timer_add_event_beacon_last_acked_stamp,
      set_next_ctx_beacon_last_acked_stamp, set_beacon_sender_beacon_last_acked_stamp,
      emit_timer, emit_next_ctx, emit_beacon_sender, emit_beacon_last_acked_stamp,
      set_beacon_seq_stamp_timer, set_beacon_seq_stamp_next_ctx,
      set_beacon_seq_stamp_beacon_sender, set_beacon_seq_stamp_beacon_last_acked_stamp,
      set_beacon_last_seq_timer, set_beacon_last_seq_next_ctx,
      set_beacon_last_seq_beacon_sender, set_beacon_last_seq_beacon_last_acked_stamp]
    refine ⟨?_, ?_, ?_, List.mem_append_left _ h4, h5⟩
    · rw [List.map_append, List.nodup_append]
      refine ⟨h1, by simp, ?_⟩
      intro a ha hb
      obtain ⟨x, hx, rfl⟩ := List.mem_map.mp ha
      simp only [List.map_cons, List.map_nil, List.mem_singleton] at hb
      exact absurd hb (Nat.ne_of_lt (h2 x hx))
    · intro x hx
      rcases List.mem_append.mp hx with hx | hx
      · exact Nat.lt_succ_of_lt (h2 x hx)
      · simp only [List.mem_singleton] at hx
        subst hx
        exact Nat.lt_succ_self _
    · intro id hid
      simp only [Option.some.injEq] at hid
      subst hid
      exact ⟨Nat.lt_succ_self _, Nat.ne_of_gt (h2 e h4)⟩
  | some old =>
    have hne : e.id ≠ old := fun he => (h3 old hk).2 he.symm
    simp only [killer_armed, beacon_send, hk, timer_add_event_timer,
      set_next_ctx_timer, set_beacon_sender_timer, timer_add_event_next_ctx,
      set_next_ctx_next_ctx, timer_add_event_beacon_sender, set_next_ctx_beacon_sender,
      set_beacon_sender_beacon_sender, timer_add_event_beacon_last_acked_stamp,
      set_next_ctx_beacon_last_acked_stamp, set_beacon_sender_beacon_last_acked_stamp,
      emit_timer, emit_next_ctx, emit_beacon_sender, emit_beacon_last_acked_stamp,
      set_beacon_seq_stamp_timer, set_beacon_seq_stamp_next_ctx,
      set_beacon_seq_stamp_beacon_sender, set_beacon_seq_stamp_beacon_last_acked_stamp,
      set_beacon_last_seq_timer, set_beacon_last_seq_next_ctx,
      set_beacon_last_seq_beacon_sender, set_beacon_last_seq_beacon_last_acked_stamp,
      timer_cancel_event_timer, timer_cancel_event_next_ctx, timer_cancel_event_beacon_sender,
      timer_cancel_event_beacon_last_acked_stamp]
    refine ⟨?_, ?_, ?_, List.mem_append_left _ (List.mem_filter.mpr ⟨h4, by simpa using hne⟩),
      h5⟩
    · rw [List.map_append, List.nodup_append]
      refine ⟨h1.sublist ((List.filter_sublist _).map _), by simp, ?_⟩
      intro a ha hb
      obtain ⟨x, hx, rfl⟩ := List.mem_map.mp ha
      simp only [List.map_cons, List.map_nil, List.mem_singleton] at hb
      exact absurd hb (Nat.ne_of_lt (h2 x (List.mem_filter.mp hx).1))
    · intro x hx
      rcases List.mem_append.mp hx with hx | hx
      · exact Nat.lt_succ_of_lt (h2 x (List.mem_filter.mp hx).1)
      · simp only [List.mem_singleton] at hx
        subst hx
        exact Nat.lt_succ_self _
    · intro id hid
      simp only [Option.some.injEq] at hid
      subst hid
      exact ⟨Nat.lt_succ_self _, Nat.ne_of_gt (h2 e h4)⟩

theorem beacon_sends_armed (conf : Conf) (e : TimerEvent) (times : List Nat) (s : MDS)
    (h : killer_armed e s) : killer_armed e (beacon_sends conf times s) := by
  induction times generalizing s with
  | nil => exact h
  | cons t ts ih => exact ih _ (beacon_send_armed t conf e s h)

theorem find_by_id (l : List TimerEvent) (e : TimerEvent)
    (hn : (l.map TimerEvent.id).Nodup) (he : e ∈ l) :
    l.find? (fun x => x.id == e.id) = some e := by
  induction l with
  | nil => cases he
  | cons a l ih =>
    rw [List.map_cons, List.nodup_cons] at hn
    rcases List.mem_cons.mp he with rfl | he1
    · simp
    · have hne : a.id ≠ e.id := fun hx => hn.1 (hx ▸ List.mem_map_of_mem _ he1)
      rw [List.find?_cons_of_neg _ (by simpa using hne)]
      exact ih hn.2 he1

theorem timer_fire_killer (now : Nat) (conf : Conf) (req : Nat) (e : TimerEvent) (lab : Nat)
    (s : MDS) (hn : (s.timer.map TimerEvent.id).Nodup) (he : e ∈ s.timer)
    (hc : e.ctx = Context.C_MDS_BeaconKiller lab) :
    timer_fire now conf req e.id s = beacon_kill lab (timer_cancel_event e.id s) := by
  simp only [timer_fire, find_by_id _ _ hn he, timer_context_finish, hc]

@[simp] theorem beacon_kill_timer (lab : Nat) (s : MDS) :
    (beacon_kill lab s).timer = s.timer := by
  simp only [beacon_kill]
  split_ifs <;> simp

@[simp] theorem beacon_kill_beacon_last_acked_stamp (lab : Nat) (s : MDS) :
    (beacon_kill lab s).beacon_last_acked_stamp = s.beacon_last_acked_stamp := by
  simp only [beacon_kill]
  split_ifs <;> simp

theorem beacon_kill_laggy_of_eq (s : MDS) :
    (beacon_kill s.beacon_last_acked_stamp s).laggy = true := by
  simp [beacon_kill]

theorem beacon_kill_laggy_keeps (lab : Nat) (s : MDS) (h : s.laggy = true) :
    (beacon_kill lab s).laggy = true := by
  simp only [beacon_kill]
  split_ifs <;> simp [h]

theorem is_beacon_killer_ctx (e : TimerEvent) (h : e.is_beacon_killer = true) :
    ∃ lab, e.ctx = Context.C_MDS_BeaconKiller lab := by
  cases e with
  | mk id due ctx => cases ctx <;> simp [TimerEvent.is_beacon_killer] at h ⊢

/-- Firing a list of pending beacon killers leaves the node laggy if it was
laggy, or if one of them was armed with the current last_acked_stamp. -/
theorem fire_killers_fold (now : Nat) (conf : Conf) (req : Nat) (L : List TimerEvent) :
    ∀ s : MDS, (s.timer.map TimerEvent.id).Nodup → (L.map TimerEvent.id).Nodup →
      (∀ e ∈ L, e ∈ s.timer ∧ e.is_beacon_killer = true) →
      (s.laggy = true ∨
        ∃ e ∈ L, e.ctx = Context.C_MDS_BeaconKiller s.beacon_last_acked_stamp) →
      (L.foldl (fun s e => timer_fire now conf req e.id s) s).laggy = true := by
  induction L with
  | nil =>
    intro s _ _ _ h
    rcases h with h | ⟨e, he, _⟩
    · exact h
    · cases he
  | cons a L ih =>
    intro s hn hL hmem h
    rw [List.foldl_cons]
    obtain ⟨ha, hk⟩ := hmem a (List.mem_cons_self _ _)
    obtain ⟨lab, hlab⟩ := is_beacon_killer_ctx a hk
    rw [timer_fire_killer now conf req a lab s hn ha hlab]
    rw [List.map_cons, List.nodup_cons] at hL
    apply ih
    · rw [beacon_kill_timer, timer_cancel_event_timer]
      exact hn.sublist ((List.filter_sublist _).map _)
    · exact hL.2
    · intro e he
      obtain ⟨h1, h2⟩ := hmem e (List.mem_cons_of_mem _ he)
      refine ⟨?_, h2⟩
      rw [beacon_kill_timer, timer_cancel_event_timer]
      have hne : e.id ≠ a.id := fun hx => hL.1 (hx ▸ List.mem_map_of_mem _ he)
      exact List.mem_filter.mpr ⟨h1, by simpa using hne⟩
    · rcases h with h | ⟨e, he, hc⟩
      · exact Or.inl (beacon_kill_laggy_keeps _ _ (by simpa using h))
      · rcases List.mem_cons.mp he with rfl | he1
        · rw [hlab] at hc
          injection hc with hc
          subst hc
          have := beacon_kill_laggy_of_eq (timer_cancel_event e.id s)
          exact Or.inl (by simpa using this)
        · exact Or.inr ⟨e, he1, by simpa using hc⟩

theorem fire_beacon_killers_armed (now : Nat) (conf : Conf) (req : Nat) (e : TimerEvent)
    (s : MDS) (h : killer_armed e s) : (fire_beacon_killers now conf req s).laggy = true := by
  obtain ⟨h1, _, _, h4, h5⟩ := h
  unfold fire_beacon_killers
  apply fire_killers_fold
  · exact h1
  · exact h1.sublist ((List.filter_sublist _).map _)
  · intro x hx
    exact ⟨(List.mem_filter.mp hx).1, (List.mem_filter.mp hx).2⟩
  · exact Or.inr ⟨e, List.mem_filter.mpr ⟨h4, by simp [TimerEvent.is_beacon_killer, h5]⟩, h5⟩

/-- An accepted acknowledgement leaves a beacon killer pending that is armed
with the new last_acked_stamp. -/
theorem handle_mds_beacon_armed (now : Nat) (conf : Conf) (s s1 : MDS) (m : Message)
    (hok : timer_ok s) (hin : stamp_count m.seq s.beacon_seq_stamp = true)
    (h : handle_mds_beacon now conf s m = some s1) : ∃ e, killer_armed e s1 := by
  have key : ∀ X : MDS, timer_ok X →
      ∃ e, killer_armed e (emit (.delete_message m) (reset_beacon_killer conf X)) :=
    fun X hX => ⟨_, reset_beacon_killer_armed conf X hX⟩
  simp only [handle_mds_beacon, set_last_mon_beacon_seq_stamp, hin, if_true] at h
  split_ifs at h with h1 h2
  · simp only [Option.some.injEq] at h
    subst h
    exact key _ hok
  · simp only [Option.some.injEq] at h
    subst h
    exact key _ hok

/-- C20, as stated, fails: after init at time 0 and four more beacon sends the
node has sent five beacons and got no acknowledgement, but no beacon killer was
ever armed (beacon_start does not arm one), so when every armed beacon killer
has fired, long after the grace window of 15, laggy is still false. -/
theorem init_five_beacons_not_laggy :
    marks nodeFiveBeacons = List.replicate 5 (Mark.beacon MDSState.BOOT) ∧
    nodeFiveBeacons.beacon_last_seq = 5 ∧
    nodeFiveBeacons.beacon_seq_stamp = [(1, 0), (2, 4), (3, 8), (4, 12), (5, 16)] ∧
    nodeFiveBeacons.beacon_killer = none ∧
    (nodeFiveBeacons.timer.filter TimerEvent.is_beacon_killer).length = 0 ∧
    (fire_beacon_killers 100 exampleConf 0 nodeFiveBeacons).laggy = false :=
  ⟨rfl, rfl, rfl, rfl, rfl, rfl⟩

/-- C20, amended.  Laggy detection scenario: for a node that has had a beacon
acknowledgement accepted (the handler of the acknowledgement arms the beacon
killer with the new last_acked_stamp; init arms none) and has then sent any
number of beacons, five for one, with no further acknowledgement received,
once every armed beacon-killer timer has fired, laggy is true. -/
theorem acked_then_silent_goes_laggy (t0 now : Nat) (conf : Conf) (req : Nat) (s s1 : MDS)
    (m : Message) (times : List Nat)
    (hok : timer_ok s)
    (hin : stamp_count m.seq s.beacon_seq_stamp = true)
    (h : handle_mds_beacon t0 conf s m = some s1) :
    (∃ e ∈ (beacon_sends conf times s1).timer,
      e.ctx = Context.C_MDS_BeaconKiller s1.beacon_last_acked_stamp ∧
      (beacon_sends conf times s1).beacon_last_acked_stamp = s1.beacon_last_acked_stamp) ∧
    (fire_beacon_killers now conf req (beacon_sends conf times s1)).laggy = true := by
  obtain ⟨e, he⟩ := handle_mds_beacon_armed t0 conf s s1 m hok hin h
  have ha := beacon_sends_armed conf e times s1 he
  have hl : (beacon_sends conf times s1).beacon_last_acked_stamp
      = s1.beacon_last_acked_stamp := by
    unfold beacon_sends
    apply foldl_keeps MDS.beacon_last_acked_stamp
    intro x a
    simp
  refine ⟨⟨e, ha.2.2.2.1, ?_, hl⟩, fire_beacon_killers_armed now conf req e _ ha⟩
  rw [← hl]
  exact ha.2.2.2.2

/-- The node whose beacon 2, sent at time 20, was acknowledged at time 31 sends
five more beacons and hears nothing: the killer armed with stamp 20 fires and
the node is laggy. -/
theorem acked_then_silent_goes_laggy_witness :
    handle_mds_beacon 31 exampleConf nodeThreeBeacons (beaconAck 2) = some nodeAckedTwo ∧
    nodeAckedThenFive.beacon_last_seq = 8 ∧
    nodeAckedThenFive.laggy = false ∧
    (fire_beacon_killers 60 exampleConf 0 nodeAckedThenFive).laggy = true :=
  have hok : timer_ok nodeThreeBeacons :=
    ⟨by decide, by decide, fun id hid =>
      Option.some.inj (hid : some 2 = some id) ▸ (by decide : 2 < 3)⟩
  ⟨rfl, rfl, rfl,
    (acked_then_silent_goes_laggy 31 60 exampleConf 0 nodeThreeBeacons nodeAckedTwo
      (beaconAck 2) [32, 36, 40, 44, 48] hok rfl rfl).2⟩

/-! ## Suicide, twice -/

@[simp] theorem suicide_beacon_killer (s : MDS) : (suicide s).beacon_killer = none := by
  cases h1 : s.beacon_killer <;> cases h2 : s.beacon_sender <;> cases h3 : s.tick_event <;>
    simp [suicide, h1, h2, h3]
@[simp] theorem suicide_beacon_sender (s : MDS) : (suicide s).beacon_sender = none := by
  cases h1 : s.beacon_killer <;> cases h2 : s.beacon_sender <;> cases h3 : s.tick_event <;>
    simp [suicide, h1, h2, h3]
@[simp] theorem suicide_tick_event (s : MDS) : (suicide s).tick_event = none := by
  cases h1 : s.beacon_killer <;> cases h2 : s.beacon_sender <;> cases h3 : s.tick_event <;>
    simp [suicide, h1, h2, h3]
@[simp] theorem suicide_timer (s : MDS) : (suicide s).timer = [] := by
  cases h1 : s.beacon_killer <;> cases h2 : s.beacon_sender <;> cases h3 : s.tick_event <;>
    simp [suicide, h1, h2, h3]
@[simp] theorem suicide_peer_mdsmap_epoch (s : MDS) :
    (suicide s).peer_mdsmap_epoch = s.peer_mdsmap_epoch := by
  cases h1 : s.beacon_killer <;> cases h2 : s.beacon_sender <;> cases h3 : s.tick_event <;>
    simp [suicide, h1, h2, h3]

/-- On a node with no handle set and no event pending, suicide only makes its
three shutdown calls. -/
theorem suicide_of_stopped (s : MDS) (h1 : s.beacon_killer = none)
    (h2 : s.beacon_sender = none) (h3 : s.tick_event = none) (h4 : s.timer = []) :
    suicide s = emit .messenger_shutdown (emit .objecter_shutdown (emit .mdcache_shutdown s)) := by
  cases s
  simp only at h1 h2 h3 h4
  subst h1 h2 h3 h4
  rfl

/-- C22.  Calling suicide twice in a row leaves the node as calling it once
does, apart from the three shutdown calls being made again: the three timer
handles (tick, beacon sender, beacon killer) are cleared and no timer event is
pending, and state, want_state, the ledger, the beacon counters, laggy, the
peer epochs, the map and the rank are unchanged by either call. -/
theorem suicide_idempotent (s : MDS) :
    suicide (suicide s)
      = emit .messenger_shutdown (emit .objecter_shutdown (emit .mdcache_shutdown (suicide s))) ∧
    (∀ tr, set_trace tr (suicide (suicide s)) = set_trace tr (suicide s)) ∧
    ((suicide s).tick_event = none ∧ (suicide s).beacon_sender = none ∧
      (suicide s).beacon_killer = none ∧ (suicide s).timer = []) ∧
    ((suicide s).state = s.state ∧ (suicide s).want_state = s.want_state ∧
      (suicide s).beacon_seq_stamp = s.beacon_seq_stamp ∧
      (suicide s).beacon_last_seq = s.beacon_last_seq ∧
      (suicide s).beacon_last_acked_stamp = s.beacon_last_acked_stamp ∧
      (suicide s).laggy = s.laggy ∧ (suicide s).peer_mdsmap_epoch = s.peer_mdsmap_epoch ∧
      (suicide s).mdsmap = s.mdsmap ∧ (suicide s).whoami = s.whoami) := by
  have h := suicide_of_stopped (suicide s) (suicide_beacon_killer s) (suicide_beacon_sender s)
    (suicide_tick_event s) (suicide_timer s)
  refine ⟨h, fun tr => ?_, ⟨by simp, by simp, by simp, by simp⟩,
    ⟨by simp, by simp, by simp, by simp, by simp, by simp, by simp, by simp, by simp⟩⟩
  rw [h]
  rfl

/-- The node with three beacons sent has a beacon sender pending; after one
suicide, or two, no handle is set and nothing is pending. -/
theorem suicide_idempotent_witness :
    nodeThreeBeacons.beacon_sender = some 2 ∧ nodeThreeBeacons.timer.length = 1 ∧
    (suicide (suicide nodeThreeBeacons)).timer = [] ∧
    set_trace [] (suicide (suicide nodeThreeBeacons)) = set_trace [] (suicide nodeThreeBeacons) :=
  ⟨rfl, rfl, rfl, (suicide_idempotent nodeThreeBeacons).2.1 []⟩

/-! ## The tick of a laggy node -/

/-- C24.  When laggy is set, tick only re-arms the tick timer: the handle is
dropped without a cancel, a new tick event is scheduled after the tick
interval and becomes the handle.  No call on a collaborator is made (no
telemetry, no locker, server, balancer or snap-server operation) and no other
member changes, whatever the lifecycle state. -/
theorem tick_laggy (conf : Conf) (req : Nat) (s : MDS) (hl : s.laggy = true) :
    tick conf req s = { s with
      tick_event := some s.next_ctx
      next_ctx := s.next_ctx + 1
      timer := s.timer ++ [⟨s.next_ctx, Due.after conf.mds_tick_interval, Context.C_MDS_Tick⟩] } ∧
    (tick conf req s).trace = s.trace := by
  have key : tick conf req s = reset_tick conf (set_tick_event none s) := by
    simp only [tick]
    rw [if_pos (by simpa using hl)]
  rw [key]
  exact ⟨rfl, rfl⟩

/-- The laggy node after init, in any lifecycle state, ticks: only the tick
timer is re-armed. -/
theorem tick_laggy_witness :
    (tick exampleConf 7 (set_state MDSState.ACTIVE laggyAfterInit)).trace
      = (set_state MDSState.ACTIVE laggyAfterInit).trace ∧
    (tick exampleConf 7 (set_state MDSState.ACTIVE laggyAfterInit)).tick_event = some 2 :=
  ⟨(tick_laggy exampleConf 7 (set_state MDSState.ACTIVE laggyAfterInit) rfl).2, rfl⟩

/-! ## Steps 2 and 3 of the boot -/

/-- C27.  Take boot_start(step, r) with r >= 0, step 2 or 3, in a node that is
in REPLAY or STARTING; `pre` is the node after the journal was positioned for
append, which step 2 does in STARTING.  The call completes.  In STARTING with
the root hosted elsewhere its calls are: open the local stray directory, one
beacon that asks for ACTIVE, a new journal segment.  In STARTING with the root
hosted here the only call is open-root with a continuation to step 4.  In
REPLAY, step 2 only starts the journal replay with a continuation to step 3,
and step 3 is replay_done.  So ACTIVE is requested exactly once if the state is
STARTING and the root rank is not this rank, and not at all otherwise. -/
theorem boot_start_steps_2_3 (now : Nat) (conf : Conf) (s : MDS) (step r : Int)
    (hr : 0 ≤ r) (hstep : step = 2 ∨ step = 3)
    (hst : s.state = MDSState.REPLAY ∨ s.state = MDSState.STARTING) :
    ∃ s1 pre, boot_start now conf s step r = some s1 ∧
      pre = (if step = 2 ∧ s.state = MDSState.STARTING then emit .mdlog_append s else s) ∧
      (s.state = MDSState.STARTING → s.mdsmap.get_root ≠ s.whoami →
        s1 = emit (.mdlog_start_new_segment none)
          (request_state now conf (emit .mdcache_open_local_stray pre) MDSState.ACTIVE)) ∧
      (s.state = MDSState.STARTING → s.mdsmap.get_root = s.whoami →
        s1 = emit (.mdcache_open_root (some (.C_MDS_BootStart 4))) pre) ∧
      (s.state = MDSState.REPLAY → step = 2 →
        s1 = emit (.mdlog_replay (.C_MDS_BootStart 3)) s) ∧
      (s.state = MDSState.REPLAY → step = 3 → s1 = replay_done now conf s) ∧
      ((marks s1).drop (marks s).length).count (Mark.beacon MDSState.ACTIVE) =
        if s.state = MDSState.STARTING ∧ s.mdsmap.get_root ≠ s.whoami then 1 else 0 := by
  have hr1 : ¬ r < 0 := Int.not_lt.mpr hr
  rcases hst with hs | hs
  · -- REPLAY
    have hne : ¬ s.state = MDSState.STARTING := by rw [hs]; decide
    rcases hstep with h2 | h3
    · refine ⟨emit (.mdlog_replay (.C_MDS_BootStart 3)) s, s, ?_, ?_, ?_, ?_, ?_, ?_, ?_⟩
      · subst h2
        simp [boot_start, hr1, MDS.is_replay, hs]
      · simp [hs]
      · intro h; exact absurd h hne
      · intro h; exact absurd h hne
      · intro _ _; rfl
      · intro _ h; subst h2; exact absurd h (by decide)
      · simp [hs, Event.mark]
    · refine ⟨replay_done now conf s, s, ?_, ?_, ?_, ?_, ?_, ?_, ?_⟩
      · subst h3
        simp [boot_start, boot_start_3, hr1, MDS.is_replay, hs]
      · simp [hs]
      · intro h; exact absurd h hne
      · intro h; exact absurd h hne
      · intro _ h; subst h3; exact absurd h (by decide)
      · intro _ _; rfl
      · have hn : ¬ (s.state = MDSState.STARTING ∧ s.mdsmap.get_root ≠ s.whoami) :=
          fun hx => hne hx.1
        rw [if_neg hn]
        simp only [replay_done]
        split_ifs <;> simp [Event.mark]
  · -- STARTING
    have hne : ¬ s.state = MDSState.REPLAY := by rw [hs]; decide
    by_cases hroot : s.mdsmap.get_root = s.whoami
    · rcases hstep with h2 | h3
      · refine ⟨emit (.mdcache_open_root (some (.C_MDS_BootStart 4))) (emit .mdlog_append s),
          emit .mdlog_append s, ?_, ?_, ?_, ?_, ?_, ?_, ?_⟩
        · subst h2
          simp [boot_start, boot_start_3, hr1, MDS.is_replay, MDS.is_starting, hs, hroot]
        · simp [hs, h2]
        · intro _ h; exact absurd hroot h
        · intro _ _; rfl
        · intro h; exact absurd h hne
        · intro h; exact absurd h hne
        · simp [hs, hroot, Event.mark]
      · refine ⟨emit (.mdcache_open_root (some (.C_MDS_BootStart 4))) s, s, ?_, ?_, ?_, ?_, ?_,
          ?_, ?_⟩
        · subst h3
          simp [boot_start, boot_start_3, hr1, MDS.is_replay, MDS.is_starting, hs, hroot]
        · simp [hs, h3]
        · intro _ h; exact absurd hroot h
        · intro _ _; rfl
        · intro h; exact absurd h hne
        · intro h; exact absurd h hne
        · simp [hs, hroot, Event.mark]
    · rcases hstep with h2 | h3
      · refine ⟨emit (.mdlog_start_new_segment none) (request_state now conf
            (emit .mdcache_open_local_stray (emit .mdlog_append s)) MDSState.ACTIVE),
          emit .mdlog_append s, ?_, ?_, ?_, ?_, ?_, ?_, ?_⟩
        · subst h2
          simp [boot_start, boot_start_3, boot_start_4, starting_done, hr1, MDS.is_replay,
            MDS.is_starting, hs, hroot]
        · simp [hs, h2]
        · intro _ _; rfl
        · intro _ h; exact absurd h hroot
        · intro h; exact absurd h hne
        · intro h; exact absurd h hne
        · simp [hs, hroot, Event.mark]
      · refine ⟨emit (.mdlog_start_new_segment none) (request_state now conf
            (emit .mdcache_open_local_stray s) MDSState.ACTIVE), s, ?_, ?_, ?_, ?_, ?_, ?_, ?_⟩
        · subst h3
          simp [boot_start, boot_start_3, boot_start_4, starting_done, hr1, MDS.is_replay,
            MDS.is_starting, hs, hroot]
        · simp [hs, h3]
        · intro _ _; rfl
        · intro _ h; exact absurd h hroot
        · intro h; exact absurd h hne
        · intro h; exact absurd h hne
        · simp [hs, hroot, Event.mark]

/-- Rank 0 in STARTING, with the root hosted by rank 1, finishes step 1 of its
boot with status 0: step 2 positions the journal, opens the local stray
directory and asks for ACTIVE once. -/
theorem boot_start_steps_2_3_witness :
    ∃ s1 pre, boot_start 9 exampleConf (rootedNode MDSState.STARTING 1) (2 : Int) 0 = some s1 ∧
      pre = (if (2 : Int) = 2 ∧ (rootedNode MDSState.STARTING 1).state = MDSState.STARTING then emit .mdlog_append (rootedNode MDSState.STARTING 1) else (rootedNode MDSState.STARTING 1)) ∧
      ((rootedNode MDSState.STARTING 1).state = MDSState.STARTING → (rootedNode MDSState.STARTING 1).mdsmap.get_root ≠ (rootedNode MDSState.STARTING 1).whoami →
        s1 = emit (.mdlog_start_new_segment none)
          (request_state 9 exampleConf (emit .mdcache_open_local_stray pre) MDSState.ACTIVE)) ∧
      ((rootedNode MDSState.STARTING 1).state = MDSState.STARTING → (rootedNode MDSState.STARTING 1).mdsmap.get_root = (rootedNode MDSState.STARTING 1).whoami →
        s1 = emit (.mdcache_open_root (some (.C_MDS_BootStart 4))) pre) ∧
      ((rootedNode MDSState.STARTING 1).state = MDSState.REPLAY → (2 : Int) = 2 →
        s1 = emit (.mdlog_replay (.C_MDS_BootStart 3)) (rootedNode MDSState.STARTING 1)) ∧
      ((rootedNode MDSState.STARTING 1).state = MDSState.REPLAY → (2 : Int) = 3 → s1 = replay_done 9 exampleConf (rootedNode MDSState.STARTING 1)) ∧
      ((marks s1).drop (marks (rootedNode MDSState.STARTING 1)).length).count (Mark.beacon MDSState.ACTIVE) =
        if (rootedNode MDSState.STARTING 1).state = MDSState.STARTING ∧ (rootedNode MDSState.STARTING 1).mdsmap.get_root ≠ (rootedNode MDSState.STARTING 1).whoami then 1 else 0 :=
  boot_start_steps_2_3 9 exampleConf (rootedNode MDSState.STARTING 1) 2 0 (by decide)
    (Or.inl rfl) (Or.inr rfl)

/-! ## Table requests -/

theorem get_table_isSome (K : MsgConsts) (t : Int) :
    (get_table K t).isSome = true ↔ (t = K.TABLE_ANCHOR ∨ t = K.TABLE_SNAP) := by
  simp only [get_table]
  split_ifs with h1 h2
  · simp [h1]
  · simp [h2]
  · simp [h1, h2]

/-- C28, as stated, fails for a table id that names no table: a table request
for table 99 reaches routing on a node that is not laggy, and the selection of
the table server hits `assert(0)`. -/
theorem dispatch_table_request_unknown_table :
    (tableRequest 99 0).type = exampleConsts.MSG_MDS_TABLE_REQUEST ∧
    from_bad_mds exampleConsts exampleNode (tableRequest 99 0) = false ∧
    exampleNode.laggy = false ∧
    dispatch_route exampleConsts exampleNode (tableRequest 99 0) = none ∧
    _dispatch exampleConsts 0 exampleConf false exampleNode (tableRequest 99 0) = none ∧
    _dispatch exampleConsts 0 exampleConf false exampleNode (tableRequest 99 (-1)) = none :=
  ⟨rfl, rfl, rfl, rfl, rfl, rfl⟩

/-- C28, amended.  Take a table-request message that reaches the table-request
case of routing while the node is not laggy, with any op code.  For the table
ids ANCHOR and SNAP, and for no other table id, the routing completes without
failing an assertion; it then delivers the message to exactly one handler: the
table client selected by the table id when the op code is negative, the table
server selected by the table id otherwise. -/
theorem dispatch_table_request (K : MsgConsts) (now : Nat) (conf : Conf)
    (shutdown_pass : Bool) (s : MDS) (m : Message)
    (hf : from_bad_mds K s m = false) (hl : s.laggy = false)
    (hty : m.type = K.MSG_MDS_TABLE_REQUEST)
    (h1 : m.type ≠ K.CEPH_MSG_MDS_MAP) (h2 : m.type ≠ K.MSG_MDS_BEACON)
    (h3 : m.type ≠ K.MSG_MON_COMMAND)
    (hp1 : m.type &&& 0xff00 ≠ K.MDS_PORT_CACHE) (hp2 : m.type &&& 0xff00 ≠ K.MDS_PORT_LOCKER)
    (hp3 : m.type &&& 0xff00 ≠ K.MDS_PORT_MIGRATOR)
    (hsv : ¬ (m.type = K.CEPH_MSG_CLIENT_SESSION ∨ m.type = K.CEPH_MSG_CLIENT_REQUEST ∨
      m.type = K.CEPH_MSG_CLIENT_RECONNECT ∨ m.type = K.MSG_MDS_SLAVE_REQUEST))
    (hhb : m.type ≠ K.MSG_MDS_HEARTBEAT) :
    ((_dispatch K now conf shutdown_pass s m).isSome = true ↔
      (m.table = K.TABLE_ANCHOR ∨ m.table = K.TABLE_SNAP)) ∧
    (∀ t, get_table K m.table = some t →
      dispatch_route K s m = some (some (emit
        (if m.op < 0 then Event.tableclient_handle_request t m
          else Event.tableserver_handle_request t m) s)) ∧
      _dispatch K now conf shutdown_pass s m = some (dispatch_post now conf shutdown_pass
        (emit (if m.op < 0 then Event.tableclient_handle_request t m
          else Event.tableserver_handle_request t m) s), true)) ∧
    (m.table = K.TABLE_ANCHOR → get_table K m.table = some Table.anchor) ∧
    (m.table ≠ K.TABLE_ANCHOR → m.table = K.TABLE_SNAP →
      get_table K m.table = some Table.snap) := by
  have hroute : dispatch_route K s m =
      (get_table K m.table).map fun t => some (emit
        (if m.op < 0 then Event.tableclient_handle_request t m
          else Event.tableserver_handle_request t m) s) := by
    simp only [dispatch_route]
    rw [if_neg hp1, if_neg hp2, if_neg hp3, if_neg hsv, if_neg hhb, if_pos hty]
    split_ifs <;> rfl
  have hd : _dispatch K now conf shutdown_pass s m =
      (dispatch_route K s m).map fun o =>
        match o with
        | none => (s, false)
        | some s1 =>
          if s1.laggy then (s1, true)
          else (dispatch_post now conf shutdown_pass s1, true) := by
    simp only [_dispatch, hf, Bool.false_eq_true, if_false, if_neg h1, if_neg h2, if_neg h3, hl]
  refine ⟨?_, ?_, ?_, ?_⟩
  · rw [hd, hroute, ← get_table_isSome]
    cases get_table K m.table <;> simp
  · intro t ht
    rw [hd, hroute, ht]
    refine ⟨rfl, ?_⟩
    simp only [Option.map_some', emit_laggy, hl, Bool.false_eq_true, if_false]
  · intro h
    simp [get_table, h]
  · intro ha hsn
    simp only [get_table]
    rw [if_neg ha, if_pos hsn]

/-- A snap-table request with a negative op code goes to the snap table client,
one with a non-negative op code to the snap table server. -/
theorem dispatch_table_request_witness :
    dispatch_route exampleConsts exampleNode (tableRequest 2 (-1))
      = some (some (emit (.tableclient_handle_request Table.snap (tableRequest 2 (-1)))
          exampleNode)) ∧
    dispatch_route exampleConsts exampleNode (tableRequest 2 3)
      = some (some (emit (.tableserver_handle_request Table.snap (tableRequest 2 3))
          exampleNode)) ∧
    (_dispatch exampleConsts 0 exampleConf false exampleNode (tableRequest 2 3)).isSome = true :=
  ⟨((dispatch_table_request exampleConsts 0 exampleConf false exampleNode (tableRequest 2 (-1))
      rfl rfl rfl (by decide) (by decide) (by decide) (by decide) (by decide) (by decide)
      (by decide) (by decide)).2.1 Table.snap rfl).1,
    ((dispatch_table_request exampleConsts 0 exampleConf false exampleNode (tableRequest 2 3)
      rfl rfl rfl (by decide) (by decide) (by decide) (by decide) (by decide) (by decide)
      (by decide) (by decide)).2.1 Table.snap rfl).1,
    (dispatch_table_request exampleConsts 0 exampleConf false exampleNode (tableRequest 2 3)
      rfl rfl rfl (by decide) (by decide) (by decide) (by decide) (by decide) (by decide)
      (by decide) (by decide)).1.mpr (Or.inr rfl)⟩

/-! ## Peers that fail -/

/-- The state-change block completes unless STOPPING is entered from a state
other than ACTIVE, or STOPPED from a state other than STOPPING. -/
theorem handle_mds_map_state_change_isSome_of (now : Nat) (conf : Conf) (old : MDSState)
    (s : MDS)
    (hA : s.state = MDSState.STOPPING → old = MDSState.ACTIVE ∨ old = MDSState.STOPPING)
    (hB : s.state = MDSState.STOPPED → old = MDSState.STOPPING ∨ old = MDSState.STOPPED) :
    (handle_mds_map_state_change now conf old s).isSome = true := by
  by_cases h1 : s.state = MDSState.ACTIVE
  · exact handle_mds_map_state_change_isSome now conf old s (Or.inl h1)
  by_cases h2 : s.state = MDSState.STOPPING
  · exact handle_mds_map_state_change_isSome now conf old s (Or.inr ⟨h2, hA h2⟩)
  simp only [handle_mds_map_state_change, MDS.is_active, MDS.is_replay, MDS.is_resolve,
    MDS.is_reconnect, MDS.is_creating, MDS.is_starting, MDS.is_stopping, MDS.is_stopped,
    set_want_state_state, beq_iff_eq]
  by_cases hc : old ≠ s.state
  · rw [if_pos hc, if_neg h1]
    by_cases h3 : s.state = MDSState.STOPPED
    · have ho : old = MDSState.STOPPING := by
        rcases hB h3 with ho | ho
        · exact ho
        · exact absurd (ho.trans h3.symm) hc
      simp only [h3, ho, reduceCtorEq, if_false, if_true, Option.isSome_some]
    · rw [if_neg h2, if_neg h3]
      split_ifs <;>
        simp only [replay_start_eq, boot_start_zero, Option.map_some', Option.isSome_some]
  · rw [if_neg hc]
    rfl

theorem handle_mds_map_ranked_isSome_of (now : Nat) (conf : Conf) (oldmap : MDSMap)
    (oldwhoami : Int) (oldstate : MDSState) (s : MDS) (m : Message)
    (hinc : s.client_incarnation < 0 → s.mdsmap.have_inst s.whoami = true →
      0 < s.mdsmap.get_inc s.whoami)
    (hA : s.mdsmap.get_state s.whoami = MDSState.STOPPING →
      oldstate = MDSState.ACTIVE ∨ oldstate = MDSState.STOPPING)
    (hB : s.mdsmap.get_state s.whoami = MDSState.STOPPED →
      oldstate = MDSState.STOPPING ∨ oldstate = MDSState.STOPPED) :
    (handle_mds_map_ranked now conf oldmap oldwhoami oldstate s m).isSome = true := by
  have h1 : (map_tell_objecter
      (map_update_messenger oldwhoami (map_open_logger oldwhoami s))).isSome = true := by
    apply map_tell_objecter_isSome
    simpa using hinc
  obtain ⟨s2, h2⟩ := Option.isSome_iff_exists.mp h1
  have a2 := map_tell_objecter_whoami _ _ h2
  have a3 := map_tell_objecter_mdsmap _ _ h2
  simp only [map_update_messenger_whoami, map_open_logger_whoami, map_update_messenger_mdsmap,
    map_open_logger_mdsmap] at a2 a3
  simp only [handle_mds_map_ranked, h2, Option.some_bind, Option.isSome_map']
  apply handle_mds_map_state_change_isSome_of
  · simp only [set_state_state, dump_cache_if_mdsmap, dump_cache_if_whoami, emit_mdsmap,
      emit_whoami, a2, a3]
    exact hA
  · simp only [set_state_state, dump_cache_if_mdsmap, dump_cache_if_whoami, emit_mdsmap,
      emit_whoami, a2, a3]
    exact hB

/-- A reactor pass over a fresh map that gives the node a rank completes when
its three assertions hold: a positive incarnation where one is reported,
STOPPING entered from ACTIVE only, STOPPED entered from STOPPING only. -/
theorem handle_mds_map_ranked_completes_of (now : Nat) (conf : Conf) (s : MDS) (m : Message)
    (hfresh : s.mdsmap.get_epoch < m.epoch)
    (hrank : 0 ≤ m.encoded.get_addr_rank s.myaddr)
    (hinc : s.client_incarnation < 0 →
      m.encoded.have_inst (m.encoded.get_addr_rank s.myaddr) = true →
      0 < m.encoded.get_inc (m.encoded.get_addr_rank s.myaddr))
    (hA : m.encoded.get_state (m.encoded.get_addr_rank s.myaddr) = MDSState.STOPPING →
      s.state = MDSState.ACTIVE ∨ s.state = MDSState.STOPPING)
    (hB : m.encoded.get_state (m.encoded.get_addr_rank s.myaddr) = MDSState.STOPPED →
      s.state = MDSState.STOPPING ∨ s.state = MDSState.STOPPED) :
    (handle_mds_map now conf s m).isSome = true := by
  simp only [handle_mds_map, note_peer_epoch_mdsmap, note_peer_epoch_state,
    note_peer_epoch_whoami]
  rw [if_neg (Nat.not_le.mpr hfresh)]
  simp only [set_whoami_whoami, set_whoami_mdsmap, set_mdsmap_mdsmap, set_whoami_myaddr,
    set_mdsmap_myaddr, note_peer_epoch_myaddr]
  rw [if_neg (Int.not_lt.mpr hrank)]
  apply handle_mds_map_ranked_isSome_of
  · simpa using hinc
  · simpa using hA
  · simpa using hB

theorem mem_delta_marks_failed (oldmap newmap : MDSMap) (w : Int) (new : MDSState) (p : Int)
    (h1 : p ∈ newmap.get_mds_set MDSState.FAILED)
    (h2 : p ∉ oldmap.get_mds_set MDSState.FAILED) :
    Mark.handle_mds_failure p ∈ delta_marks oldmap newmap w new := by
  simp only [delta_marks, List.mem_append, List.mem_map, List.mem_filter, mem_set_fill_nil,
    decide_eq_true_eq]
  exact Or.inl (Or.inr ⟨p, ⟨h1, h2⟩, rfl⟩)

theorem mem_delta_marks_inst (oldmap newmap : MDSMap) (w : Int) (new : MDSState) (p : Int)
    (h1 : p ∈ newmap.get_up_mds_set) (h2 : oldmap.have_inst p = true)
    (h3 : oldmap.get_inst p ≠ newmap.get_inst p) :
    Mark.handle_mds_failure p ∈ delta_marks oldmap newmap w new := by
  simp only [delta_marks, List.mem_append, List.mem_map, List.mem_filter, mem_set_fill_nil,
    decide_eq_true_eq]
  exact Or.inr ⟨p, ⟨h1, h2, h3⟩, rfl⟩

/-- C25.  Take a reactor pass over a fresh map in which the address of the
node holds a rank and the new state of the node is not STOPPED, whatever the
state of the node.  The pass completes when its assertions hold.  When it
completes, the calls it adds contain the cache's handle_mds_failure(p) for
every rank p that is FAILED in the new map and was not FAILED in the previous
map, and for every up rank p whose inst existed in the previous map and differs
from its inst in the new map. -/
theorem handle_mds_failure_for_failed_peers (now : Nat) (conf : Conf) (s : MDS) (m : Message)
    (hfresh : s.mdsmap.get_epoch < m.epoch)
    (hrank : 0 ≤ m.encoded.get_addr_rank s.myaddr)
    (hns : m.encoded.get_state (m.encoded.get_addr_rank s.myaddr) ≠ MDSState.STOPPED) :
    (((s.client_incarnation < 0 →
        m.encoded.have_inst (m.encoded.get_addr_rank s.myaddr) = true →
        0 < m.encoded.get_inc (m.encoded.get_addr_rank s.myaddr)) ∧
      (m.encoded.get_state (m.encoded.get_addr_rank s.myaddr) = MDSState.STOPPING →
        s.state = MDSState.ACTIVE ∨ s.state = MDSState.STOPPING)) →
      (handle_mds_map now conf s m).isSome = true) ∧
    ∀ s1, handle_mds_map now conf s m = some s1 →
      ∃ added, marks s1 = marks s ++ added ∧
        (∀ p, p ∈ m.encoded.get_mds_set MDSState.FAILED →
          p ∉ s.mdsmap.get_mds_set MDSState.FAILED → Mark.handle_mds_failure p ∈ added) ∧
        (∀ p, p ∈ m.encoded.get_up_mds_set → s.mdsmap.have_inst p = true →
          s.mdsmap.get_inst p ≠ m.encoded.get_inst p → Mark.handle_mds_failure p ∈ added) := by
  constructor
  · rintro ⟨hinc, hA⟩
    exact handle_mds_map_ranked_completes_of now conf s m hfresh hrank hinc hA
      (fun hx => absurd hx hns)
  · intro s1 h
    obtain ⟨_, _, _, _, e5, _⟩ := handle_mds_map_fresh_ranked now conf s s1 m hfresh hrank h
    have hn : ¬ (s.state ≠ m.encoded.get_state (m.encoded.get_addr_rank s.myaddr) ∧
        m.encoded.get_state (m.encoded.get_addr_rank s.myaddr) = MDSState.STOPPED) :=
      fun hx => hns hx.2
    rw [if_neg hn, List.append_assoc] at e5
    refine ⟨_, e5, fun p h1 h2 => ?_, fun p h1 h2 h3 => ?_⟩
    · exact List.mem_append_right _ (mem_delta_marks_failed _ _ _ _ p h1 h2)
    · exact List.mem_append_right _ (mem_delta_marks_inst _ _ _ _ p h1 h2 h3)

/-- Rank 0, still in CREATING, is shown a map in which rank 2 is newly FAILED
and rank 1 is up with another inst: the pass completes and the cache is told
of the failure of both. -/
theorem handle_mds_failure_for_failed_peers_witness :
    (handle_mds_map 0 exampleConf creatingNode failureMessage).isSome = true ∧
    (∃ added, marks creatingAfterFailure = marks creatingNode ++ added ∧
      Mark.handle_mds_failure 2 ∈ added ∧ Mark.handle_mds_failure 1 ∈ added) ∧
    marks creatingAfterFailure = [Mark.handle_mds_failure 2, Mark.handle_mds_failure 0,
      Mark.handle_mds_failure 1] :=
  have key := handle_mds_failure_for_failed_peers 0 exampleConf creatingNode failureMessage
    (by decide) (by decide) (by decide)
  ⟨key.1 ⟨fun _ _ => by decide, fun hx => absurd hx (by decide)⟩,
    (key.2 creatingAfterFailure rfl).imp fun _ hk =>
      ⟨hk.1, hk.2.1 2 (by decide) (by decide), hk.2.2 1 (by decide) rfl (by decide)⟩,
    rfl⟩

/-! ## The assertion of the acknowledgement handler -/

theorem stamp_insert_append (k v : Nat) (l : List (Nat × Nat)) (h : ∀ e ∈ l, e.1 < k) :
    stamp_insert k v l = l ++ [(k, v)] := by
  induction l with
  | nil => rfl
  | cons x l ih =>
    obtain ⟨k1, v1⟩ := x
    have h1 : k1 < k := h (k1, v1) (List.mem_cons_self _ _)
    simp only [stamp_insert]
    rw [if_neg (Nat.lt_asymm h1), if_neg (Nat.ne_of_gt h1),
      ih (fun e he => h e (List.mem_cons_of_mem _ he))]
    rfl

/-- In a ledger ordered by sequence and by timestamp, a greater sequence has a
greater timestamp. -/
theorem ledger_stamp_lt (l : List (Nat × Nat))
    (hp : l.Pairwise (fun a b => a.1 < b.1 ∧ a.2 < b.2)) (a b : Nat × Nat)
    (ha : a ∈ l) (hb : b ∈ l) (hk : a.1 < b.1) : a.2 < b.2 := by
  induction l with
  | nil => cases ha
  | cons x l ih =>
    obtain ⟨hx, hl⟩ := List.pairwise_cons.mp hp
    rcases List.mem_cons.mp ha with rfl | ha1
    · rcases List.mem_cons.mp hb with rfl | hb1
      · exact absurd hk (Nat.lt_irrefl _)
      · exact (hx b hb1).2
    · rcases List.mem_cons.mp hb with rfl | hb1
      · exact absurd hk (Nat.lt_asymm (hx a ha1).1)
      · exact ih hl ha1 hb1

/-- The acknowledgement handler completes when the sequence is not in the
ledger, or its timestamp is above last_acked_stamp. -/
theorem handle_mds_beacon_isSome_of (now : Nat) (conf : Conf) (s : MDS) (m : Message)
    (h : stamp_count m.seq s.beacon_seq_stamp = true →
      s.beacon_last_acked_stamp < stamp_get m.seq s.beacon_seq_stamp) :
    (handle_mds_beacon now conf s m).isSome = true := by
  simp only [handle_mds_beacon, set_last_mon_beacon_seq_stamp,
    set_last_mon_beacon_last_acked_stamp]
  by_cases hin : stamp_count m.seq s.beacon_seq_stamp = true
  · rw [if_pos hin, if_pos (h hin)]
    rfl
  · rw [if_neg hin]
    rfl

theorem ledger_ok_send (now : Nat) (conf : Conf) (s : MDS) (T : Nat) (h : ledger_ok s T)
    (hT : T < now) : ledger_ok (beacon_send now conf s) now := by
  obtain ⟨h1, h2, h3⟩ := h
  have hk : ∀ e ∈ s.beacon_seq_stamp, e.1 < s.beacon_last_seq + 1 :=
    fun e he => Nat.lt_succ_of_le (h2 e he).2.2
  simp only [ledger_ok, beacon_send_beacon_seq_stamp, beacon_send_beacon_last_acked_stamp,
    beacon_send_beacon_last_seq]
  rw [stamp_insert_append _ _ _ hk]
  refine ⟨?_, ?_, Nat.le_of_lt (Nat.lt_of_le_of_lt h3 hT)⟩
  · rw [List.pairwise_append]
    refine ⟨h1, List.pairwise_singleton _ _, ?_⟩
    intro a ha b hb
    simp only [List.mem_singleton] at hb
    subst hb
    exact ⟨hk a ha, Nat.lt_of_le_of_lt (h2 a ha).2.1 hT⟩
  · intro e he
    rcases List.mem_append.mp he with he | he
    · exact ⟨(h2 e he).1, Nat.le_of_lt (Nat.lt_of_le_of_lt (h2 e he).2.1 hT),
        Nat.le_succ_of_le (h2 e he).2.2⟩
    · simp only [List.mem_singleton] at he
      subst he
      exact ⟨Nat.lt_of_le_of_lt h3 hT, Nat.le_refl _, Nat.le_refl _⟩

theorem ledger_ok_ack (now : Nat) (conf : Conf) (s : MDS) (T : Nat) (m : Message)
    (h : ledger_ok s T) :
    ∃ s1, handle_mds_beacon now conf s m = some s1 ∧ ledger_ok s1 T ∧
      s.beacon_last_acked_stamp ≤ s1.beacon_last_acked_stamp := by
  obtain ⟨h1, h2, h3⟩ := h
  have hsome : (handle_mds_beacon now conf s m).isSome = true :=
    handle_mds_beacon_isSome_of now conf s m
      (fun hin => (h2 _ (stamp_get_mem _ _ hin)).1)
  obtain ⟨s1, hs1⟩ := Option.isSome_iff_exists.mp hsome
  refine ⟨s1, hs1, ?_⟩
  by_cases hin : stamp_count m.seq s.beacon_seq_stamp = true
  · obtain ⟨e1, e2, e3⟩ := handle_mds_beacon_accepted now conf s s1 m hin hs1
    have hmem := stamp_get_mem _ _ hin
    have hka : keys_ascending s.beacon_seq_stamp := h1.imp (fun hab => hab.1)
    rw [erase_upto_eq_filter _ _ hka] at e2
    refine ⟨⟨?_, ?_, ?_⟩, ?_⟩
    · rw [e2]
      exact h1.sublist (List.filter_sublist _)
    · intro e he
      rw [e2] at he
      obtain ⟨he1, he2⟩ := List.mem_filter.mp he
      have hlt : m.seq < e.1 := by simpa using he2
      rw [e1, e3]
      exact ⟨ledger_stamp_lt _ h1 (m.seq, stamp_get m.seq s.beacon_seq_stamp) e hmem he1 hlt,
        (h2 e he1).2.1, (h2 e he1).2.2⟩
    · rw [e1]
      exact (h2 _ hmem).2.1
    · rw [e1]
      exact Nat.le_of_lt (h2 _ hmem).1
  · have hin2 : stamp_count m.seq s.beacon_seq_stamp = false := by simpa using hin
    obtain ⟨e1, e2, e3⟩ := handle_mds_beacon_ignored now conf s s1 m hin2 hs1
    refine ⟨⟨?_, ?_, ?_⟩, ?_⟩
    · rw [e2]
      exact h1
    · intro e he
      rw [e2] at he
      rw [e1, e3]
      exact h2 e he
    · rw [e1]
      exact h3
    · rw [e1]

theorem run_ok_step (conf : Conf) (s : MDS) (op : BeaconOp) (ops : List BeaconOp)
    (h : run_ok s (op :: ops)) :
    ∃ s1, beacon_op conf s op = some s1 ∧
      s.beacon_last_acked_stamp ≤ s1.beacon_last_acked_stamp ∧ run_ok s1 ops := by
  obtain ⟨T, hl, hp⟩ := h
  cases op with
  | send now =>
    simp only [send_times] at hp
    obtain ⟨hT, hrest⟩ := List.pairwise_cons.mp hp
    refine ⟨beacon_send now conf s, rfl, by simp, now, ?_, hrest⟩
    exact ledger_ok_send now conf s T hl (hT now (List.mem_cons_self _ _))
  | ack now m =>
    simp only [send_times] at hp
    obtain ⟨s1, h1, h2, h3⟩ := ledger_ok_ack now conf s T m hl
    exact ⟨s1, h1, h3, T, h2, hp⟩

/-- A run whose send clock readings keep increasing completes up to any point,
and last_acked_stamp does not decrease up to that point. -/
theorem run_ok_prefix (conf : Conf) (ops1 ops2 : List BeaconOp) :
    ∀ s : MDS, run_ok s (ops1 ++ ops2) →
      ∃ s1, beacon_run conf s ops1 = some s1 ∧
        s.beacon_last_acked_stamp ≤ s1.beacon_last_acked_stamp ∧ run_ok s1 ops2 := by
  induction ops1 with
  | nil =>
    intro s h
    exact ⟨s, rfl, Nat.le_refl _, h⟩
  | cons op ops ih =>
    intro s h
    obtain ⟨s1, h1, h2, h3⟩ := run_ok_step conf s op (ops ++ ops2) h
    obtain ⟨s2, k1, k2, k3⟩ := ih s1 h3
    refine ⟨s2, ?_, Nat.le_trans h2 k2, k3⟩
    simp only [beacon_run, h1, Option.some_bind]
    exact k1

theorem beacon_run_append (conf : Conf) (ops1 ops2 : List BeaconOp) (s : MDS) :
    beacon_run conf s (ops1 ++ ops2)
      = (beacon_run conf s ops1).bind fun s1 => beacon_run conf s1 ops2 := by
  induction ops1 generalizing s with
  | nil => rfl
  | cons op ops ih =>
    simp only [List.cons_append, beacon_run]
    cases beacon_op conf s op with
    | none => rfl
    | some s1 => exact ih s1

theorem run_ok_construct (whoami : Int) (myaddr fsid : Nat) (ops : List BeaconOp)
    (h : (0 :: send_times ops).Pairwise (fun a b => a < b)) :
    run_ok (MDS.construct whoami myaddr fsid) ops :=
  ⟨0, ⟨List.Pairwise.nil, fun _ he => absurd he (List.not_mem_nil _), Nat.le_refl _⟩, h⟩

/-- C21, as stated, fails: two beacons sent at the same clock reading 10 (the
readings 10, 10 are non-decreasing), then acknowledged in order.  The first
acknowledgement sets last_acked_stamp to 10; the second one trips the
assertion, whose comparison is strict. -/
theorem equal_stamps_trip_assertion :
    send_times equalStampRun = [10, 10] ∧
    (send_times equalStampRun).Pairwise (fun a b => a ≤ b) ∧
    (beacon_run exampleConf exampleNode (equalStampRun.take 3)).map
      (fun s => (s.beacon_last_acked_stamp, s.beacon_seq_stamp)) = some (10, [(2, 10)]) ∧
    beacon_run exampleConf exampleNode equalStampRun = none :=
  ⟨rfl, by decide, rfl, rfl⟩

/-- C21, amended.  In every run of beacon_send and handle_mds_beacon from a
new node in which the clock readings taken at successive beacon sends are
strictly increasing, the first one above zero (the initial last_acked_stamp),
processing an acknowledgement never trips the assertion that the send
timestamp of the acknowledged beacon is strictly greater than
last_acked_stamp: the run completes, up to any point of it, and
last_acked_stamp at that point is at most last_acked_stamp at the end. -/
theorem beacon_run_never_trips (conf : Conf) (whoami : Int) (myaddr fsid : Nat)
    (ops : List BeaconOp)
    (h : (0 :: send_times ops).Pairwise (fun a b => a < b)) :
    ∀ ops1 ops2, ops = ops1 ++ ops2 →
      ∃ s1 s2, beacon_run conf (MDS.construct whoami myaddr fsid) ops1 = some s1 ∧
        beacon_run conf s1 ops2 = some s2 ∧
        beacon_run conf (MDS.construct whoami myaddr fsid) ops = some s2 ∧
        s1.beacon_last_acked_stamp ≤ s2.beacon_last_acked_stamp := by
  intro ops1 ops2 hops
  subst hops
  obtain ⟨s1, h1, _, h3⟩ := run_ok_prefix conf ops1 ops2 _
    (run_ok_construct whoami myaddr fsid _ h)
  have h4 : run_ok s1 (ops2 ++ []) := by
    rw [List.append_nil]
    exact h3
  obtain ⟨s2, k1, k2, _⟩ := run_ok_prefix conf ops2 [] s1 h4
  refine ⟨s1, s2, h1, k1, ?_, k2⟩
  rw [beacon_run_append, h1]
  exact k1

/-- Beacons sent at readings 10, 20, 30 with the second and third acknowledged:
the run completes, and last_acked_stamp goes from 20 after the first
acknowledgement to 30 at the end. -/
theorem beacon_run_never_trips_witness :
    ∃ s1 s2, beacon_run exampleConf (MDS.construct 0 7 1) (increasingRun.take 3) = some s1 ∧
      beacon_run exampleConf s1 (increasingRun.drop 3) = some s2 ∧
      beacon_run exampleConf (MDS.construct 0 7 1) increasingRun = some s2 ∧
      s1.beacon_last_acked_stamp ≤ s2.beacon_last_acked_stamp :=
  beacon_run_never_trips exampleConf 0 7 1 increasingRun (by decide)
    (increasingRun.take 3) (increasingRun.drop 3) rfl

/-! ## At most one pending event per named timer -/

theorem ids_ok_filter (tm : List TimerEvent) (n : Nat) (p : TimerEvent → Bool)
    (h : ids_ok tm n) : ids_ok (tm.filter p) n :=
  ⟨h.1.sublist ((List.filter_sublist _).map _), fun e he => h.2 e (List.mem_filter.mp he).1⟩

theorem ids_ok_cancel (tm : List TimerEvent) (n : Nat) (x : Option Nat) (h : ids_ok tm n) :
    ids_ok (cancel_opt x tm) n := by
  cases x with
  | none => exact h
  | some x => exact ids_ok_filter tm n _ h

theorem ids_ok_add (tm : List TimerEvent) (n : Nat) (d : Due) (c : Context)
    (h : ids_ok tm n) : ids_ok (tm ++ [⟨n, d, c⟩]) (n + 1) := by
  refine ⟨?_, ?_⟩
  · rw [List.map_append, List.nodup_append]
    refine ⟨h.1, by simp, ?_⟩
    intro a ha hb
    obtain ⟨x, hx, rfl⟩ := List.mem_map.mp ha
    simp only [List.map_cons, List.map_nil, List.mem_singleton] at hb
    exact absurd hb (Nat.ne_of_lt (h.2 x hx))
  · intro e he
    rcases List.mem_append.mp he with he | he
    · exact Nat.lt_succ_of_lt (h.2 e he)
    · simp only [List.mem_singleton] at he
      subst he
      exact Nat.lt_succ_self _

theorem handle_ok_filter (k : TimerEvent → Bool) (tm : List TimerEvent) (h : Option Nat)
    (p : TimerEvent → Bool) (hk : handle_ok k tm h) : handle_ok k (tm.filter p) h :=
  fun e he => hk e (List.mem_filter.mp he).1

theorem handle_ok_cancel (k : TimerEvent → Bool) (tm : List TimerEvent) (h x : Option Nat)
    (hk : handle_ok k tm h) : handle_ok k (cancel_opt x tm) h := by
  cases x with
  | none => exact hk
  | some x => exact handle_ok_filter k tm h _ hk

/-- After the cancel of its handle no event of the kind is pending. -/
theorem cancel_opt_none_left (k : TimerEvent → Bool) (tm : List TimerEvent) (h : Option Nat)
    (hk : handle_ok k tm h) : ∀ e ∈ cancel_opt h tm, k e = false := by
  intro e he
  cases hb : k e with
  | false => rfl
  | true =>
    cases h with
    | none => exact absurd (hk e he hb) (by simp)
    | some x =>
      obtain ⟨he1, he2⟩ := List.mem_filter.mp he
      have hx := hk e he1 hb
      simp only [Option.some.injEq] at hx
      subst hx
      simp at he2

-- Arming the timer of kind `k` when none of its kind is pending.
theorem handle_ok_arm (k : TimerEvent → Bool) (tm : List TimerEvent) (new : TimerEvent)
    (hnone : ∀ e ∈ tm, k e = false) : handle_ok k (tm ++ [new]) (some new.id) := by
  intro e he hb
  rcases List.mem_append.mp he with he | he
  · rw [hnone e he] at hb
    cases hb
  · simp only [List.mem_singleton] at he
    subst he
    rfl

-- Arming a timer of another kind.
theorem handle_ok_add_other (k : TimerEvent → Bool) (tm : List TimerEvent) (h : Option Nat)
    (new : TimerEvent) (hk : handle_ok k tm h) (hnew : k new = false) :
    handle_ok k (tm ++ [new]) h := by
  intro e he hb
  rcases List.mem_append.mp he with he | he
  · exact hk e he hb
  · simp only [List.mem_singleton] at he
    subst he
    rw [hnew] at hb
    cases hb

/-- With distinct identities, at most one event of a kind is pending when every
such event is the one the handle names. -/
theorem handle_ok_at_most_one (k : TimerEvent → Bool) (tm : List TimerEvent) (h : Option Nat)
    (hn : (tm.map TimerEvent.id).Nodup) (hk : handle_ok k tm h) :
    (tm.filter k).length ≤ 1 := by
  have hn2 : ((tm.filter k).map TimerEvent.id).Nodup :=
    hn.sublist ((List.filter_sublist _).map _)
  have hall : ∀ e ∈ tm.filter k, h = some e.id :=
    fun e he => hk e (List.mem_filter.mp he).1 (List.mem_filter.mp he).2
  cases hl : tm.filter k with
  | nil => simp
  | cons a l =>
    cases l with
    | nil => simp
    | cons b l2 =>
      rw [hl] at hn2 hall
      have ha := hall a (List.mem_cons_self _ _)
      have hb := hall b (List.mem_cons_of_mem _ (List.mem_cons_self _ _))
      rw [ha] at hb
      simp only [Option.some.injEq] at hb
      simp only [List.map_cons, List.nodup_cons, List.mem_cons] at hn2
      exact absurd (Or.inl hb) hn2.1

theorem timers_ok_congr (s s1 : MDS) (hv : timer_view s1 = timer_view s) (h : timers_ok s) :
    timers_ok s1 := by
  simp only [timer_view, Prod.mk.injEq] at hv
  obtain ⟨e1, e2, e3, e4, e5⟩ := hv
  unfold timers_ok
  rw [e1, e2, e3, e4, e5]
  exact h

theorem reset_tick_view (conf : Conf) (s : MDS) :
    (reset_tick conf s).timer = cancel_opt s.tick_event s.timer ++
      [⟨s.next_ctx, Due.after conf.mds_tick_interval, Context.C_MDS_Tick⟩] ∧
    (reset_tick conf s).next_ctx = s.next_ctx + 1 ∧
    (reset_tick conf s).tick_event = some s.next_ctx ∧
    (reset_tick conf s).beacon_sender = s.beacon_sender ∧
    (reset_tick conf s).beacon_killer = s.beacon_killer := by
  cases h : s.tick_event <;> simp [reset_tick, cancel_opt, h]

theorem beacon_send_view (now : Nat) (conf : Conf) (s : MDS) :
    (beacon_send now conf s).timer = cancel_opt s.beacon_sender s.timer ++
      [⟨s.next_ctx, Due.after conf.mds_beacon_interval, Context.C_MDS_BeaconSender⟩] ∧
    (beacon_send now conf s).next_ctx = s.next_ctx + 1 ∧
    (beacon_send now conf s).tick_event = s.tick_event ∧
    (beacon_send now conf s).beacon_sender = some s.next_ctx ∧
    (beacon_send now conf s).beacon_killer = s.beacon_killer := by
  cases h : s.beacon_sender <;> simp [beacon_send, cancel_opt, h]

theorem reset_beacon_killer_view (conf : Conf) (s : MDS) :
    (reset_beacon_killer conf s).timer = cancel_opt s.beacon_killer s.timer ++
      [⟨s.next_ctx, Due.at_time (s.beacon_last_acked_stamp + conf.mds_beacon_grace),
        Context.C_MDS_BeaconKiller s.beacon_last_acked_stamp⟩] ∧
    (reset_beacon_killer conf s).next_ctx = s.next_ctx + 1 ∧
    (reset_beacon_killer conf s).tick_event = s.tick_event ∧
    (reset_beacon_killer conf s).beacon_sender = s.beacon_sender ∧
    (reset_beacon_killer conf s).beacon_killer = some s.next_ctx := by
  cases h : s.beacon_killer <;> simp [reset_beacon_killer, cancel_opt, h]

theorem timers_ok_reset_tick (conf : Conf) (s : MDS) (h : timers_ok s) :
    timers_ok (reset_tick conf s) := by
  obtain ⟨h1, h2, h3, h4⟩ := h
  obtain ⟨e1, e2, e3, e4, e5⟩ := reset_tick_view conf s
  unfold timers_ok
  rw [e1, e2, e3, e4, e5]
  exact ⟨ids_ok_add _ _ _ _ (ids_ok_cancel _ _ _ h1),
    handle_ok_arm _ _ ⟨s.next_ctx, _, _⟩ (cancel_opt_none_left _ _ _ h2),
    handle_ok_add_other _ _ _ _ (handle_ok_cancel _ _ _ _ h3) rfl,
    handle_ok_add_other _ _ _ _ (handle_ok_cancel _ _ _ _ h4) rfl⟩

theorem timers_ok_beacon_send (now : Nat) (conf : Conf) (s : MDS) (h : timers_ok s) :
    timers_ok (beacon_send now conf s) := by
  obtain ⟨h1, h2, h3, h4⟩ := h
  obtain ⟨e1, e2, e3, e4, e5⟩ := beacon_send_view now conf s
  unfold timers_ok
  rw [e1, e2, e3, e4, e5]
  exact ⟨ids_ok_add _ _ _ _ (ids_ok_cancel _ _ _ h1),
    handle_ok_add_other _ _ _ _ (handle_ok_cancel _ _ _ _ h2) rfl,
    handle_ok_arm _ _ ⟨s.next_ctx, _, _⟩ (cancel_opt_none_left _ _ _ h3),
    handle_ok_add_other _ _ _ _ (handle_ok_cancel _ _ _ _ h4) rfl⟩

theorem timers_ok_reset_beacon_killer (conf : Conf) (s : MDS) (h : timers_ok s) :
    timers_ok (reset_beacon_killer conf s) := by
  obtain ⟨h1, h2, h3, h4⟩ := h
  obtain ⟨e1, e2, e3, e4, e5⟩ := reset_beacon_killer_view conf s
  unfold timers_ok
  rw [e1, e2, e3, e4, e5]
  exact ⟨ids_ok_add _ _ _ _ (ids_ok_cancel _ _ _ h1),
    handle_ok_add_other _ _ _ _ (handle_ok_cancel _ _ _ _ h2) rfl,
    handle_ok_add_other _ _ _ _ (handle_ok_cancel _ _ _ _ h3) rfl,
    handle_ok_arm _ _ ⟨s.next_ctx, _, _⟩ (cancel_opt_none_left _ _ _ h4)⟩

theorem timers_ok_suicide (s : MDS) : timers_ok (suicide s) := by
  unfold timers_ok
  rw [suicide_timer, suicide_tick_event, suicide_beacon_sender, suicide_beacon_killer]
  exact ⟨⟨List.nodup_nil, fun _ he => absurd he (List.not_mem_nil _)⟩,
    fun _ he => absurd he (List.not_mem_nil _), fun _ he => absurd he (List.not_mem_nil _),
    fun _ he => absurd he (List.not_mem_nil _)⟩

theorem beacon_kill_timer_view (lab : Nat) (s : MDS) :
    timer_view (beacon_kill lab s) = timer_view s := by
  simp only [beacon_kill]
  split_ifs <;> rfl

theorem timers_ok_init (now : Nat) (conf : Conf) (s : MDS) (h : timers_ok s) :
    timers_ok (init now conf s) := by
  simp only [init, beacon_start]
  apply timers_ok_reset_tick
  apply timers_ok_congr _ (beacon_send now conf
    (set_want_rank (set_want_state MDSState.BOOT s).whoami (set_want_state MDSState.BOOT s))) rfl
  apply timers_ok_beacon_send
  exact timers_ok_congr _ s rfl h

theorem timers_ok_handle_mds_beacon (now : Nat) (conf : Conf) (s s1 : MDS) (m : Message)
    (h : timers_ok s) (hs : handle_mds_beacon now conf s m = some s1) : timers_ok s1 := by
  have key : ∀ X : MDS, timers_ok X →
      timers_ok (emit (.delete_message m) (reset_beacon_killer conf X)) :=
    fun X hX => timers_ok_congr _ _ rfl (timers_ok_reset_beacon_killer conf X hX)
  simp only [handle_mds_beacon] at hs
  split_ifs at hs with h0 h1 h2
  · simp only [Option.some.injEq] at hs
    subst hs
    exact key _ h
  · simp only [Option.some.injEq] at hs
    subst hs
    exact key _ h
  · simp only [Option.some.injEq] at hs
    subst hs
    exact h

theorem tick_log_timer_view (req : Nat) (s : MDS) :
    timer_view (tick_log req s) = timer_view s := by
  simp only [tick_log]
  split_ifs <;> rfl
theorem tick_sessions_timer_view (s : MDS) : timer_view (tick_sessions s) = timer_view s := by
  simp only [tick_sessions]
  split_ifs <;> rfl
theorem tick_reconnect_timer_view (s : MDS) : timer_view (tick_reconnect s) = timer_view s := by
  simp only [tick_reconnect]
  split_ifs <;> rfl
theorem tick_balance_timer_view (s : MDS) : timer_view (tick_balance s) = timer_view s := by
  simp only [tick_balance]
  split_ifs <;> rfl

theorem tick_timer_view (conf : Conf) (req : Nat) (s : MDS) :
    timer_view (tick conf req s) = timer_view (reset_tick conf (set_tick_event none s)) := by
  simp only [tick]
  split_ifs
  · rfl
  · rw [tick_balance_timer_view, tick_reconnect_timer_view, tick_sessions_timer_view,
      tick_log_timer_view]
    rfl

/-- The tick callback keeps the timer consistent when no tick event is pending,
as when the timer has just fired the one there was. -/
theorem timers_ok_tick (conf : Conf) (req : Nat) (s : MDS) (h : timers_ok s)
    (hnone : ∀ e ∈ s.timer, e.is_tick = false) : timers_ok (tick conf req s) := by
  apply timers_ok_congr _ _ (tick_timer_view conf req s)
  apply timers_ok_reset_tick
  obtain ⟨h1, _, h3, h4⟩ := h
  refine ⟨h1, ?_, h3, h4⟩
  intro e he hb
  have := hnone e he
  rw [this] at hb
  cases hb

theorem timers_ok_cancel_event (id : Nat) (s : MDS) (h : timers_ok s) :
    timers_ok (timer_cancel_event id s) := by
  obtain ⟨h1, h2, h3, h4⟩ := h
  exact ⟨ids_ok_filter _ _ _ h1, handle_ok_filter _ _ _ _ h2, handle_ok_filter _ _ _ _ h3,
    handle_ok_filter _ _ _ _ h4⟩

theorem timers_ok_fire (now : Nat) (conf : Conf) (req id : Nat) (s : MDS)
    (h : timers_ok s) : timers_ok (timer_fire now conf req id s) := by
  cases hf : s.timer.find? (fun e => e.id == id) with
  | none =>
    simp only [timer_fire, hf]
    exact h
  | some e =>
    have hmem : e ∈ s.timer := List.mem_of_find?_eq_some hf
    have hid : e.id = id := by simpa using List.find?_some hf
    have hc := timers_ok_cancel_event id s h
    simp only [timer_fire, hf]
    obtain ⟨eid, due, ctx⟩ := e
    cases ctx with
    | C_MDS_Tick =>
      simp only [timer_context_finish]
      apply timers_ok_tick conf req _ hc
      intro e1 he1
      cases hb : e1.is_tick with
      | false => rfl
      | true =>
        obtain ⟨he2, he3⟩ := List.mem_filter.mp he1
        have k1 := h.2.1 e1 he2 hb
        have k2 := h.2.1 _ hmem rfl
        rw [k1] at k2
        simp only [Option.some.injEq] at k2
        simp only at hid
        rw [k2, hid] at he3
        simp at he3
    | C_MDS_BeaconSender =>
      simp only [timer_context_finish]
      exact timers_ok_beacon_send now conf _ hc
    | C_MDS_BeaconKiller lab =>
      simp only [timer_context_finish]
      exact timers_ok_congr _ _ (beacon_kill_timer_view lab _) hc
    | C_MDS_RetryMessage m => simp only [timer_context_finish]; exact hc
    | C_MDS_BootStart n => simp only [timer_context_finish]; exact hc
    | C_MDS_CreateFinish => simp only [timer_context_finish]; exact hc
    | C_Gather_sub fin i => simp only [timer_context_finish]; exact hc
    | other i => simp only [timer_context_finish]; exact hc

theorem TimerReach.timers_ok (conf : Conf) (s : MDS) (h : TimerReach conf s) :
    MdsCore.timers_ok s := by
  induction h with
  | construct whoami myaddr fsid =>
    exact ⟨⟨List.nodup_nil, fun _ he => absurd he (List.not_mem_nil _)⟩,
      fun _ he => absurd he (List.not_mem_nil _), fun _ he => absurd he (List.not_mem_nil _),
      fun _ he => absurd he (List.not_mem_nil _)⟩
  | init now s _ ih => exact timers_ok_init now conf s ih
  | reset_tick s _ ih => exact timers_ok_reset_tick conf s ih
  | beacon_send now s _ ih => exact timers_ok_beacon_send now conf s ih
  | handle_mds_beacon now m s s1 _ hs ih => exact timers_ok_handle_mds_beacon now conf s s1 m ih hs
  | reset_beacon_killer s _ ih => exact timers_ok_reset_beacon_killer conf s ih
  | beacon_kill lab s _ ih => exact timers_ok_congr _ _ (beacon_kill_timer_view lab s) ih
  | suicide s _ _ => exact timers_ok_suicide s
  | fire now req id s _ ih => exact timers_ok_fire now conf req id s ih

/-- C23.  In every state reachable through init, reset_tick, tick,
beacon_send, handle_mds_beacon, reset_beacon_killer, beacon_kill and suicide,
where tick, which the program calls from nowhere else, runs as the callback of
the tick event the timer has just fired (and beacon_send and beacon_kill run
both when called and as callbacks), at most one timer event is pending for each
of the three named timers (tick, beacon sender, beacon killer). -/
theorem at_most_one_pending (conf : Conf) (s : MDS) (h : TimerReach conf s) :
    pending TimerEvent.is_tick s ≤ 1 ∧ pending TimerEvent.is_beacon_sender s ≤ 1 ∧
    pending TimerEvent.is_beacon_killer s ≤ 1 := by
  obtain ⟨h1, h2, h3, h4⟩ := TimerReach.timers_ok conf s h
  exact ⟨handle_ok_at_most_one _ _ _ h1.1 h2, handle_ok_at_most_one _ _ _ h1.1 h3,
    handle_ok_at_most_one _ _ _ h1.1 h4⟩

/-- After init the timer fires the tick event: the callback re-arms, and one
tick event and one beacon sender are pending. -/
theorem at_most_one_pending_witness :
    (pending TimerEvent.is_tick tickFiredAfterInit ≤ 1 ∧
      pending TimerEvent.is_beacon_sender tickFiredAfterInit ≤ 1 ∧
      pending TimerEvent.is_beacon_killer tickFiredAfterInit ≤ 1) ∧
    pending TimerEvent.is_tick tickFiredAfterInit = 1 ∧
    tickFiredAfterInit.tick_event = some 2 :=
  ⟨at_most_one_pending exampleConf tickFiredAfterInit
    (TimerReach.fire 5 0 1 _ (TimerReach.init 0 _ (TimerReach.construct 0 7 1))), rfl, rfl⟩

/-! ## The peer epochs are written by the senders and the epoch note only -/

@[simp] theorem reopen_logger_peer_mdsmap_epoch (start : Nat) (s : MDS) :
    (reopen_logger start s).peer_mdsmap_epoch = s.peer_mdsmap_epoch := by
  simp only [reopen_logger]
  split_ifs <;> simp

@[simp] theorem map_open_logger_peer_mdsmap_epoch (oldwhoami : Int) (s : MDS) :
    (map_open_logger oldwhoami s).peer_mdsmap_epoch = s.peer_mdsmap_epoch := by
  simp only [map_open_logger]
  split_ifs <;> simp

@[simp] theorem map_update_messenger_peer_mdsmap_epoch (oldwhoami : Int) (s : MDS) :
    (map_update_messenger oldwhoami s).peer_mdsmap_epoch = s.peer_mdsmap_epoch := by
  simp only [map_update_messenger]
  split_ifs <;> simp

theorem map_tell_objecter_peer_mdsmap_epoch (s : MDS) (s1 : MDS)
    (h : map_tell_objecter s = some s1) : s1.peer_mdsmap_epoch = s.peer_mdsmap_epoch := by
  simp only [map_tell_objecter] at h
  split_ifs at h <;> simp only [Option.some.injEq] at h <;> subst h <;> simp

@[simp] theorem boot_create_root_peer_mdsmap_epoch (s : MDS) :
    (boot_create_root s).peer_mdsmap_epoch = s.peer_mdsmap_epoch := by
  simp only [boot_create_root]
  split_ifs <;> simp

@[simp] theorem boot_create_commit_root_peer_mdsmap_epoch (fin : Context) (s : MDS) :
    (boot_create_commit_root fin s).peer_mdsmap_epoch = s.peer_mdsmap_epoch := by
  simp only [boot_create_commit_root]
  split_ifs <;> simp

@[simp] theorem boot_create_tables_peer_mdsmap_epoch (fin : Context) (k : Nat) (s : MDS) :
    (boot_create_tables fin k s).peer_mdsmap_epoch = s.peer_mdsmap_epoch := by
  simp only [boot_create_tables]
  split_ifs <;> simp

@[simp] theorem boot_create_peer_mdsmap_epoch (s : MDS) :
    (boot_create s).peer_mdsmap_epoch = s.peer_mdsmap_epoch := by
  simp [boot_create]

@[simp] theorem boot_start_1_peer_mdsmap_epoch (s : MDS) :
    (boot_start_1 s).peer_mdsmap_epoch = s.peer_mdsmap_epoch := by
  simp only [boot_start_1]
  split_ifs <;> simp

@[simp] theorem resolve_start_peer_mdsmap_epoch (s : MDS) :
    (resolve_start s).peer_mdsmap_epoch = s.peer_mdsmap_epoch := by
  unfold resolve_start
  apply foldl_keeps MDS.peer_mdsmap_epoch
  intro s a
  split_ifs <;> simp

@[simp] theorem reconnect_start_peer_mdsmap_epoch (s : MDS) :
    (reconnect_start s).peer_mdsmap_epoch = s.peer_mdsmap_epoch := by
  simp [reconnect_start]

@[simp] theorem rejoin_joint_start_peer_mdsmap_epoch (s : MDS) :
    (rejoin_joint_start s).peer_mdsmap_epoch = s.peer_mdsmap_epoch := by
  simp [rejoin_joint_start]

@[simp] theorem bcast_mds_map_peer_mdsmap_epoch (s : MDS) :
    (bcast_mds_map s).peer_mdsmap_epoch = s.peer_mdsmap_epoch := by
  simp only [bcast_mds_map, set_last_client_mdsmap_bcast_peer_mdsmap_epoch_fn]
  apply foldl_keeps MDS.peer_mdsmap_epoch
  intro s a
  rfl

theorem recovery_done_peer_mdsmap_epoch (s : MDS) (s1 : MDS)
    (h : recovery_done s = some s1) : s1.peer_mdsmap_epoch = s.peer_mdsmap_epoch := by
  unfold recovery_done at h
  split_ifs at h <;> simp only [Option.some.injEq] at h <;> subst h <;> simp

@[simp] theorem stopping_start_peer_mdsmap_epoch (s : MDS) :
    (stopping_start s).peer_mdsmap_epoch = s.peer_mdsmap_epoch := by
  simp [stopping_start]

@[simp] theorem handle_mds_recovery_peer_mdsmap_epoch (s : MDS) (who : Int) :
    (handle_mds_recovery s who).peer_mdsmap_epoch = s.peer_mdsmap_epoch := by
  simp only [handle_mds_recovery]
  split_ifs <;> simp

@[simp] theorem map_delta_resolve_peer_mdsmap_epoch (oldmap : MDSMap) (s : MDS) :
    (map_delta_resolve oldmap s).peer_mdsmap_epoch = s.peer_mdsmap_epoch := by
  simp only [map_delta_resolve]
  split_ifs
  all_goals first
    | rfl
    | (apply foldl_keeps MDS.peer_mdsmap_epoch
       intro s a
       split_ifs <;> simp)

@[simp] theorem map_delta_rejoin_peer_mdsmap_epoch (conf : Conf) (oldmap : MDSMap) (s : MDS) :
    (map_delta_rejoin conf oldmap s).peer_mdsmap_epoch = s.peer_mdsmap_epoch := by
  simp only [map_delta_rejoin]
  split_ifs <;> simp

@[simp] theorem map_delta_active_peer_mdsmap_epoch (oldmap : MDSMap) (s : MDS) :
    (map_delta_active oldmap s).peer_mdsmap_epoch = s.peer_mdsmap_epoch := by
  simp only [map_delta_active]
  split_ifs
  all_goals first
    | rfl
    | (apply foldl_keeps MDS.peer_mdsmap_epoch
       intro s a
       split_ifs <;> simp)

@[simp] theorem map_delta_failed_peer_mdsmap_epoch (oldmap : MDSMap) (s : MDS) :
    (map_delta_failed oldmap s).peer_mdsmap_epoch = s.peer_mdsmap_epoch := by
  simp only [map_delta_failed]
  rw [foldl_keeps MDS.peer_mdsmap_epoch _ (by intro s a; split_ifs <;> simp),
    foldl_keeps MDS.peer_mdsmap_epoch _ (by intro s a; split_ifs <;> simp)]

@[simp] theorem map_delta_stopped_peer_mdsmap_epoch (oldmap : MDSMap) (s : MDS) :
    (map_delta_stopped oldmap s).peer_mdsmap_epoch = s.peer_mdsmap_epoch := by
  simp only [map_delta_stopped]
  split_ifs
  all_goals first
    | rfl
    | (apply foldl_keeps MDS.peer_mdsmap_epoch
       intro s a
       split_ifs <;> simp)

@[simp] theorem handle_mds_map_peer_deltas_peer_mdsmap_epoch (conf : Conf) (oldmap : MDSMap) (s : MDS) :
    (handle_mds_map_peer_deltas conf oldmap s).peer_mdsmap_epoch = s.peer_mdsmap_epoch := by
  simp [handle_mds_map_peer_deltas]

theorem handle_mds_map_state_change_peer_mdsmap_epoch (now : Nat) (conf : Conf) (oldstate : MDSState)
    (s : MDS) (f : Flow) (h : handle_mds_map_state_change now conf oldstate s = some f) :
    f.node.peer_mdsmap_epoch = s.peer_mdsmap_epoch := by
  simp only [handle_mds_map_state_change, MDS.is_active, MDS.is_replay, MDS.is_resolve,
    MDS.is_reconnect, MDS.is_creating, MDS.is_starting, MDS.is_stopping, MDS.is_stopped,
    set_want_state_state] at h
  by_cases hc : oldstate ≠ s.state
  · rw [if_pos hc] at h
    cases hs : s.state with
    | DNE =>
      simp only [hs, beq_self_eq_true, if_true, if_false, reduceCtorEq, beq_iff_eq] at h
      simp only [Option.some.injEq] at h
      subst h
      simp [Flow.node]
    | STANDBY =>
      simp only [hs, beq_self_eq_true, if_true, if_false, reduceCtorEq, beq_iff_eq] at h
      simp only [Option.some.injEq] at h
      subst h
      simp [Flow.node]
    | BOOT =>
      simp only [hs, beq_self_eq_true, if_true, if_false, reduceCtorEq, beq_iff_eq] at h
      simp only [Option.some.injEq] at h
      subst h
      simp [Flow.node]
    | CREATING =>
      simp only [hs, beq_self_eq_true, if_true, if_false, reduceCtorEq, beq_iff_eq] at h
      simp only [Option.some.injEq] at h
      subst h
      simp [Flow.node]
    | STARTING =>
      simp only [hs, beq_self_eq_true, if_true, if_false, reduceCtorEq, beq_iff_eq] at h
      rw [boot_start_zero] at h
      simp only [Option.map_some', Option.some.injEq] at h
      subst h
      simp [Flow.node]
    | REPLAY =>
      simp only [hs, beq_self_eq_true, if_true, if_false, reduceCtorEq, beq_iff_eq] at h
      rw [replay_start_eq] at h
      simp only [Option.map_some', Option.some.injEq] at h
      subst h
      simp [Flow.node]
    | RESOLVE =>
      simp only [hs, beq_self_eq_true, if_true, if_false, reduceCtorEq, beq_iff_eq] at h
      simp only [Option.some.injEq] at h
      subst h
      simp [Flow.node]
    | RECONNECT =>
      simp only [hs, beq_self_eq_true, if_true, if_false, reduceCtorEq, beq_iff_eq] at h
      simp only [Option.some.injEq] at h
      subst h
      simp [Flow.node]
    | REJOIN =>
      simp only [hs, beq_self_eq_true, if_true, if_false, reduceCtorEq, beq_iff_eq] at h
      simp only [Option.some.injEq] at h
      subst h
      simp [Flow.node]
    | ACTIVE =>
      simp only [hs, beq_self_eq_true, if_true, if_false, reduceCtorEq, beq_iff_eq] at h
      simp only [Option.map_eq_some'] at h
      obtain ⟨s2, h2, rfl⟩ := h
      split_ifs at h2
      · simpa [Flow.node] using recovery_done_peer_mdsmap_epoch _ _ h2
      · simp only [Option.some.injEq] at h2
        subst h2
        simp [Flow.node]
    | STOPPING =>
      simp only [hs, beq_self_eq_true, if_true, if_false, reduceCtorEq, beq_iff_eq] at h
      split_ifs at h
      simp only [Option.some.injEq] at h
      subst h
      simp [Flow.node]
    | STOPPED =>
      simp only [hs, beq_self_eq_true, if_true, if_false, reduceCtorEq, beq_iff_eq] at h
      split_ifs at h
      simp only [Option.some.injEq] at h
      subst h
      simp [Flow.node]
    | FAILED =>
      simp only [hs, beq_self_eq_true, if_true, if_false, reduceCtorEq, beq_iff_eq] at h
      simp only [Option.some.injEq] at h
      subst h
      simp [Flow.node]
  · rw [if_neg hc] at h
    simp only [Option.some.injEq] at h
    subst h
    rfl

theorem handle_mds_map_ranked_peer_mdsmap_epoch (now : Nat) (conf : Conf) (oldmap : MDSMap)
    (oldwhoami : Int) (oldstate : MDSState) (s : MDS) (m : Message) (s1 : MDS)
    (h : handle_mds_map_ranked now conf oldmap oldwhoami oldstate s m = some s1) :
    s1.peer_mdsmap_epoch = s.peer_mdsmap_epoch := by
  simp only [handle_mds_map_ranked, Option.bind_eq_some, Option.map_eq_some'] at h
  obtain ⟨s2, h2, f, h3, rfl⟩ := h
  have e2 := map_tell_objecter_peer_mdsmap_epoch _ _ h2
  have e3 := handle_mds_map_state_change_peer_mdsmap_epoch _ _ _ _ _ h3
  cases f with
  | proceed s3 =>
    simp only [Flow.node] at e3
    simp only [emit_peer_mdsmap_epoch_fn, handle_mds_map_peer_deltas_peer_mdsmap_epoch, e3]
    split_ifs <;> simp [e2]
  | returned s3 =>
    simp only [Flow.node] at e3
    simp only [e3]
    split_ifs <;> simp [e2]

/-- A reactor pass writes the peer epochs only in its first block, the note of
the epoch of the source. -/
theorem handle_mds_map_peer_mdsmap_epoch (now : Nat) (conf : Conf) (s : MDS) (m : Message)
    (s1 : MDS) (h : handle_mds_map now conf s m = some s1) :
    s1.peer_mdsmap_epoch = (note_peer_epoch s m).peer_mdsmap_epoch := by
  simp only [handle_mds_map] at h
  split_ifs at h
  · simp only [Option.some.injEq] at h; subst h; simp
  · simp only [Option.some.injEq] at h; subst h; simp
  · simp only [Option.some.injEq] at h; subst h; simp
  · simp only [Option.some.injEq] at h; subst h; simp
  · simpa using handle_mds_map_ranked_peer_mdsmap_epoch _ _ _ _ _ _ _ _ h

/-! ## What the peers were sent -/

theorem send_message_mds_sent_step (s : MDS) (out : OutMsg) (p : Int) :
    sent_step s (send_message_mds s out p) p := by
  by_cases hlt : s.peer_mdsmap_epoch p < s.mdsmap.get_epoch
  · simp [sent_step, step_sent, step_maps, step_delta, send_message_mds, send_mdsmap_first,
      hlt, Event.map_epoch]
  · simp [sent_step, step_sent, step_maps, step_delta, send_message_mds, send_mdsmap_first,
      hlt, Event.map_epoch]

theorem forward_message_mds_transport_sent_step (s : MDS) (m : Message) (p : Int) :
    sent_step s (forward_message_mds_transport s m p) p := by
  by_cases hlt : s.peer_mdsmap_epoch p < s.mdsmap.get_epoch
  · simp [sent_step, step_sent, step_maps, step_delta, forward_message_mds_transport,
      send_mdsmap_first, hlt, Event.map_epoch]
  · simp [sent_step, step_sent, step_maps, step_delta, forward_message_mds_transport,
      send_mdsmap_first, hlt, Event.map_epoch]

theorem forward_message_mds_step (K : MsgConsts) (s : MDS) (m : Message) (p : Int) :
    sent_step s (forward_message_mds K s m p) p ∨
    (step_sent s (forward_message_mds K s m p) = false ∧
      (forward_message_mds K s m p).peer_mdsmap_epoch = s.peer_mdsmap_epoch) := by
  by_cases hq : m.type = K.CEPH_MSG_CLIENT_REQUEST ∧ m.get_orig_source.is_client = true
  · by_cases hcf : m.can_forward = true
    · left
      by_cases hlt : s.peer_mdsmap_epoch p < s.mdsmap.get_epoch
      · simp [sent_step, step_sent, step_maps, step_delta, forward_message_mds,
          forward_message_mds_transport, send_mdsmap_first, hq, hcf, hlt, Event.map_epoch]
      · simp [sent_step, step_sent, step_maps, step_delta, forward_message_mds,
          forward_message_mds_transport, send_mdsmap_first, hq, hcf, hlt, Event.map_epoch]
    · right
      simp [step_sent, step_delta, forward_message_mds, hq, hcf]
  · left
    simp only [forward_message_mds, if_neg hq]
    exact forward_message_mds_transport_sent_step s m p

theorem peer_log_ok_sent (s s1 : MDS) (L : PeerLog) (p : Int) (h : peer_log_ok s L)
    (hs : sent_step s s1 p) : peer_log_ok s1 (log_send s s1 p L) := by
  obtain ⟨h1, h2, h3⟩ := hs
  simp only [log_send, h1, if_true, h2]
  intro q
  obtain ⟨hq1, hq2⟩ := h q
  by_cases hlt : s.peer_mdsmap_epoch p < s.mdsmap.get_epoch
  · rw [h3, if_pos hlt, if_pos hlt]
    by_cases hqp : q = p
    · subst hqp
      simp only [set_peer_epoch, if_true, List.map_cons, List.map_nil]
      refine ⟨Or.inl (List.mem_append_right _ (List.mem_singleton.mpr rfl)), ?_⟩
      intro e0 he0
      split_ifs at he0
      · exact Nat.le_of_lt (Nat.lt_of_le_of_lt (hq2 e0 he0) hlt)
      · rcases List.mem_append.mp he0 with he | he
        · exact Nat.le_of_lt (Nat.lt_of_le_of_lt (hq2 e0 he) hlt)
        · simp only [List.mem_singleton, Prod.mk.injEq, true_and] at he
          exact Nat.le_of_eq he
    · simp only [set_peer_epoch, if_neg hqp, List.map_cons, List.map_nil]
      refine ⟨?_, ?_⟩
      · rcases hq1 with hx | hx | hx
        · exact Or.inl (List.mem_append_left _ hx)
        · exact Or.inr (Or.inl hx)
        · exact Or.inr (Or.inr hx)
      · intro e0 he0
        split_ifs at he0
        · exact hq2 e0 he0
        · rcases List.mem_append.mp he0 with he | he
          · exact hq2 e0 he
          · simp only [List.mem_singleton, Prod.mk.injEq] at he
            exact absurd he.1 hqp
  · rw [h3, if_neg hlt, if_neg hlt]
    simp only [List.map_nil, List.append_nil]
    refine ⟨hq1, ?_⟩
    intro e0 he0
    split_ifs at he0
    · exact hq2 e0 he0
    · rcases List.mem_append.mp he0 with he | he
      · exact hq2 e0 he
      · simp only [List.mem_singleton, Prod.mk.injEq] at he
        rw [he.1, he.2]
        exact Nat.le_of_not_lt hlt

theorem peer_log_ok_map (now : Nat) (conf : Conf) (s s1 : MDS) (L : PeerLog) (m : Message)
    (h : peer_log_ok s L) (hs : handle_mds_map now conf s m = some s1) :
    peer_log_ok s1 (log_step s s1 L (.map now m)) := by
  have hp := handle_mds_map_peer_mdsmap_epoch now conf s m s1 hs
  rw [note_peer_epoch_eq] at hp
  simp only [set_peer_mdsmap_epoch_peer_mdsmap_epoch_fn] at hp
  intro q
  obtain ⟨hq1, hq2⟩ := h q
  rw [hp]
  simp only [log_step]
  by_cases hc : m.get_source.is_mds = true ∧ q = m.get_source.num
  · rw [if_pos hc, if_pos hc.1]
    by_cases hle : m.epoch ≤ s.peer_mdsmap_epoch q
    · rw [Nat.max_eq_left hle]
      refine ⟨?_, hq2⟩
      rcases hq1 with hx | hx | hx
      · exact Or.inl hx
      · exact Or.inr (Or.inl (List.mem_append_left _ hx))
      · exact Or.inr (Or.inr hx)
    · have hlt : s.peer_mdsmap_epoch q ≤ m.epoch := Nat.le_of_lt (Nat.lt_of_not_le hle)
      rw [Nat.max_eq_right hlt]
      refine ⟨Or.inr (Or.inl (List.mem_append_right _ ?_)), ?_⟩
      · rw [hc.2]
        exact List.mem_singleton.mpr rfl
      · intro e0 he0
        exact Nat.le_trans (hq2 e0 he0) hlt
  · rw [if_neg hc]
    refine ⟨?_, ?_⟩
    · split_ifs
      · rcases hq1 with hx | hx | hx
        · exact Or.inl hx
        · exact Or.inr (Or.inl (List.mem_append_left _ hx))
        · exact Or.inr (Or.inr hx)
      · exact hq1
    · split_ifs <;> exact hq2

theorem peer_log_ok_step (K : MsgConsts) (conf : Conf) (s s1 : MDS) (L : PeerLog)
    (op : PeerOp) (h : peer_log_ok s L) (hs : peer_op K conf s op = some s1) :
    peer_log_ok s1 (log_step s s1 L op) := by
  cases op with
  | send out p =>
    simp only [peer_op, Option.some.injEq] at hs
    subst hs
    exact peer_log_ok_sent _ _ _ _ h (send_message_mds_sent_step s out p)
  | forward m p =>
    simp only [peer_op, Option.some.injEq] at hs
    subst hs
    rcases forward_message_mds_step K s m p with hx | ⟨hx1, hx2⟩
    · exact peer_log_ok_sent _ _ _ _ h hx
    · simp only [log_step, log_send, hx1, Bool.false_eq_true, if_false]
      intro q
      rw [hx2]
      exact h q
  | map now m => exact peer_log_ok_map now conf s s1 L m h hs

theorem peer_run_ok (K : MsgConsts) (conf : Conf) (ops : List PeerOp) :
    ∀ (s : MDS) (L : PeerLog) (s1 : MDS) (L1 : PeerLog), peer_log_ok s L →
      peer_run K conf s L ops = some (s1, L1) → peer_log_ok s1 L1 := by
  induction ops with
  | nil =>
    intro s L s1 L1 h hr
    simp only [peer_run, Option.some.injEq, Prod.mk.injEq] at hr
    rw [← hr.1, ← hr.2]
    exact h
  | cons op ops ih =>
    intro s L s1 L1 h hr
    simp only [peer_run, Option.bind_eq_some] at hr
    obtain ⟨s2, h2, h3⟩ := hr
    exact ih s2 _ s1 L1 (peer_log_ok_step K conf s s2 L op h h2) h3

/-- C26, as stated, fails when the peer told the node its epoch: peer 1 sends
the node a map message of epoch 5, which the reactor notes and installs; the
heartbeat the node then sends to peer 1 goes out with no map ahead of it, so
peer_mdsmap_epoch[1] is 5 and no map of epoch 5 was ever sent to peer 1. -/
theorem heard_epoch_was_never_sent :
    (peer_run exampleConsts exampleConf exampleNode ⟨[], [], []⟩ heardThenSend).map
        (fun r => (r.1.peer_mdsmap_epoch 1, r.1.mdsmap.get_epoch, r.2.sent, r.2.heard,
          r.2.first))
      = some (5, 5, [], [(1, 5)], [(1, 5)]) ∧
    (peer_run exampleConsts exampleConf exampleNode ⟨[], [], []⟩ heardThenSend).map
        (fun r => r.1.trace.filterMap Event.map_epoch) = some [] ∧
    (peer_run exampleConsts exampleConf exampleNode ⟨[], [], []⟩ heardThenSend).map
        (fun r => r.1.trace.length) = some 2 :=
  ⟨rfl, rfl, rfl⟩

/-- C26, amended.  Take any run of send_message_mds, forward_message_mds and
handle_mds_map from a new node.  At every point of it, so at the time of every
send to a peer, and for every peer rank p: a cluster map whose epoch equals the
recorded peer_mdsmap_epoch[p] has been sent to p ahead of a message, or a map
message with that epoch has been received from p, or peer_mdsmap_epoch[p] is
still zero; and peer_mdsmap_epoch[p] is at least the map epoch that was current
at the first send to p. -/
theorem peer_epoch_accounted (K : MsgConsts) (conf : Conf) (whoami : Int) (myaddr fsid : Nat)
    (ops : List PeerOp) (s1 : MDS) (L1 : PeerLog)
    (h : peer_run K conf (MDS.construct whoami myaddr fsid) ⟨[], [], []⟩ ops = some (s1, L1)) :
    ∀ p, ((p, s1.peer_mdsmap_epoch p) ∈ L1.sent ∨ (p, s1.peer_mdsmap_epoch p) ∈ L1.heard ∨
        s1.peer_mdsmap_epoch p = 0) ∧
      ∀ e0, (p, e0) ∈ L1.first → e0 ≤ s1.peer_mdsmap_epoch p := by
  have h0 : peer_log_ok (MDS.construct whoami myaddr fsid) ⟨[], [], []⟩ :=
    fun p => ⟨Or.inr (Or.inr rfl), fun e0 he0 => absurd he0 (List.not_mem_nil _)⟩
  exact peer_run_ok K conf ops _ _ s1 L1 h0 h

/-- A node at epoch 3 sends two heartbeats to peer 1: the map of epoch 3 goes
ahead of the first one only, and peer_mdsmap_epoch[1] is 3, the epoch sent. -/
theorem peer_epoch_accounted_witness :
    (∀ p, ((p, sendTwiceResult.1.peer_mdsmap_epoch p) ∈ sendTwiceResult.2.sent ∨
        (p, sendTwiceResult.1.peer_mdsmap_epoch p) ∈ sendTwiceResult.2.heard ∨
        sendTwiceResult.1.peer_mdsmap_epoch p = 0) ∧
      ∀ e0, (p, e0) ∈ sendTwiceResult.2.first → e0 ≤ sendTwiceResult.1.peer_mdsmap_epoch p) ∧
    sendTwiceResult.1.peer_mdsmap_epoch 1 = 3 ∧
    sendTwiceResult.2.sent = [(1, 3)] ∧ sendTwiceResult.2.heard = [] ∧
    sendTwiceResult.2.first = [(1, 3)] ∧
    sendTwiceResult.1.trace.filterMap Event.map_epoch = [3] :=
  ⟨peer_epoch_accounted exampleConsts exampleConf 0 7 1 sendTwice sendTwiceResult.1
    sendTwiceResult.2 rfl, rfl, rfl, rfl, rfl, rfl⟩

end MdsCore
